import Mathlib

/-!
# Market_Miner: a shallow embedding of the trading gateway

The development embeds, as pure Lean functions over explicit state, the parts of
the C++ sources that the stated properties are about:

* `order_manager.hpp`      : `authenticate`, `make_authenticated_request`
* `performance_monitor.hpp`: the metrics store and its percentile query
* `websocket_server.cpp`   : the per-session outbound queue, the subscription
  registry, `handle_subscription`, `on_read`

Conventions.

* Time points are integers counting nanosecond ticks since the epoch.
* A C++ `double` is represented by the rational number it holds. Sums and
  quotients of durations are taken exactly; the product that indexes the
  percentile query is rounded as the machine rounds it (`round_to_double`).
* A `std::string` that is only compared is a `String`; a payload whose byte
  length matters is a list of bytes.
* A `std::map` is an association list in which a key occurs at most once.
* C++ exceptions are explicit values of `Exn`; undefined behaviour (an
  out-of-range vector read) is the value `none`.
-/

namespace MarketMiner

/-! ## Library types: JSON values, exceptions, clocks -/

/-- JSON values as held by `nlohmann::json`. -/
inductive Json where
  | null
  | boolean (b : Bool)
  | number_integer (n : Int)
  | number_float (q : Rat)
  | string (s : String)
  | array (xs : List Json)
  | object (members : List (String × Json))

/-- Exceptions that the embedded code throws or lets escape. -/
inductive Exn where
  | runtime_error (what : String)
  | json_parse_error (what : String)
  | json_type_error
  deriving DecidableEq, Repr

namespace Json

/-- Member test `j.contains(key)`: false for every value that is not an object. -/
def contains (j : Json) (key : String) : Bool :=
  match j with
  | object members => (members.lookup key).isSome
  | _ => false

/-- Member access `j[key]`; the sources only use it behind a `contains` guard. -/
def index (j : Json) (key : String) : Json :=
  match j with
  | object members => (members.lookup key).getD null
  | _ => null

/-- Conversion `get<std::string>()`: a type error for every non-string value. -/
def get_string (j : Json) : Except Exn String :=
  match j with
  | string s => .ok s
  | _ => .error .json_type_error

/-- Two's complement reduction of an integer to the range of a 32-bit `int`. -/
def wrap_int32 (n : Int) : Int := (n + 2147483648) % 4294967296 - 2147483648

/-- Truncation of a rational toward zero, as `static_cast` does for a double. -/
def truncate (q : Rat) : Int := if 0 ≤ q then Int.floor q else Int.ceil q

/-- Conversion `get<int>()`: numbers and booleans convert, every other value is a
type error. -/
def get_int (j : Json) : Except Exn Int :=
  match j with
  | number_integer n => .ok (wrap_int32 n)
  | number_float q => .ok (wrap_int32 (truncate q))
  | boolean b => .ok (if b then 1 else 0)
  | _ => .error .json_type_error

end Json

/-- Ticks of `std::chrono::seconds(n)` on the nanosecond clock. -/
def seconds (n : Int) : Int := n * 1000000000

/-- Value of `duration_cast<microseconds>(d).count()` for a tick difference `d`. -/
def to_microseconds (d : Int) : Int := Int.tdiv d 1000

/-! ## order_manager.hpp -/

/-- Outcome of one libcurl transfer: `curl_easy_init` returned null, or
`curl_easy_perform` failed with the given `curl_easy_strerror` text, or it
succeeded and `json::parse` of the received body either throws a parse error
(with its `what()` text) or yields a value. -/
inductive CurlResult where
  | init_failed
  | perform_failed (strerror : String)
  | ok (body : Except String Json)

/-- One scripted transfer of the remote side: the time it takes and its outcome. -/
structure Transfer where
  elapsed : Nat
  result : CurlResult

/-- An HTTP POST as configured on the curl handle. -/
structure HttpRequest where
  url : String
  post_data : Json
  headers : List String

/-- Observable actions of the client, in program order: an entry into
`authenticate`, the `curl_easy_perform` inside `authenticate`, and the
`curl_easy_perform` inside `make_authenticated_request`. -/
inductive Event where
  | authenticate_called
  | auth_perform (req : HttpRequest)
  | request_perform (req : HttpRequest)

/-- The surroundings of the client: the clock, the remaining behaviour of the
remote side and the actions observed so far. -/
structure Env where
  now : Int
  script : List Transfer
  trace : List Event

/-- The fields of `OrderManager`. -/
structure OrderManager where
  client_id_ : String
  client_secret_ : String
  access_token_ : String
  token_expiry_ : Int

/-- How a call ends: it returns, it throws, or the recursion budget of the
model ran out before the call ended. -/
inductive Outcome (α : Type) where
  | ret (a : α)
  | throw (e : Exn)
  | out_of_fuel

/-- State after a call together with the way the call ended. -/
structure Result (α : Type) where
  self : OrderManager
  env : Env
  out : Outcome α

/-- When the script is used up the remote side no longer answers and the
transfer ends by the 10 second `CURLOPT_TIMEOUT`. -/
def timed_out : Transfer := ⟨10000000000, .perform_failed "Timeout was reached"⟩

/-- Run one transfer: take the next scripted outcome, record the request unless
no handle could be created, and let the transfer time pass. -/
def Env.curl (env : Env) (performed : Event) : Env × CurlResult :=
  let t := env.script.headD timed_out
  match t.result with
  | .init_failed => (⟨env.now, env.script.tail, env.trace⟩, .init_failed)
  | r => (⟨env.now + t.elapsed, env.script.tail, env.trace ++ [performed]⟩, r)

/-- The request built by `authenticate`. -/
def auth_request (self : OrderManager) : HttpRequest :=
  { url := "https://test.deribit.com/api/v2/public/auth"
    post_data := .object [
      ("jsonrpc", .string "2.0"),
      ("id", .number_integer 1),
      ("method", .string "public/auth"),
      ("params", .object [
        ("grant_type", .string "client_credentials"),
        ("client_id", .string self.client_id_),
        ("client_secret", .string self.client_secret_),
        ("scope", .string "mainaccount")])]
    headers := ["Content-Type: application/json"] }

/-- The request built by `make_authenticated_request`. -/
def api_request (self : OrderManager) (method : String) (params : Json) : HttpRequest :=
  { url := "https://test.deribit.com/api/v2/" ++ method
    post_data := .object [
      ("jsonrpc", .string "2.0"),
      ("id", .number_integer 1),
      ("method", .string method),
      ("params", params)]
    headers := ["Content-Type: application/json",
                "Authorization: Bearer " ++ self.access_token_] }

/-- The expression `error.contains("message") ? error["message"].get<std::string>()
: "Unknown error"`. -/
def error_message_of (error : Json) : Except Exn String :=
  if error.contains "message" then (error.index "message").get_string else .ok "Unknown error"

/-- The expression `error.contains("code") ? error["code"].get<int>() : -1`. -/
def error_code_of (error : Json) : Except Exn Int :=
  if error.contains "code" then (error.index "code").get_int else .ok (-1)

/-- Embedding of `OrderManager::authenticate`. -/
def authenticate (self : OrderManager) (env : Env) : Result Unit :=
  let entered : Env := ⟨env.now, env.script, env.trace ++ [.authenticate_called]⟩
  let env1 := (entered.curl (.auth_perform (auth_request self))).1
  match (entered.curl (.auth_perform (auth_request self))).2 with
  | .init_failed =>
    ⟨self, env1, .throw (.runtime_error "Failed to initialize CURL")⟩
  | .perform_failed strerror =>
    ⟨self, env1, .throw (.runtime_error ("Authentication failed: " ++ strerror))⟩
  | .ok (.error what) =>
    ⟨self, env1, .throw (.runtime_error ("Failed to parse authentication response: " ++ what))⟩
  | .ok (.ok response) =>
    if response.contains "error" then
      match error_message_of (response.index "error") with
      | .error e => ⟨self, env1, .throw e⟩
      | .ok error_message =>
        match error_code_of (response.index "error") with
        | .error e => ⟨self, env1, .throw e⟩
        | .ok _ =>
          ⟨self, env1, .throw (.runtime_error ("Authentication failed: " ++ error_message))⟩
    else if !response.contains "result"
        || !(response.index "result").contains "access_token" then
      ⟨self, env1, .throw (.runtime_error "Invalid authentication response")⟩
    else
      match ((response.index "result").index "access_token").get_string with
      | .error e => ⟨self, env1, .throw e⟩
      | .ok token =>
        let self1 : OrderManager := { self with access_token_ := token }
        if (response.index "result").contains "expires_in" then
          match ((response.index "result").index "expires_in").get_int with
          | .error e => ⟨self1, env1, .throw e⟩
          | .ok expires_in =>
            ⟨{ self1 with token_expiry_ := env1.now + seconds expires_in }, env1, .ret ()⟩
        else
          ⟨self1, env1, .ret ()⟩

/-- The guard of the preemptive path:
`access_token_.empty() || now + seconds(30) >= token_expiry_`. -/
def needs_authentication (self : OrderManager) (now : Int) : Bool :=
  decide (self.access_token_ = "") || decide (now + seconds 30 ≥ self.token_expiry_)

/-- The first statement of `make_authenticated_request`: authenticate when the
guard holds. -/
def ensure_token (self : OrderManager) (env : Env) : Result Unit :=
  if needs_authentication self env.now then authenticate self env
  else ⟨self, env, .ret ()⟩

/-- Embedding of `OrderManager::make_authenticated_request`. The first argument
bounds the depth of the recursive retry. -/
def make_authenticated_request :
    Nat → OrderManager → Env → String → Json → Result Json
  | 0, self, env, _, _ => ⟨self, env, .out_of_fuel⟩
  | fuel + 1, self, env, method, params =>
    let pre := ensure_token self env
    match pre.out with
    | .throw e => ⟨pre.self, pre.env, .throw e⟩
    | .out_of_fuel => ⟨pre.self, pre.env, .out_of_fuel⟩
    | .ret _ =>
      let sent := pre.env.curl (.request_perform (api_request pre.self method params))
      match sent.2 with
      | .init_failed =>
        ⟨pre.self, sent.1, .throw (.runtime_error "Failed to initialize CURL")⟩
      | .perform_failed strerror =>
        ⟨pre.self, sent.1, .throw (.runtime_error ("Request failed: " ++ strerror))⟩
      | .ok (.error what) =>
        ⟨pre.self, sent.1, .throw (.runtime_error ("Failed to parse response: " ++ what))⟩
      | .ok (.ok response) =>
        if response.contains "error" then
          match error_message_of (response.index "error") with
          | .error e => ⟨pre.self, sent.1, .throw e⟩
          | .ok error_message =>
            match error_code_of (response.index "error") with
            | .error e => ⟨pre.self, sent.1, .throw e⟩
            | .ok error_code =>
              if error_code = 13009 then
                let re := authenticate pre.self sent.1
                match re.out with
                | .throw e => ⟨re.self, re.env, .throw e⟩
                | .out_of_fuel => ⟨re.self, re.env, .out_of_fuel⟩
                | .ret _ => make_authenticated_request fuel re.self re.env method params
              else
                ⟨pre.self, sent.1, .throw (.runtime_error ("API error: " ++ error_message))⟩
        else
          ⟨pre.self, sent.1, .ret response⟩

/-- The state of the surroundings once the transfer of the request has run. -/
def after_request (self : OrderManager) (env : Env) (method : String) (params : Json) : Env :=
  ((ensure_token self env).env.curl
    (.request_perform (api_request (ensure_token self env).self method params))).1

/-- The reactive call of `authenticate` that follows a token-expired response. -/
def reauthentication (self : OrderManager) (env : Env) (method : String) (params : Json) :
    Result Unit :=
  authenticate (ensure_token self env).self (after_request self env method params)

/-- Entries into `authenticate` recorded in a trace. -/
def authentications (trace : List Event) : Nat :=
  trace.countP fun
    | .authenticate_called => true
    | _ => false

/-- Transfers of `make_authenticated_request` recorded in a trace. -/
def requests (trace : List Event) : Nat :=
  trace.countP fun
    | .request_perform _ => true
    | _ => false

/-- The events a call added to the trace it started from. -/
def new_events (before after : Env) : List Event :=
  after.trace.drop before.trace.length

/-- Whether a response carries the token-expired code as the code sees it: it
has an `error` member, the message of that member can be read (it is absent
or a string, so the code reaches the comparison) and its code converts to
13009. -/
def carries_token_expired (response : Json) : Prop :=
  response.contains "error" = true ∧
    (∃ msg, error_message_of (response.index "error") = .ok msg) ∧
    error_code_of (response.index "error") = .ok 13009

/-! ## std::map -/

/-- Lookup `m.find(k)` in an association list. -/
def map_find {K V : Type} [DecidableEq K] (m : List (K × V)) (k : K) : Option V :=
  match m with
  | [] => none
  | (k1, v) :: rest => if k1 = k then some v else map_find rest k

/-- The access `m[k]` followed by a change `f` of the referenced value: a
missing key is first inserted with the value-initialised `dflt`. -/
def map_update {K V : Type} [DecidableEq K] (m : List (K × V)) (k : K) (dflt : V)
    (f : V → V) : List (K × V) :=
  match m with
  | [] => [(k, f dflt)]
  | (k1, v) :: rest =>
    if k1 = k then (k1, f v) :: rest else (k1, v) :: map_update rest k dflt f

/-- Each key occurs at most once, as in every `std::map`. -/
def unique_keys {K V : Type} (m : List (K × V)) : Prop := (m.map Prod.fst).Nodup

/-! ## performance_monitor.hpp -/

/-- The struct `PerformanceMonitor::OperationMetrics`; `start_time` holds
`time_since_epoch().count()`, which is 0 for a value-initialised time point. -/
structure OperationMetrics where
  start_time : Int
  durations : List Rat
  total_duration : Rat
  count : Nat

/-- A value-initialised `OperationMetrics`. -/
def OperationMetrics.fresh : OperationMetrics := ⟨0, [], 0, 0⟩

/-- The data member of `PerformanceMonitor`. -/
structure PerformanceMonitor where
  operation_metrics_ : List (String × OperationMetrics)

namespace PerformanceMonitor

/-- Embedding of `start_operation`. -/
def start_operation (self : PerformanceMonitor) (operation_name : String) (now : Int) :
    PerformanceMonitor :=
  ⟨map_update self.operation_metrics_ operation_name .fresh
    fun metrics => { metrics with start_time := now }⟩

/-- The body of `end_operation` on the referenced metrics. -/
def end_metrics (metrics : OperationMetrics) (end_time : Int) : OperationMetrics :=
  if metrics.start_time = 0 then metrics
  else
    let duration : Rat := (to_microseconds (end_time - metrics.start_time) : Rat) / 1000
    let pushed : OperationMetrics :=
      { metrics with
        durations := metrics.durations ++ [duration]
        total_duration := metrics.total_duration + duration
        count := metrics.count + 1 }
    if pushed.durations.length > 1000 then
      { pushed with
        total_duration := pushed.total_duration - pushed.durations.headD 0
        durations := pushed.durations.tail }
    else pushed

/-- Embedding of `end_operation`. -/
def end_operation (self : PerformanceMonitor) (operation_name : String) (end_time : Int) :
    PerformanceMonitor :=
  ⟨map_update self.operation_metrics_ operation_name .fresh fun metrics =>
    end_metrics metrics end_time⟩

/-- Embedding of `get_average_latency`. -/
def get_average_latency (self : PerformanceMonitor) (operation_name : String) : Rat :=
  match map_find self.operation_metrics_ operation_name with
  | none => 0
  | some metrics => if metrics.count = 0 then 0 else metrics.total_duration / metrics.count

/-- Embedding of `track_websocket_latency`. -/
def track_websocket_latency (self : PerformanceMonitor) (symbol : String) (latency_ms : Rat) :
    PerformanceMonitor :=
  ⟨map_update self.operation_metrics_ ("websocket_" ++ symbol) .fresh fun metrics =>
    { metrics with
      durations := metrics.durations ++ [latency_ms]
      total_duration := metrics.total_duration + latency_ms
      count := metrics.count + 1 }⟩

/-- The conversion `static_cast<size_t>(x)` of a double: the value truncated
toward zero when that is representable, undefined otherwise. -/
def to_size_t (x : Rat) : Option Nat :=
  if 0 ≤ Json.truncate x ∧ Json.truncate x < 18446744073709551616 then
    some (Json.truncate x).toNat
  else none

/-- Rounding of a rational number to the nearest integer, a tie going to the
even one. -/
def round_half_even (q : Rat) : Int :=
  if q - ⌊q⌋ < 1 / 2 then ⌊q⌋
  else if 1 / 2 < q - ⌊q⌋ then ⌊q⌋ + 1
  else if ⌊q⌋ % 2 = 0 then ⌊q⌋ else ⌊q⌋ + 1

/-- The `double` (IEEE 754 binary64) that an arithmetic operation with the exact
result `x` yields under round-to-nearest, ties to even: `x` is rounded to 53
significant bits, or to a multiple of 2^-1074 below the normal range. The
value is `none` when the result overflows to an infinity. -/
def round_to_double (x : Rat) : Option Rat :=
  if x = 0 then some 0
  else
    let e : Int := max (Int.log 2 |x| - 52) (-1074)
    let r : Rat := round_half_even (x / 2 ^ e) * 2 ^ e
    if |r| < 2 ^ (1024 : Nat) then some r else none

/-- The conversion of `sorted_durations.size()` to `double`, which is exact
below 2^53. Sizes from 2^53 on are left out of the model (`none`): a
`std::vector<double>` of that size has 2^56 bytes and does not exist together
with its copy in a 64-bit address space. -/
def size_to_double (size : Nat) : Option Rat :=
  if size < 9007199254740992 then some size else none

/-- The expression `percentile * sorted_durations.size()`: a product of two
doubles, rounded to a double. -/
def double_product (percentile : Rat) (size : Nat) : Option Rat :=
  match size_to_double size with
  | none => none
  | some s => round_to_double (percentile * s)

/-- Embedding of `get_percentile_latency`; `percentile` is the value of the
`double` argument. The result is `none` when the C++ code has undefined
behaviour, that is when the index conversion is out of range or the sorted
vector is read outside its bounds, and for the sizes that `size_to_double`
leaves out. -/
def get_percentile_latency (self : PerformanceMonitor) (operation_name : String)
    (percentile : Rat) : Option Rat :=
  match map_find self.operation_metrics_ operation_name with
  | none => some 0
  | some metrics =>
    if metrics.durations.isEmpty then some 0
    else
      let sorted_durations := metrics.durations.insertionSort (· ≤ ·)
      match double_product percentile sorted_durations.length with
      | none => none
      | some product =>
        match to_size_t product with
        | none => none
        | some index => sorted_durations[index]?

end PerformanceMonitor

/-! ## Concrete data used in examples -/

namespace Example

/-- A response whose error member carries the token-expired code. -/
def expired_response : Json :=
  .object [("error", .object [("code", .number_integer 13009),
    ("message", .string "invalid_token")])]

/-- A successful answer to the authentication request. -/
def auth_ok_response : Json :=
  .object [("result", .object [("access_token", .string "fresh"),
    ("expires_in", .number_integer 900)])]

/-- A successful answer to an order request. -/
def order_response : Json :=
  .object [("result", .object [("order", .object [("order_id", .string "42")])])]

/-- A client holding a token that expires at second 1000. -/
def client : OrderManager := ⟨"id", "secret", "tok", seconds 1000⟩

/-- A remote side that answers token-expired twice, accepting every
authentication, and then succeeds. -/
def expired_twice : Env :=
  ⟨0, [⟨0, .ok (.ok expired_response)⟩, ⟨0, .ok (.ok auth_ok_response)⟩,
       ⟨0, .ok (.ok expired_response)⟩, ⟨0, .ok (.ok auth_ok_response)⟩,
       ⟨0, .ok (.ok order_response)⟩], []⟩

/-- A remote side that answers one request, seen at the given time. -/
def one_answer (now : Int) : Env := ⟨now, [⟨0, .ok (.ok order_response)⟩], []⟩

/-- A monitor that has recorded the ten latencies 10, 20, ..., 100 for the
symbol `t`, in another order. -/
def ten_samples : PerformanceMonitor :=
  [30, 10, 20, 100, 90, 80, 70, 60, 50, 40].foldl
    (fun monitor latency => monitor.track_websocket_latency "t" latency) ⟨[]⟩

/-- A remote side that cannot be reached. -/
def unreachable : Env := ⟨0, [⟨0, .perform_failed "Timeout was reached"⟩], []⟩

/-- A remote side that rejects the first request with an application error. -/
def rejecting : Env :=
  ⟨0, [⟨0, .ok (.ok (.object [("error", .object [("code", .number_integer 10009),
    ("message", .string "not_enough_funds")])]))⟩], []⟩

end Example

/-! ## websocket_server.hpp, websocket_server.cpp -/

/-- One `char` of a payload. -/
abbrev Byte := Fin 256

/-- The constant `BUFFER_SIZE`. -/
def BUFFER_SIZE : Nat := 16384

/-- The constant `MESSAGE_QUEUE_SIZE`. -/
def MESSAGE_QUEUE_SIZE : Nat := 1024

/-- The struct `WebSocketMessage`; `data` is the content of the fixed array. -/
structure WebSocketMessage where
  data : List Byte
  size : Nat
  timestamp : Int

/-- The range `net::buffer(msg.data.data(), msg.size)` given to `async_write`. -/
def WebSocketMessage.buffer (msg : WebSocketMessage) : List Byte := msg.data.take msg.size

/-- The effect of `std::copy(message.begin(), message.end(), array.begin())` on
an array whose previous content is `array`. -/
def std_copy (message array : List Byte) : List Byte := message ++ array.drop message.length

/-- The call `queue.push(msg)` of a `boost::lockfree::spsc_queue` constructed for
`capacity` elements: `none` when the queue is full. -/
def spsc_push (capacity : Nat) (queue : List WebSocketMessage) (msg : WebSocketMessage) :
    Option (List WebSocketMessage) :=
  if queue.length < capacity then some (queue ++ [msg]) else none

/-- The state of one `WebSocketSession`. Besides the data members
`message_queue_` and `is_sending_` it records what the session did:
`read_pending` says that an `async_read` is outstanding, `writes_in_flight`
counts the `async_write` calls whose completion handler has not run, `written`
lists, for each `async_write` call, the bytes that the buffer view given to it
covered at the time of the call (what the transport reads through the view
later is the matter of `pending_write`) and `pushed` lists the payloads that
`send` put on the queue. -/
structure WebSocketSession where
  message_queue_ : List WebSocketMessage
  is_sending_ : Bool
  read_pending : Bool
  writes_in_flight : Nat
  written : List (List Byte)
  pushed : List (List Byte)

/-- A session after its constructor and `on_accept` have run: the queue is
empty, no write is active and the first read is outstanding. -/
def WebSocketSession.accepted : WebSocketSession := ⟨[], false, true, 0, [], []⟩

/-- Embedding of `WebSocketSession::process_message_queue`; `now` is the clock
reading taken after a successful pop. The message is popped into the local
variable `msg`, and `async_write` is given `net::buffer(msg.data.data(),
msg.size)`, a view of that local. -/
def process_message_queue (self : WebSocketSession) (monitor : PerformanceMonitor)
    (now : Int) : WebSocketSession × PerformanceMonitor :=
  if self.is_sending_ then (self, monitor)
  else
    match self.message_queue_ with
    | msg :: rest =>
      let latency : Rat := (to_microseconds (now - msg.timestamp) : Rat) / 1000
      ({ self with
          is_sending_ := true
          message_queue_ := rest
          writes_in_flight := self.writes_in_flight + 1
          written := self.written ++ [msg.buffer] },
        monitor.track_websocket_latency "queue_latency" latency)
    | [] => ({ self with is_sending_ := false }, monitor)

/-- Embedding of the completion handler that `process_message_queue` gives to
`async_write`; `ec` says whether the write failed. -/
def on_write (self : WebSocketSession) (monitor : PerformanceMonitor) (ec : Bool)
    (now : Int) : WebSocketSession × PerformanceMonitor :=
  let self1 : WebSocketSession :=
    { self with is_sending_ := false, writes_in_flight := self.writes_in_flight - 1 }
  if !ec then process_message_queue self1 monitor now else (self1, monitor)

/-- Embedding of `WebSocketSession::send`. `uninit` is the indeterminate
content of the local message array, `stamp` the clock reading stored in the
message and `now` the reading taken by `process_message_queue`. -/
def send (self : WebSocketSession) (monitor : PerformanceMonitor)
    (message uninit : List Byte) (stamp now : Int) : WebSocketSession × PerformanceMonitor :=
  if message.length > BUFFER_SIZE then (self, monitor)
  else
    let msg : WebSocketMessage := ⟨std_copy message uninit, message.length, stamp⟩
    match spsc_push MESSAGE_QUEUE_SIZE self.message_queue_ msg with
    | none => (self, monitor)
    | some queue =>
      let self1 : WebSocketSession :=
        { self with message_queue_ := queue, pushed := self.pushed ++ [message] }
      if !self1.is_sending_ then process_message_queue self1 monitor now
      else (self1, monitor)

/-- What can happen to a session, in any order: a call of `send`, a call of
`process_message_queue`, or the completion of a write. -/
inductive SessionCall where
  | send (message uninit : List Byte) (stamp now : Int)
  | process_message_queue (now : Int)
  | write_completed (ec : Bool) (now : Int)

/-- One step of a session under a call. -/
def session_step (state : WebSocketSession × PerformanceMonitor) (call : SessionCall) :
    WebSocketSession × PerformanceMonitor :=
  match call with
  | .send message uninit stamp now => send state.1 state.2 message uninit stamp now
  | .process_message_queue now => process_message_queue state.1 state.2 now
  | .write_completed ec now => on_write state.1 state.2 ec now

/-- A sequence of calls applied in order. -/
def session_run (state : WebSocketSession × PerformanceMonitor) (calls : List SessionCall) :
    WebSocketSession × PerformanceMonitor :=
  calls.foldl session_step state

/-- Number of `send` calls in a sequence of calls. -/
def send_calls (calls : List SessionCall) : Nat :=
  calls.countP fun
    | .send _ _ _ _ => true
    | _ => false

/-- Sessions are identified by the address their `shared_ptr` holds. -/
abbrev SessionId := Nat

/-- The gateway: the registry `WebSocketServer::subscriptions_`, the session
objects and the `PerformanceMonitor` singleton. -/
structure Gateway where
  subscriptions_ : List (SessionId × Finset String)
  sessions : SessionId → WebSocketSession
  monitor : PerformanceMonitor

/-- The symbols registered for a session; none when it has no entry. -/
def Gateway.symbols_of (g : Gateway) (session : SessionId) : Finset String :=
  (map_find g.subscriptions_ session).getD ∅

/-- The statements inside the `try` block of `handle_subscription`; an error is
an exception that reaches the `catch`. -/
def handle_subscription_try (g : Gateway) (self : SessionId) (msg : Json) :
    Except Exn Gateway :=
  if !msg.contains "action" || !msg.contains "symbol" then .ok g
  else
    match (msg.index "action").get_string with
    | .error e => .error e
    | .ok action =>
      match (msg.index "symbol").get_string with
      | .error e => .error e
      | .ok symbol =>
        if action = "subscribe" then
          .ok { g with subscriptions_ := map_update g.subscriptions_ self ∅ (insert symbol) }
        else if action = "unsubscribe" then
          .ok { g with
            subscriptions_ := map_update g.subscriptions_ self ∅ fun set => set.erase symbol }
        else .ok g

/-- Embedding of `WebSocketSession::handle_subscription`: the handler for
`std::exception` logs and returns. -/
def handle_subscription (g : Gateway) (self : SessionId) (msg : Json) : Gateway :=
  match handle_subscription_try g self msg with
  | .ok g1 => g1
  | .error _ => g

/-- The statements inside the `try` block of `on_read`; `payload` is the
received text as `json::parse` sees it, a parse error or a value. -/
def on_read_try (g : Gateway) (self : SessionId) (payload : Except String Json) :
    Except Exn Gateway :=
  match payload with
  | .error what => .error (.json_parse_error what)
  | .ok msg => .ok (handle_subscription g self msg)

/-- What `on_read` leaves behind: the gateway and the exception that left the
handler, if any. -/
structure ReadResult where
  gateway : Gateway
  escaped : Option Exn

/-- The call `do_read()`: a new `async_read` is outstanding. -/
def do_read (g : Gateway) (self : SessionId) : Gateway :=
  let session := g.sessions self
  { g with sessions := Function.update g.sessions self { session with read_pending := true } }

/-- Embedding of `WebSocketSession::on_read`; `ec` says whether the read
failed, `start_time` and `end_time` are the two clock readings. -/
def on_read (g : Gateway) (self : SessionId) (ec : Bool) (payload : Except String Json)
    (start_time end_time : Int) : ReadResult :=
  let session := g.sessions self
  let g0 : Gateway :=
    { g with sessions := Function.update g.sessions self { session with read_pending := false } }
  if ec then ⟨g0, none⟩
  else
    let g1 : Gateway :=
      match on_read_try g0 self payload with
      | .ok g1 => g1
      | .error _ => g0
    let duration : Rat := (to_microseconds (end_time - start_time) : Rat) / 1000
    let g2 : Gateway :=
      { g1 with monitor := g1.monitor.track_websocket_latency "message_processing" duration }
    ⟨do_read g2 self, none⟩

/-- The control message with action `subscribe` and the given symbol, as the
test clients send it. -/
def subscribe_message (symbol : String) : Json :=
  .object [("action", .string "subscribe"), ("symbol", .string symbol)]

/-- The control message with action `unsubscribe` and the given symbol. -/
def unsubscribe_message (symbol : String) : Json :=
  .object [("action", .string "unsubscribe"), ("symbol", .string symbol)]

/-- A received text that is no well-formed control message: it is not valid
JSON, or it lacks `action` or `symbol`, or one of the two is not a string. -/
def malformed_control (payload : Except String Json) : Prop :=
  match payload with
  | .error _ => True
  | .ok msg =>
    msg.contains "action" = false ∨ msg.contains "symbol" = false
      ∨ (∀ s, msg.index "action" ≠ .string s) ∨ (∀ s, msg.index "symbol" ≠ .string s)

/-- Modelled from the spec: the body of the loop of `broadcast` for one entry
of the registry, which section 4.1 gives as: a session subscribed to `symbol`
gets one call of its `send` with the payload, any other session is left alone. -/
def broadcast_step (symbol : String) (payload uninit : List Byte) (stamp now : Int)
    (acc : Gateway) (entry : SessionId × Finset String) : Gateway :=
  if symbol ∈ entry.2 then
    { acc with
      sessions := Function.update acc.sessions entry.1
        (send (acc.sessions entry.1) acc.monitor payload uninit stamp now).1
      monitor := (send (acc.sessions entry.1) acc.monitor payload uninit stamp now).2 }
  else acc

/-- Modelled from the spec: `WebSocketServer::broadcast` is called in
market_data.hpp but the sources do not define it. Following section 4.1, it
visits every entry of the registry and calls `send` on the sessions that are
subscribed to `symbol`. -/
def broadcast (g : Gateway) (symbol : String) (payload uninit : List Byte)
    (stamp now : Int) : Gateway :=
  g.subscriptions_.foldl (broadcast_step symbol payload uninit stamp now) g

/-- A gateway without subscriptions whose sessions have all just been accepted. -/
def Example.idle_gateway : Gateway := ⟨[], fun _ => .accepted, ⟨[]⟩⟩

/-- The payloads pushed so far are the contents, at the time of the call, of
the buffers already given to `async_write`, followed by those still queued. -/
def fifo (self : WebSocketSession) : Prop :=
  self.pushed = self.written ++ self.message_queue_.map WebSocketMessage.buffer

/-- The contents, at the time of the call, of the buffers given to
`async_write`, followed by the queued buffers. -/
def outbound (self : WebSocketSession) : List (List Byte) :=
  self.written ++ self.message_queue_.map WebSocketMessage.buffer

namespace PerformanceMonitor

/-- The window `durations` of an operation; empty when the store has no entry. -/
def window (self : PerformanceMonitor) (operation_name : String) : List Rat :=
  match map_find self.operation_metrics_ operation_name with
  | none => []
  | some metrics => metrics.durations

/-- The running sum `total_duration` of an operation; 0 without an entry. -/
def running_sum (self : PerformanceMonitor) (operation_name : String) : Rat :=
  match map_find self.operation_metrics_ operation_name with
  | none => 0
  | some metrics => metrics.total_duration

/-- The running count `count` of an operation; 0 without an entry. -/
def running_count (self : PerformanceMonitor) (operation_name : String) : Nat :=
  match map_find self.operation_metrics_ operation_name with
  | none => 0
  | some metrics => metrics.count

end PerformanceMonitor

/-- A call of one of the three recording functions of the store. -/
inductive MonitorCall where
  | start_operation (operation_name : String) (now : Int)
  | end_operation (operation_name : String) (end_time : Int)
  | track_websocket_latency (symbol : String) (latency_ms : Rat)

/-- The store after one call. -/
def monitor_step (monitor : PerformanceMonitor) (call : MonitorCall) : PerformanceMonitor :=
  match call with
  | .start_operation operation_name now => monitor.start_operation operation_name now
  | .end_operation operation_name end_time => monitor.end_operation operation_name end_time
  | .track_websocket_latency symbol latency_ms =>
    monitor.track_websocket_latency symbol latency_ms

/-- The store after a sequence of calls. -/
def monitor_run (monitor : PerformanceMonitor) (calls : List MonitorCall) :
    PerformanceMonitor :=
  calls.foldl monitor_step monitor

/-- A completed recording: the operation name, the clock reading taken by
`start_operation` and the one taken by the `end_operation` that follows it. -/
structure Recording where
  operation_name : String
  start_time : Int
  end_time : Int

/-- The duration in milliseconds that `end_operation` computes for a recording. -/
def Recording.duration (r : Recording) : Rat :=
  (to_microseconds (r.end_time - r.start_time) : Rat) / 1000

/-- The store after `start_operation` and `end_operation` of one recording. -/
def record (monitor : PerformanceMonitor) (r : Recording) : PerformanceMonitor :=
  (monitor.start_operation r.operation_name r.start_time).end_operation
    r.operation_name r.end_time

/-- The store after a sequence of completed recordings. -/
def record_all (monitor : PerformanceMonitor) (recordings : List Recording) :
    PerformanceMonitor :=
  recordings.foldl record monitor

/-- The durations of the recordings of one operation, in recording order. -/
def durations_of (operation_name : String) (recordings : List Recording) : List Rat :=
  (recordings.filter fun r => r.operation_name = operation_name).map Recording.duration

/-! ## order_manager.hpp: the public operations -/

/-- The assignment `j[key] = value`: on an object the member is replaced or
added, and a null value becomes an object with that one member. -/
def Json.assign (j : Json) (key : String) (value : Json) : Json :=
  match j with
  | .object members => .object (map_update members key .null fun _ => value)
  | .null => .object [(key, value)]
  | other => other

/-- What a public operation of `OrderManager` leaves behind: the client, the
surroundings, the `PerformanceMonitor` singleton, the way the call ended and,
in `latency_log`, the latency line that the operation itself writes with
`spdlog::info` after the request has returned, with its text and the number of
microseconds. The latency lines that `make_authenticated_request` and
`authenticate` write during the call are those of `request_log`. -/
structure ClientCall where
  self : OrderManager
  env : Env
  monitor : PerformanceMonitor
  out : Outcome Json
  latency_log : List (String × Int)

namespace OrderManager

/-- The body shared by the six public operations: read the clock, call
`make_authenticated_request`, read the clock again, log the latency and return
the response. An exception leaves the operation at the call, before the
second clock reading. The monitor is passed through because no statement of
`OrderManager` refers to it. -/
def timed_request (text : String) (fuel : Nat) (self : OrderManager) (env : Env)
    (monitor : PerformanceMonitor) (method : String) (params : Json) : ClientCall :=
  let start_time := env.now
  let r := make_authenticated_request fuel self env method params
  match r.out with
  | .ret response =>
    let end_time := r.env.now
    ⟨r.self, r.env, monitor, .ret response, [(text, to_microseconds (end_time - start_time))]⟩
  | .throw e => ⟨r.self, r.env, monitor, .throw e, []⟩
  | .out_of_fuel => ⟨r.self, r.env, monitor, .out_of_fuel, []⟩

/-- The object `params` that `place_order` builds. -/
def place_order_params (instrument_name : String) (amount : Int) (price : Rat)
    (type : String) (trigger_price : Rat) (time_in_force label : String)
    (post_only reduce_only : Bool) : Json :=
  let params0 : Json :=
    .object [("instrument_name", .string instrument_name),
      ("amount", .number_integer amount), ("type", .string type)]
  let params1 :=
    if price ≠ 0 ∧ type ≠ "market" then params0.assign "price" (.number_float price)
    else params0
  let params2 :=
    if trigger_price ≠ 0 ∧ (type = "stop_limit" ∨ type = "stop_market") then
      params1.assign "trigger_price" (.number_float trigger_price)
    else params1
  let params3 := if label ≠ "" then params2.assign "label" (.string label) else params2
  ((params3.assign "time_in_force" (.string time_in_force)).assign
    "post_only" (.boolean post_only)).assign "reduce_only" (.boolean reduce_only)

/-- Embedding of `OrderManager::place_order`. -/
def place_order (fuel : Nat) (self : OrderManager) (env : Env) (monitor : PerformanceMonitor)
    (instrument_name side : String) (amount : Int) (price : Rat) (type : String)
    (trigger_price : Rat) (time_in_force label : String) (post_only reduce_only : Bool) :
    ClientCall :=
  timed_request "Order placement latency" fuel self env monitor ("private/" ++ side)
    (place_order_params instrument_name amount price type trigger_price time_in_force label
      post_only reduce_only)

/-- Embedding of `OrderManager::cancel_order`. -/
def cancel_order (fuel : Nat) (self : OrderManager) (env : Env) (monitor : PerformanceMonitor)
    (order_id : String) : ClientCall :=
  timed_request "Order cancellation latency" fuel self env monitor "private/cancel"
    (.object [("order_id", .string order_id)])

/-- Embedding of `OrderManager::edit_order`. -/
def edit_order (fuel : Nat) (self : OrderManager) (env : Env) (monitor : PerformanceMonitor)
    (order_id : String) (amount : Int) (price : Rat) : ClientCall :=
  timed_request "Order modification latency" fuel self env monitor "private/edit"
    (.object [("order_id", .string order_id), ("amount", .number_integer amount),
      ("price", .number_float price)])

/-- Embedding of `OrderManager::get_positions`. -/
def get_positions (fuel : Nat) (self : OrderManager) (env : Env) (monitor : PerformanceMonitor)
    (currency : String) : ClientCall :=
  timed_request "Position query latency" fuel self env monitor "private/get_positions"
    (.object [("currency", .string currency)])

/-- Embedding of `OrderManager::get_orderbook`. -/
def get_orderbook (fuel : Nat) (self : OrderManager) (env : Env) (monitor : PerformanceMonitor)
    (instrument_name : String) (depth : Int) : ClientCall :=
  timed_request "Orderbook query latency" fuel self env monitor "public/get_order_book"
    (.object [("instrument_name", .string instrument_name), ("depth", .number_integer depth)])

/-- Embedding of `OrderManager::get_instruments`. -/
def get_instruments (fuel : Nat) (self : OrderManager) (env : Env)
    (monitor : PerformanceMonitor) (currency kind : String) (expired : Bool) : ClientCall :=
  timed_request "Instrument query latency" fuel self env monitor "public/get_instruments"
    (.object [("currency", .string currency), ("kind", .string kind),
      ("expired", .boolean expired)])

end OrderManager

/-- A call of one of the six public operations with its arguments. -/
inductive ClientOperation where
  | place_order (instrument_name side : String) (amount : Int) (price : Rat) (type : String)
      (trigger_price : Rat) (time_in_force label : String) (post_only reduce_only : Bool)
  | cancel_order (order_id : String)
  | edit_order (order_id : String) (amount : Int) (price : Rat)
  | get_positions (currency : String)
  | get_orderbook (instrument_name : String) (depth : Int)
  | get_instruments (currency kind : String) (expired : Bool)

/-- The call that a `ClientOperation` stands for. -/
def ClientOperation.run (operation : ClientOperation) (fuel : Nat) (self : OrderManager)
    (env : Env) (monitor : PerformanceMonitor) : ClientCall :=
  match operation with
  | .place_order instrument_name side amount price type trigger_price time_in_force label
      post_only reduce_only =>
    self.place_order fuel env monitor instrument_name side amount price type trigger_price
      time_in_force label post_only reduce_only
  | .cancel_order order_id => self.cancel_order fuel env monitor order_id
  | .edit_order order_id amount price => self.edit_order fuel env monitor order_id amount price
  | .get_positions currency => self.get_positions fuel env monitor currency
  | .get_orderbook instrument_name depth =>
    self.get_orderbook fuel env monitor instrument_name depth
  | .get_instruments currency kind expired =>
    self.get_instruments fuel env monitor currency kind expired

/-- Whether a call returned a value. -/
def Outcome.returned {α : Type} (out : Outcome α) : Bool :=
  match out with
  | .ret _ => true
  | _ => false

/-- The shape of every event that a call of `make_authenticated_request` for
`method` and `params` can add to the trace. -/
def request_event (method : String) (params : Json) (event : Event) : Prop :=
  event = .authenticate_called
    ∨ (∃ self : OrderManager, event = .auth_perform (auth_request self))
    ∨ (∃ self : OrderManager, event = .request_perform (api_request self method params))

/-- The trace `after` is the trace `before` followed by events that a call of
`make_authenticated_request` for `method` and `params` can add. -/
def extended_by_request (method : String) (params : Json) (before after : List Event) : Prop :=
  ∃ more, after = before ++ more ∧ ∀ event ∈ more, request_event method params event

/-! ## order_manager.hpp: the latency lines of the log -/

/-- The levels of the log lines that report a latency. -/
inductive LogLevel where
  | debug
  | info
  | error
  deriving DecidableEq, Repr

/-- A log line that reports a latency, named after the statement that writes
it, with the values it is formatted with; the last one is the number of
microseconds.

* `authenticated`: "Successfully authenticated with Deribit (latency: .. μs)"
* `request_failed`: "Request failed: .. (latency: .. μs)"
* `parse_failed`: "Failed to parse response: .. (latency: .. μs)"
* `api_error`: "API error: .. (code: .., latency: .. μs)"
* `request_successful`: "Request successful (method: .., latency: .. μs)"
* `operation`: the line of a public operation, such as
  "Order placement latency: .. microseconds" -/
inductive LatencyLine where
  | authenticated (microseconds : Int)
  | request_failed (strerror : String) (microseconds : Int)
  | parse_failed (what : String) (microseconds : Int)
  | api_error (error_message : String) (error_code : Int) (microseconds : Int)
  | request_successful (method : String) (microseconds : Int)
  | operation (text : String) (microseconds : Int)
  deriving DecidableEq, Repr

namespace LatencyLine

/-- The level at which a line is written. -/
def level : LatencyLine → LogLevel
  | authenticated _ => .info
  | request_failed _ _ => .error
  | parse_failed _ _ => .error
  | api_error _ _ _ => .error
  | request_successful _ _ => .debug
  | operation _ _ => .info

end LatencyLine

/-- The latency line of `authenticate`. It is the last statement of the `try`
block, reached exactly when the call returns; the duration runs from the entry
of the function to the end of the transfer. -/
def authenticate_log (self : OrderManager) (env : Env) : List LatencyLine :=
  match (authenticate self env).out with
  | .ret _ => [.authenticated (to_microseconds ((authenticate self env).env.now - env.now))]
  | _ => []

/-- The latency lines of the first statement of `make_authenticated_request`. -/
def ensure_token_log (self : OrderManager) (env : Env) : List LatencyLine :=
  if needs_authentication self env.now then authenticate_log self env else []

/-- The latency lines that a call of `make_authenticated_request` writes, in
order, following the statements of the function as
`make_authenticated_request` above does; the duration of a request runs from
the clock reading after the first statement to the end of the transfer. -/
def request_log : Nat → OrderManager → Env → String → Json → List LatencyLine
  | 0, _, _, _, _ => []
  | fuel + 1, self, env, method, params =>
    let pre := ensure_token self env
    let pre_log := ensure_token_log self env
    match pre.out with
    | .throw _ => pre_log
    | .out_of_fuel => pre_log
    | .ret _ =>
      let sent := pre.env.curl (.request_perform (api_request pre.self method params))
      let duration := to_microseconds (sent.1.now - pre.env.now)
      match sent.2 with
      | .init_failed => pre_log
      | .perform_failed strerror => pre_log ++ [.request_failed strerror duration]
      | .ok (.error what) => pre_log ++ [.parse_failed what duration]
      | .ok (.ok response) =>
        if response.contains "error" then
          match error_message_of (response.index "error") with
          | .error _ => pre_log
          | .ok error_message =>
            match error_code_of (response.index "error") with
            | .error _ => pre_log
            | .ok error_code =>
              if error_code = 13009 then
                match (authenticate pre.self sent.1).out with
                | .ret _ =>
                  pre_log ++ [.api_error error_message error_code duration]
                    ++ authenticate_log pre.self sent.1
                    ++ request_log fuel (authenticate pre.self sent.1).self
                        (authenticate pre.self sent.1).env method params
                | _ =>
                  pre_log ++ [.api_error error_message error_code duration]
                    ++ authenticate_log pre.self sent.1
              else pre_log ++ [.api_error error_message error_code duration]
        else pre_log ++ [.request_successful method duration]

/-- The text of the latency line, the method and the params of the request of
a public operation. -/
def ClientOperation.request (operation : ClientOperation) : String × String × Json :=
  match operation with
  | .place_order instrument_name side amount price type trigger_price time_in_force label
      post_only reduce_only =>
    ("Order placement latency", "private/" ++ side,
      OrderManager.place_order_params instrument_name amount price type trigger_price
        time_in_force label post_only reduce_only)
  | .cancel_order order_id =>
    ("Order cancellation latency", "private/cancel", .object [("order_id", .string order_id)])
  | .edit_order order_id amount price =>
    ("Order modification latency", "private/edit",
      .object [("order_id", .string order_id), ("amount", .number_integer amount),
        ("price", .number_float price)])
  | .get_positions currency =>
    ("Position query latency", "private/get_positions",
      .object [("currency", .string currency)])
  | .get_orderbook instrument_name depth =>
    ("Orderbook query latency", "public/get_order_book",
      .object [("instrument_name", .string instrument_name),
        ("depth", .number_integer depth)])
  | .get_instruments currency kind expired =>
    ("Instrument query latency", "public/get_instruments",
      .object [("currency", .string currency), ("kind", .string kind),
        ("expired", .boolean expired)])

/-- The latency lines that a call of a public operation writes, in order: those
of `make_authenticated_request` and then the line of the operation itself. -/
def ClientOperation.log (operation : ClientOperation) (fuel : Nat) (self : OrderManager)
    (env : Env) (monitor : PerformanceMonitor) : List LatencyLine :=
  request_log fuel self env operation.request.2.1 operation.request.2.2
    ++ (operation.run fuel self env monitor).latency_log.map fun line =>
        .operation line.1 line.2

/-! ## market_data_handler.hpp -/

/-- What one call of `make_request` meets: the clock readings taken by
`start_operation` before and by `end_operation` after the transfer, and the
outcome of the transfer. -/
structure Fetch where
  start_time : Int
  end_time : Int
  result : CurlResult

/-- The data members of `MarketDataHandler`; `active_instruments_` lists the
elements of the set in iteration order. -/
structure MarketDataHandler where
  running_ : Bool
  latest_orderbooks_ : List (String × Json)
  active_instruments_ : List String

namespace MarketDataHandler

/-- The URL that `get_orderbook` requests. -/
def orderbook_url (instrument_name : String) : String :=
  "https://test.deribit.com/api/v2/public/get_order_book?instrument_name=" ++ instrument_name

/-- Embedding of `MarketDataHandler::make_request`: the received text, given
as `json::parse` will see it, or the exception thrown. -/
def make_request (result : CurlResult) : Except Exn (Except String Json) :=
  match result with
  | .init_failed => .error (.runtime_error "Failed to initialize CURL")
  | .perform_failed strerror => .error (.runtime_error ("CURL request failed: " ++ strerror))
  | .ok body => .ok body

/-- Embedding of `MarketDataHandler::get_orderbook`; `remote` says what the
request of each URL meets. -/
def get_orderbook (monitor : PerformanceMonitor) (remote : String → Fetch)
    (instrument_name : String) : PerformanceMonitor × Except Exn Json :=
  let fetch := remote (orderbook_url instrument_name)
  let monitor1 := monitor.start_operation "get_orderbook" fetch.start_time
  match make_request fetch.result with
  | .error e => (monitor1, .error e)
  | .ok response =>
    let monitor2 := monitor1.end_operation "get_orderbook" fetch.end_time
    match response with
    | .error what => (monitor2, .error (.json_parse_error what))
    | .ok orderbook => (monitor2, .ok orderbook)

/-- The body of the loop over the copied instrument set in the update thread:
a fetched orderbook replaces the cached entry, an exception is logged. -/
def update_step (remote : String → Fetch) (state : MarketDataHandler × PerformanceMonitor)
    (instrument : String) : MarketDataHandler × PerformanceMonitor :=
  match get_orderbook state.2 remote instrument with
  | (monitor, .ok orderbook) =>
    ({ state.1 with
        latest_orderbooks_ :=
          map_update state.1.latest_orderbooks_ instrument .null fun _ => orderbook },
      monitor)
  | (monitor, .error _) => (state.1, monitor)

/-- One pass of the loop of the thread started by `start_update_thread`, from
`start_operation` to `end_operation`; `cycle_start` and `cycle_end` are the
clock readings of these two calls. -/
def update_cycle (self : MarketDataHandler) (monitor : PerformanceMonitor)
    (remote : String → Fetch) (cycle_start cycle_end : Int) :
    MarketDataHandler × PerformanceMonitor :=
  let monitor1 := monitor.start_operation "market_data_update" cycle_start
  let instruments := self.active_instruments_
  let state := instruments.foldl (update_step remote) (self, monitor1)
  (state.1, state.2.end_operation "market_data_update" cycle_end)

/-- The snapshot that the fetch of an instrument yields; none when it fails. -/
def fetched (remote : String → Fetch) (instrument : String) : Option Json :=
  match (remote (orderbook_url instrument)).result with
  | .ok (.ok orderbook) => some orderbook
  | _ => none

end MarketDataHandler

namespace Example

/-- A remote side on which the orderbook of ETH-PERPETUAL can be fetched and
every other request fails. -/
def only_eth (url : String) : Fetch :=
  if url = MarketDataHandler.orderbook_url "ETH-PERPETUAL" then
    ⟨1000000, 3000000, .ok (.ok (.object [("result", .string "eth book")]))⟩
  else ⟨1000000, 3000000, .perform_failed "Timeout was reached"⟩

/-- A handler polling two instruments with an old snapshot of the first. -/
def poller : MarketDataHandler :=
  ⟨true, [("BTC-PERPETUAL", .string "old btc book")], ["BTC-PERPETUAL", "ETH-PERPETUAL"]⟩

end Example

/-! ## websocket_server.cpp: accepting, closing, market data -/

/-- The accepting side of `WebSocketServer`: `accepts_issued` counts the calls
of `acceptor_.async_accept`, `handshakes` lists the sessions that were created
with `make_shared` and started, in order. -/
structure Acceptor where
  accepts_issued : Nat
  handshakes : List SessionId

namespace Acceptor

/-- Embedding of `WebSocketServer::do_accept`. -/
def do_accept (self : Acceptor) : Acceptor :=
  { self with accepts_issued := self.accepts_issued + 1 }

/-- Embedding of `WebSocketServer::start`, on a server that was just built. -/
def start : Acceptor := do_accept ⟨0, []⟩

/-- Embedding of `WebSocketServer::on_accept`; `ec` says whether the accept
failed and `socket` identifies the session made from the accepted socket. -/
def on_accept (self : Acceptor) (ec : Bool) (socket : SessionId) : Acceptor :=
  let self1 : Acceptor :=
    if ec then self else { self with handshakes := self.handshakes ++ [socket] }
  do_accept self1

/-- The acceptor after a sequence of accept completions. -/
def run (self : Acceptor) (completions : List (Bool × SessionId)) : Acceptor :=
  completions.foldl (fun acc completion => acc.on_accept completion.1 completion.2) self

end Acceptor

/-- A session is open while a read is outstanding for it: `on_read` issues the
next read unless the read it completes has failed or the peer has closed. -/
def Gateway.is_open (g : Gateway) (session : SessionId) : Bool :=
  (g.sessions session).read_pending

/-- Whether the registry has an entry for the session. -/
def Gateway.registered (g : Gateway) (session : SessionId) : Bool :=
  (map_find g.subscriptions_ session).isSome

/-- The completion handler of a write run on a session of the gateway. -/
def Gateway.write_completed (g : Gateway) (session : SessionId) (ec : Bool) (now : Int) :
    Gateway :=
  { g with
    sessions := Function.update g.sessions session
      (on_write (g.sessions session) g.monitor ec now).1
    monitor := (on_write (g.sessions session) g.monitor ec now).2 }

/-- The single-writer condition of a session: at most one write is in flight,
and one is in flight exactly while `is_sending_` is set. -/
def single_writer (self : WebSocketSession) : Prop :=
  self.writes_in_flight ≤ 1 ∧ (self.is_sending_ = true ↔ self.writes_in_flight = 1)

/-- The object that `handle_market_data` builds; `timestamp` is the value of
`system_clock::now().time_since_epoch().count()`. -/
def market_data_message (symbol : String) (data : Json) (timestamp : Int) : Json :=
  .object [("symbol", .string symbol), ("data", data), ("timestamp", .number_integer timestamp)]

/-- The statements inside the `try` block of `handle_market_data`; `dump` is
the serialization `json::dump`, which throws for text that is not UTF-8. -/
def handle_market_data_try (self : WebSocketSession) (monitor : PerformanceMonitor)
    (dump : Json → Except Exn (List Byte)) (symbol : String) (data : Json) (timestamp : Int)
    (uninit : List Byte) (stamp now : Int) :
    Except Exn (WebSocketSession × PerformanceMonitor) :=
  match dump (market_data_message symbol data timestamp) with
  | .error e => .error e
  | .ok text => .ok (send self monitor text uninit stamp now)

/-- What `handle_market_data` leaves behind: the session, the monitor and the
exception that left the function, if any. -/
structure MarketDataResult where
  session : WebSocketSession
  monitor : PerformanceMonitor
  escaped : Option Exn

/-- Embedding of `WebSocketSession::handle_market_data`; `start_time` and
`end_time` are the two readings of the high resolution clock, the other
readings are those of `send`. -/
def handle_market_data (self : WebSocketSession) (monitor : PerformanceMonitor)
    (dump : Json → Except Exn (List Byte)) (symbol : String) (data : Json)
    (start_time timestamp : Int) (uninit : List Byte) (stamp now end_time : Int) :
    MarketDataResult :=
  let state : WebSocketSession × PerformanceMonitor :=
    match handle_market_data_try self monitor dump symbol data timestamp uninit stamp now with
    | .ok state => state
    | .error _ => (self, monitor)
  let duration : Rat := (to_microseconds (end_time - start_time) : Rat) / 1000
  ⟨state.1, state.2.track_websocket_latency ("market_data_" ++ symbol) duration, none⟩

/-- The requests that `make_authenticated_request` transferred in a list of
events, in the order of the transfers. -/
def sent_requests (events : List Event) : List HttpRequest :=
  events.filterMap fun
    | .request_perform req => some req
    | _ => none

/-! ## performance_monitor.hpp: the detailed report -/

/-- One line of the report of `print_detailed_metrics`. -/
structure MetricsLine where
  operation_name : String
  average : Rat
  p50 : Option Rat
  p95 : Option Rat
  p99 : Option Rat
  count : Nat

/-- How `print_detailed_metrics` ends: it completes with the lines it wrote,
or it locks the `std::mutex` that it already holds, while working on the named
operation, and does not return. -/
inductive Printed where
  | completed (lines : List MetricsLine)
  | relocked (operation_name : String)

namespace PerformanceMonitor

/-- The call `get_percentile_latency` together with its `lock_guard`:
`mutex_held` says whether the calling thread holds `mutex_` already, in which
case the lock is never obtained and there is no result. -/
def locking_percentile (self : PerformanceMonitor) (mutex_held : Bool)
    (operation_name : String) (percentile : Rat) : Option (Option Rat) :=
  if mutex_held then none else some (self.get_percentile_latency operation_name percentile)

/-- The loop of `print_detailed_metrics` over the entries that are left, run
while the function holds `mutex_`. -/
def print_entries (self : PerformanceMonitor) :
    List (String × OperationMetrics) → List MetricsLine → Printed
  | [], lines => .completed lines
  | (operation_name, metrics) :: rest, lines =>
    if metrics.count > 0 then
      match self.locking_percentile true operation_name (1 / 2) with
      | none => .relocked operation_name
      | some p50 =>
        match self.locking_percentile true operation_name (19 / 20) with
        | none => .relocked operation_name
        | some p95 =>
          match self.locking_percentile true operation_name (99 / 100) with
          | none => .relocked operation_name
          | some p99 =>
            self.print_entries rest
              (lines ++ [⟨operation_name, metrics.total_duration / metrics.count,
                p50, p95, p99, metrics.count⟩])
    else self.print_entries rest lines

/-- Embedding of `print_detailed_metrics`, called by a thread that does not
hold `mutex_`. -/
def print_detailed_metrics (self : PerformanceMonitor) : Printed :=
  self.print_entries self.operation_metrics_ []

end PerformanceMonitor

namespace Example

/-- The `double` that the literal `0.95` denotes. -/
def p95 : Rat := 4278419646001971 / 4503599627370496

/-- The `double` that the literal `0.58` denotes. -/
def p58 : Rat := 5224175567749775 / 9007199254740992

/-- A store whose window for `op` holds the samples 1, 2, ..., n. -/
def counting (n : Nat) : PerformanceMonitor :=
  ⟨[("op", ⟨0, (List.range n).map fun i => (i : Rat) + 1, 0, n⟩)]⟩

/-- A gateway in which session 1 has subscribed to BTC-PERPETUAL. -/
def subscribed_gateway : Gateway :=
  handle_subscription idle_gateway 1 (subscribe_message "BTC-PERPETUAL")

/-- The test message that the performance client writes before it reads. -/
def test_message : Json :=
  .object [("type", .string "test"), ("client_id", .number_integer 0),
    ("message_id", .number_integer 0)]

/-- An answer to the authentication request whose `expires_in` is a string. -/
def auth_bad_expiry_response : Json :=
  .object [("result", .object [("access_token", .string "fresh"),
    ("expires_in", .string "900")])]

/-- A remote side that answers the authentication with that response. -/
def bad_expiry : Env := ⟨0, [⟨0, .ok (.ok auth_bad_expiry_response)⟩], []⟩

end Example

/-! # Theorems -/

/-! ### The exchange client -/

theorem curl_script (env : Env) (ev : Event) : (env.curl ev).1.script = env.script.tail := by
  unfold Env.curl
  dsimp only
  cases (env.script.headD timed_out).result <;> rfl

theorem curl_trace (env : Env) (ev : Event) :
    (env.curl ev).1.trace =
      env.trace ++ (match (env.script.headD timed_out).result with
        | .init_failed => []
        | _ => [ev]) := by
  unfold Env.curl
  dsimp only
  cases (env.script.headD timed_out).result <;> simp

theorem curl_result (env : Env) (ev : Event) :
    (env.curl ev).2 = (env.script.headD timed_out).result := by
  unfold Env.curl
  dsimp only
  cases (env.script.headD timed_out).result <;> rfl

theorem authenticate_env (self : OrderManager) (env : Env) :
    (authenticate self env).env =
      ((Env.mk env.now env.script (env.trace ++ [.authenticate_called])).curl
        (.auth_perform (auth_request self))).1 := by
  unfold authenticate
  dsimp only
  repeat' split
  all_goals rfl

theorem authenticate_out (self : OrderManager) (env : Env) :
    (authenticate self env).out ≠ .out_of_fuel := by
  unfold authenticate
  dsimp only
  repeat' split
  all_goals simp

theorem authenticate_script (self : OrderManager) (env : Env) :
    (authenticate self env).env.script = env.script.tail := by
  rw [authenticate_env, curl_script]

theorem authenticate_trace (self : OrderManager) (env : Env) :
    ∃ more, (authenticate self env).env.trace = env.trace ++ .authenticate_called :: more := by
  rw [authenticate_env, curl_trace]
  exact ⟨(match (env.script.headD timed_out).result with
    | .init_failed => []
    | _ => [.auth_perform (auth_request self)]), by simp⟩

/-- The trace of a call only grows. -/
theorem request_trace_grows (fuel : Nat) (self : OrderManager) (env : Env)
    (method : String) (params : Json) :
    ∃ more, (make_authenticated_request fuel self env method params).env.trace
      = env.trace ++ more := by
  induction fuel generalizing self env with
  | zero => exact ⟨[], by simp [make_authenticated_request]⟩
  | succ fuel ih =>
    have hpre : ∃ more, (ensure_token self env).env.trace = env.trace ++ more := by
      unfold ensure_token
      split
      · obtain ⟨more, h⟩ := authenticate_trace self env
        exact ⟨_, h⟩
      · exact ⟨[], by simp⟩
    obtain ⟨m0, h0⟩ := hpre
    have hsent : ∀ ev, ∃ more, ((ensure_token self env).env.curl ev).1.trace = env.trace ++ more := by
      intro ev
      rw [curl_trace, h0]
      exact ⟨_, by rw [List.append_assoc]⟩
    rw [make_authenticated_request]
    dsimp only
    repeat' split
    all_goals first
      | exact ⟨_, h0⟩
      | exact hsent _
      | skip
    all_goals
      obtain ⟨m1, h1⟩ :=
        hsent (.request_perform (api_request (ensure_token self env).self method params))
      obtain ⟨m2, h2⟩ := authenticate_trace (ensure_token self env).self
        ((ensure_token self env).env.curl
          (.request_perform (api_request (ensure_token self env).self method params))).1
      first
        | exact ⟨_, by rw [h2, h1, List.append_assoc]⟩
        | (obtain ⟨m3, h3⟩ := ih (authenticate (ensure_token self env).self
              ((ensure_token self env).env.curl
                (.request_perform (api_request (ensure_token self env).self method params))).1).self
              (authenticate (ensure_token self env).self
              ((ensure_token self env).env.curl
                (.request_perform (api_request (ensure_token self env).self method params))).1).env
           exact ⟨_, by rw [h3, h2, h1, List.append_assoc, List.append_assoc]⟩)

/-- After the prelude returned, the trace of the call extends the trace that
holds the request. -/
theorem request_trace_after_request (fuel : Nat) (self : OrderManager) (env : Env)
    (method : String) (params : Json) (hpre : (ensure_token self env).out = .ret ()) :
    ∃ more, (make_authenticated_request (fuel + 1) self env method params).env.trace
      = (after_request self env method params).trace ++ more := by
  rw [make_authenticated_request]
  dsimp only
  rw [hpre]
  dsimp only
  obtain ⟨m2, h2⟩ := authenticate_trace (ensure_token self env).self
    (after_request self env method params)
  repeat' split
  all_goals first
    | exact ⟨[], (List.append_nil _).symm⟩
    | exact ⟨_, h2⟩
    | (obtain ⟨m3, h3⟩ := request_trace_grows fuel
          (authenticate (ensure_token self env).self (after_request self env method params)).self
          (authenticate (ensure_token self env).self (after_request self env method params)).env
          method params
       exact ⟨_, by
        rw [show ((ensure_token self env).env.curl
          (.request_perform (api_request (ensure_token self env).self method params))).1
            = after_request self env method params from rfl, h3, h2, List.append_assoc]⟩)

/-- The trace of a call extends the trace left by its prelude. -/
theorem request_trace_after_prelude (fuel : Nat) (self : OrderManager) (env : Env)
    (method : String) (params : Json) :
    ∃ more, (make_authenticated_request (fuel + 1) self env method params).env.trace
      = (ensure_token self env).env.trace ++ more := by
  cases hout : (ensure_token self env).out with
  | ret u =>
    obtain ⟨more, h⟩ := request_trace_after_request fuel self env method params hout
    rw [h, after_request, curl_trace]
    exact ⟨_, by rw [List.append_assoc]⟩
  | throw e =>
    rw [make_authenticated_request]
    dsimp only
    rw [hout]
    exact ⟨[], by simp⟩
  | out_of_fuel =>
    rw [make_authenticated_request]
    dsimp only
    rw [hout]
    exact ⟨[], by simp⟩

theorem ensure_token_out (self : OrderManager) (env : Env) :
    (ensure_token self env).out ≠ .out_of_fuel := by
  unfold ensure_token
  split
  · exact authenticate_out self env
  · simp

theorem ensure_token_script (self : OrderManager) (env : Env) :
    (ensure_token self env).env.script.length ≤ env.script.length := by
  unfold ensure_token
  split
  · rw [authenticate_script]; simp
  · simp

/-- A call ends whenever the budget exceeds the length of the script. -/
theorem request_ends (fuel : Nat) (self : OrderManager) (env : Env)
    (method : String) (params : Json) (hfuel : env.script.length < fuel) :
    (make_authenticated_request fuel self env method params).out ≠ .out_of_fuel := by
  induction fuel generalizing self env with
  | zero => omega
  | succ fuel ih =>
    have hlen := ensure_token_script self env
    rw [make_authenticated_request]
    dsimp only
    split
    · simp
    · rename_i h; exact absurd h (ensure_token_out self env)
    · split
      · simp
      · simp
      · simp
      · rename_i response hsent
        rw [curl_result] at hsent
        have hne : (ensure_token self env).env.script ≠ [] := by
          intro hnil
          rw [hnil] at hsent
          simp [timed_out] at hsent
        have hlt : (ensure_token self env).env.script.tail.length < fuel := by
          have := List.length_pos.2 hne
          rw [List.length_tail]; omega
        repeat' split
        all_goals first
          | (rename_i h; exact absurd h (authenticate_out _ _))
          | exact Outcome.noConfusion
          | (apply ih
             rw [authenticate_script, curl_script]
             simp only [List.length_tail] at hlt ⊢
             omega)

/-- C1 (as amended): a token-expired response is answered by one call of
`authenticate`, made right after the request; when it fails its exception
ends the call, and when it succeeds the call continues as a new call of
`make_authenticated_request` with the same method and params, whose outcome is
the outcome of the whole call. -/
theorem c1_token_expired_restarts_the_call (fuel : Nat) (self : OrderManager) (env : Env)
    (method : String) (params : Json) (response : Json)
    (hpre : (ensure_token self env).out = .ret ())
    (hresp : ((ensure_token self env).env.script.headD timed_out).result
      = .ok (.ok response))
    (hexp : carries_token_expired response) :
    (reauthentication self env method params).env.trace
        = (ensure_token self env).env.trace
          ++ .request_perform (api_request (ensure_token self env).self method params)
          :: .authenticate_called
          :: (match ((after_request self env method params).script.headD timed_out).result with
              | .init_failed => []
              | _ => [.auth_perform (auth_request (ensure_token self env).self)])
      ∧ make_authenticated_request (fuel + 1) self env method params
        = match (reauthentication self env method params).out with
          | .ret _ =>
            make_authenticated_request fuel (reauthentication self env method params).self
              (reauthentication self env method params).env method params
          | .throw e =>
            ⟨(reauthentication self env method params).self,
              (reauthentication self env method params).env, .throw e⟩
          | .out_of_fuel =>
            ⟨(reauthentication self env method params).self,
              (reauthentication self env method params).env, .out_of_fuel⟩ := by
  obtain ⟨herr, ⟨msg, hmsg⟩, hcode⟩ := hexp
  constructor
  · rw [reauthentication, authenticate_env, curl_trace, after_request, curl_trace, hresp]
    simp
  · rw [make_authenticated_request]
    dsimp only
    rw [hpre]
    dsimp only
    rw [curl_result, hresp]
    dsimp only
    rw [if_pos herr, hmsg, hcode]
    dsimp only
    rw [if_pos rfl]
    unfold reauthentication after_request
    generalize authenticate (ensure_token self env).self
      ((ensure_token self env).env.curl
        (.request_perform (api_request (ensure_token self env).self method params))).1 = re
    rcases re with ⟨s, e, o⟩
    cases o <;> rfl

/-- C1 (witness): the theorem applied to a client with a valid token whose
first request is answered with code 13009. -/
theorem c1_token_expired_restarts_the_call_witness :
    carries_token_expired Example.expired_response
      ∧ make_authenticated_request 3 Example.client Example.expired_twice "private/buy" .null
        = make_authenticated_request 2
            (reauthentication Example.client Example.expired_twice "private/buy" .null).self
            (reauthentication Example.client Example.expired_twice "private/buy" .null).env
            "private/buy" .null :=
  ⟨⟨rfl, ⟨_, rfl⟩, rfl⟩,
    (c1_token_expired_restarts_the_call 2 Example.client Example.expired_twice "private/buy"
      .null Example.expired_response rfl rfl ⟨rfl, ⟨_, rfl⟩, rfl⟩).2⟩

/-- C1 (counterexample): the response to the retried request carries code
13009 again, and the client authenticates a second time and sends a third
request, whose result it returns. -/
theorem c1_second_expiry_is_retried_again :
    carries_token_expired Example.expired_response
      ∧ requests (make_authenticated_request 5 Example.client Example.expired_twice
          "private/buy" .null).env.trace = 3
      ∧ authentications (make_authenticated_request 5 Example.client Example.expired_twice
          "private/buy" .null).env.trace = 2
      ∧ (make_authenticated_request 5 Example.client Example.expired_twice
          "private/buy" .null).out = .ret Example.order_response :=
  ⟨⟨rfl, ⟨_, rfl⟩, rfl⟩, rfl, rfl, rfl⟩

theorem new_events_append (before after : Env) (more : List Event)
    (h : after.trace = before.trace ++ more) : new_events before after = more := by
  unfold new_events
  rw [h, List.drop_left]

theorem ensure_token_valid (self : OrderManager) (env : Env)
    (h : needs_authentication self env.now = false) :
    ensure_token self env = ⟨self, env, .ret ()⟩ := by
  unfold ensure_token
  rw [h]
  rfl

theorem ensure_token_stale (self : OrderManager) (env : Env)
    (h : needs_authentication self env.now = true) :
    ensure_token self env = authenticate self env := by
  unfold ensure_token
  rw [h]
  rfl

/-- A call that authenticates first starts its part of the trace with the
entry into `authenticate`. -/
theorem request_authenticates_first (fuel : Nat) (self : OrderManager) (env : Env)
    (method : String) (params : Json) (h : needs_authentication self env.now = true) :
    (new_events env (make_authenticated_request (fuel + 1) self env method params).env).head?
      = some .authenticate_called := by
  obtain ⟨more, hmore⟩ := request_trace_after_prelude fuel self env method params
  obtain ⟨m, hm⟩ := authenticate_trace self env
  rw [ensure_token_stale self env h, hm, List.append_assoc] at hmore
  rw [new_events_append env _ _ hmore]
  rfl

/-- A call that finds a valid token starts its part of the trace with the
request itself, or adds nothing when no curl handle could be created. -/
theorem request_sends_first (fuel : Nat) (self : OrderManager) (env : Env)
    (method : String) (params : Json) (h : needs_authentication self env.now = false) :
    (new_events env (make_authenticated_request (fuel + 1) self env method params).env).head?
      = match (env.script.headD timed_out).result with
        | .init_failed => none
        | _ => some (.request_perform (api_request self method params)) := by
  have hpre := ensure_token_valid self env h
  cases hres : (env.script.headD timed_out).result with
  | init_failed =>
    have : (make_authenticated_request (fuel + 1) self env method params).env.trace
        = env.trace ++ [] := by
      rw [make_authenticated_request]
      dsimp only
      rw [hpre]
      dsimp only
      rw [curl_result, hres]
      dsimp only
      rw [curl_trace, hres]
    rw [new_events_append env _ _ this]
    rfl
  | perform_failed strerror =>
    obtain ⟨more, hmore⟩ := request_trace_after_request fuel self env method params
      (by rw [hpre])
    rw [after_request, hpre, curl_trace, hres, List.append_assoc] at hmore
    rw [new_events_append env _ _ hmore]
    rfl
  | ok body =>
    obtain ⟨more, hmore⟩ := request_trace_after_request fuel self env method params
      (by rw [hpre])
    rw [after_request, hpre, curl_trace, hres, List.append_assoc] at hmore
    rw [new_events_append env _ _ hmore]
    rfl

/-- C2: with a non-empty token, a call issued more than 30 seconds before the
expiry sends its request without authenticating first, and a call issued less
than 30 seconds before the expiry enters `authenticate` before anything else;
with an empty token the call always enters `authenticate` first. -/
theorem c2_token_timing (fuel : Nat) (self : OrderManager) (env : Env)
    (method : String) (params : Json) :
    (self.access_token_ ≠ "" → env.now < self.token_expiry_ - seconds 30 →
      (new_events env (make_authenticated_request (fuel + 1) self env method params).env).head?
        = match (env.script.headD timed_out).result with
          | .init_failed => none
          | _ => some (.request_perform (api_request self method params)))
    ∧ (self.access_token_ ≠ "" → self.token_expiry_ - seconds 30 < env.now →
      (new_events env (make_authenticated_request (fuel + 1) self env method params).env).head?
        = some .authenticate_called)
    ∧ (self.access_token_ = "" →
      (new_events env (make_authenticated_request (fuel + 1) self env method params).env).head?
        = some .authenticate_called) := by
  refine ⟨fun htok hearly => ?_, fun _ hlate => ?_, fun hempty => ?_⟩
  · apply request_sends_first
    unfold needs_authentication
    simp only [Bool.or_eq_false_iff, decide_eq_false_iff_not, not_le, ge_iff_le]
    exact ⟨htok, by omega⟩
  · apply request_authenticates_first
    unfold needs_authentication
    simp only [Bool.or_eq_true, decide_eq_true_eq, ge_iff_le]
    exact Or.inr (by omega)
  · apply request_authenticates_first
    unfold needs_authentication
    simp only [Bool.or_eq_true, decide_eq_true_eq]
    exact Or.inl hempty

/-- C2 (witness): a token expiring at second 1000 is used as it is at second
969, 31 seconds before the expiry, and is renewed first at second 971, 29
seconds before the expiry; an empty token is renewed first. -/
theorem c2_token_timing_witness :
    (new_events (Example.one_answer (seconds 969))
        (make_authenticated_request 1 Example.client (Example.one_answer (seconds 969))
          "private/buy" .null).env).head?
      = some (.request_perform (api_request Example.client "private/buy" .null))
    ∧ (new_events (Example.one_answer (seconds 971))
        (make_authenticated_request 1 Example.client (Example.one_answer (seconds 971))
          "private/buy" .null).env).head?
      = some .authenticate_called
    ∧ (new_events (Example.one_answer 0)
        (make_authenticated_request 1 { Example.client with access_token_ := "" }
          (Example.one_answer 0) "private/buy" .null).env).head?
      = some .authenticate_called :=
  ⟨(c2_token_timing 0 Example.client (Example.one_answer (seconds 969)) "private/buy" .null).1
      (by decide) (by decide),
    (c2_token_timing 0 Example.client (Example.one_answer (seconds 971)) "private/buy" .null).2.1
      (by decide) (by decide),
    (c2_token_timing 0 { Example.client with access_token_ := "" } (Example.one_answer 0)
      "private/buy" .null).2.2 rfl⟩

/-! ### The outbound queue of a session -/

theorem buffer_of_copy (message uninit : List Byte) (stamp : Int) :
    (WebSocketMessage.mk (std_copy message uninit) message.length stamp).buffer = message := by
  simp [WebSocketMessage.buffer, std_copy]

theorem process_message_queue_fifo (self : WebSocketSession) (monitor : PerformanceMonitor)
    (now : Int) (h : fifo self) : fifo (process_message_queue self monitor now).1 := by
  unfold process_message_queue
  split
  · exact h
  · split
    · rename_i msg rest hq
      unfold fifo at h ⊢
      rw [hq] at h
      simp [h]
    · rename_i hq
      unfold fifo at h ⊢
      rw [hq] at h
      simp [h, hq]

theorem on_write_fifo (self : WebSocketSession) (monitor : PerformanceMonitor) (ec : Bool)
    (now : Int) (h : fifo self) : fifo (on_write self monitor ec now).1 := by
  unfold on_write
  dsimp only
  split
  · exact process_message_queue_fifo _ _ _ h
  · exact h

theorem send_too_large (self : WebSocketSession) (monitor : PerformanceMonitor)
    (message uninit : List Byte) (stamp now : Int) (h : BUFFER_SIZE < message.length) :
    send self monitor message uninit stamp now = (self, monitor) := by
  unfold send
  rw [if_pos h]

theorem send_queue_full (self : WebSocketSession) (monitor : PerformanceMonitor)
    (message uninit : List Byte) (stamp now : Int)
    (h : MESSAGE_QUEUE_SIZE ≤ self.message_queue_.length) :
    send self monitor message uninit stamp now = (self, monitor) := by
  unfold send
  split
  · rfl
  · dsimp only
    rw [spsc_push, if_neg (by omega)]

theorem send_accepted (self : WebSocketSession) (monitor : PerformanceMonitor)
    (message uninit : List Byte) (stamp now : Int) (hsize : message.length ≤ BUFFER_SIZE)
    (hroom : self.message_queue_.length < MESSAGE_QUEUE_SIZE) :
    send self monitor message uninit stamp now
      = if self.is_sending_ then
          ({ self with
              message_queue_ := self.message_queue_
                ++ [⟨std_copy message uninit, message.length, stamp⟩]
              pushed := self.pushed ++ [message] }, monitor)
        else
          process_message_queue
            { self with
              message_queue_ := self.message_queue_
                ++ [⟨std_copy message uninit, message.length, stamp⟩]
              pushed := self.pushed ++ [message] } monitor now := by
  unfold send
  rw [if_neg (by omega)]
  dsimp only
  rw [spsc_push, if_pos hroom]
  dsimp only
  cases self.is_sending_ <;> rfl

theorem send_fifo (self : WebSocketSession) (monitor : PerformanceMonitor)
    (message uninit : List Byte) (stamp now : Int) (h : fifo self) :
    fifo (send self monitor message uninit stamp now).1 := by
  by_cases hsize : BUFFER_SIZE < message.length
  · rw [send_too_large _ _ _ _ _ _ hsize]; exact h
  by_cases hroom : self.message_queue_.length < MESSAGE_QUEUE_SIZE
  · rw [send_accepted _ _ _ _ _ _ (by omega) hroom]
    have hq : fifo { self with
        message_queue_ := self.message_queue_
          ++ [⟨std_copy message uninit, message.length, stamp⟩]
        pushed := self.pushed ++ [message] } := by
      unfold fifo at h ⊢
      simp [h, buffer_of_copy]
    split
    · exact hq
    · exact process_message_queue_fifo _ _ _ hq
  · rw [send_queue_full _ _ _ _ _ _ (by omega)]; exact h

theorem session_run_fifo (calls : List SessionCall)
    (state : WebSocketSession × PerformanceMonitor) (h : fifo state.1) :
    fifo (session_run state calls).1 := by
  induction calls generalizing state with
  | nil => exact h
  | cons call calls ih =>
    apply ih
    cases call with
    | send message uninit stamp now => exact send_fifo _ _ _ _ _ _ h
    | process_message_queue now => exact process_message_queue_fifo _ _ _ h
    | write_completed ec now => exact on_write_fifo _ _ _ _ h

/-- C4: a payload of more than 16384 bytes leaves the session and the monitor
as they were: nothing is queued, no write is started, and every later
sequence of calls runs as if the `send` had not been made. -/
theorem c4_oversized_payload_dropped (self : WebSocketSession) (monitor : PerformanceMonitor)
    (message uninit : List Byte) (stamp now : Int) (h : 16384 < message.length) :
    send self monitor message uninit stamp now = (self, monitor)
      ∧ ∀ calls, session_run (send self monitor message uninit stamp now) calls
          = session_run (self, monitor) calls := by
  have hsend : send self monitor message uninit stamp now = (self, monitor) :=
    send_too_large self monitor message uninit stamp now h
  exact ⟨hsend, fun calls => by rw [hsend]⟩

/-- C4 (witness): a payload of 16385 bytes sent to a fresh session. -/
theorem c4_oversized_payload_dropped_witness :
    16384 < (List.replicate 16385 (0 : Byte)).length
      ∧ send .accepted ⟨[]⟩ (List.replicate 16385 0) [] 0 0 = (.accepted, ⟨[]⟩) :=
  ⟨by rw [List.length_replicate]; omega,
    (c4_oversized_payload_dropped .accepted ⟨[]⟩ (List.replicate 16385 0) [] 0 0
      (by rw [List.length_replicate]; omega)).1⟩

theorem process_message_queue_outbound (self : WebSocketSession)
    (monitor : PerformanceMonitor) (now : Int) :
    outbound (process_message_queue self monitor now).1 = outbound self
      ∧ (process_message_queue self monitor now).1.pushed = self.pushed := by
  unfold process_message_queue
  split
  · exact ⟨rfl, rfl⟩
  · split
    · rename_i msg rest hq
      simp [outbound, hq]
    · rename_i hq
      simp [outbound, hq]

theorem on_write_pushed (self : WebSocketSession) (monitor : PerformanceMonitor) (ec : Bool)
    (now : Int) : (on_write self monitor ec now).1.pushed = self.pushed := by
  unfold on_write
  dsimp only
  split
  · exact (process_message_queue_outbound _ _ _).2
  · rfl

theorem send_pushed_le (self : WebSocketSession) (monitor : PerformanceMonitor)
    (message uninit : List Byte) (stamp now : Int) :
    (send self monitor message uninit stamp now).1.pushed.length ≤ self.pushed.length + 1 := by
  by_cases hsize : BUFFER_SIZE < message.length
  · rw [send_too_large _ _ _ _ _ _ hsize]; simp
  by_cases hroom : self.message_queue_.length < MESSAGE_QUEUE_SIZE
  · rw [send_accepted _ _ _ _ _ _ (by omega) hroom]
    split
    · simp
    · rw [(process_message_queue_outbound _ _ _).2]; simp
  · rw [send_queue_full _ _ _ _ _ _ (by omega)]; simp

theorem session_run_pushed_le (calls : List SessionCall)
    (state : WebSocketSession × PerformanceMonitor) :
    (session_run state calls).1.pushed.length ≤ state.1.pushed.length + send_calls calls := by
  induction calls generalizing state with
  | nil => simp [session_run, send_calls]
  | cons call calls ih =>
    have hstep := ih (session_step state call)
    have hrun : session_run state (call :: calls) = session_run (session_step state call) calls :=
      rfl
    rw [hrun]
    cases call with
    | send message uninit stamp now =>
      have h1 := send_pushed_le state.1 state.2 message uninit stamp now
      have h2 : send_calls (.send message uninit stamp now :: calls) = send_calls calls + 1 := by
        simp [send_calls]
      rw [h2]
      simp only [session_step] at hstep ⊢
      omega
    | process_message_queue now =>
      have h1 := congrArg List.length (process_message_queue_outbound state.1 state.2 now).2
      have h2 : send_calls (.process_message_queue now :: calls) = send_calls calls := by
        simp [send_calls]
      rw [h2]
      simp only [session_step] at hstep ⊢
      omega
    | write_completed ec now =>
      have h1 := congrArg List.length (on_write_pushed state.1 state.2 ec now)
      have h2 : send_calls (.write_completed ec now :: calls) = send_calls calls := by
        simp [send_calls]
      rw [h2]
      simp only [session_step] at hstep ⊢
      omega

/-- C5: a `send` on a queue that holds 1024 messages drops its payload and
leaves the session as it was; a `send` of a payload within the frame cap on a
queue that holds fewer than 1024 messages appends the payload to the pushed
payloads and to the outbound sequence; and after any sequence of calls on an
accepted session the number of payloads given to the transport is at most the
number of `send` calls. -/
theorem c5_backpressure (self : WebSocketSession) (monitor : PerformanceMonitor)
    (message uninit : List Byte) (stamp now : Int) :
    (self.message_queue_.length = 1024 →
        send self monitor message uninit stamp now = (self, monitor))
      ∧ (self.message_queue_.length < 1024 → message.length ≤ 16384 →
          (send self monitor message uninit stamp now).1.pushed = self.pushed ++ [message]
          ∧ outbound (send self monitor message uninit stamp now).1
              = outbound self ++ [message])
      ∧ ∀ calls : List SessionCall,
          (session_run (.accepted, monitor) calls).1.written.length ≤ send_calls calls := by
  refine ⟨fun hfull => ?_, fun hroom hsize => ?_, fun calls => ?_⟩
  · exact send_queue_full _ _ _ _ _ _ (by unfold MESSAGE_QUEUE_SIZE; omega)
  · rw [send_accepted self monitor message uninit stamp now hsize hroom]
    split
    · simp [outbound, buffer_of_copy]
    · rw [(process_message_queue_outbound _ _ _).1, (process_message_queue_outbound _ _ _).2]
      simp [outbound, buffer_of_copy]
  · have h1 := session_run_pushed_le calls (.accepted, monitor)
    have hfifo : fifo (session_run (.accepted, monitor) calls).1 :=
      session_run_fifo calls (.accepted, monitor) rfl
    have h2 : (session_run (.accepted, monitor) calls).1.written.length
        ≤ (session_run (.accepted, monitor) calls).1.pushed.length := by
      rw [hfifo]; simp
    have h3 : (WebSocketSession.accepted, monitor).1.pushed.length = 0 := rfl
    omega

/-- C5 (witness): a session that has one write active and 1024 messages
queued drops the next payload, and an accepted session takes one. -/
theorem c5_backpressure_witness :
    send ⟨List.replicate 1024 ⟨[], 0, 0⟩, true, true, 1, [[]], List.replicate 1025 []⟩ ⟨[]⟩
        [7] [] 0 0
        = (⟨List.replicate 1024 ⟨[], 0, 0⟩, true, true, 1, [[]], List.replicate 1025 []⟩, ⟨[]⟩)
      ∧ (send .accepted ⟨[]⟩ [7] [] 0 0).1.pushed = [[7]] :=
  ⟨(c5_backpressure
      ⟨List.replicate 1024 ⟨[], 0, 0⟩, true, true, 1, [[]], List.replicate 1025 []⟩ ⟨[]⟩
      [7] [] 0 0).1 (List.length_replicate 1024 _),
    ((c5_backpressure .accepted ⟨[]⟩ [7] [] 0 0).2.1 (by decide) (by decide)).1⟩

/-! ### std::map -/

theorem map_find_update_same {K V : Type} [DecidableEq K] (m : List (K × V)) (k : K) (dflt : V)
    (f : V → V) : map_find (map_update m k dflt f) k = some (f ((map_find m k).getD dflt)) := by
  induction m with
  | nil => simp [map_update, map_find]
  | cons entry rest ih =>
    obtain ⟨k1, v⟩ := entry
    by_cases h : k1 = k
    · simp [map_update, map_find, h]
    · simp [map_update, map_find, h, ih]

theorem map_find_update_other {K V : Type} [DecidableEq K] (m : List (K × V)) (k other : K)
    (dflt : V) (f : V → V) (hne : other ≠ k) :
    map_find (map_update m k dflt f) other = map_find m other := by
  induction m with
  | nil => simp [map_update, map_find, hne.symm]
  | cons entry rest ih =>
    obtain ⟨k1, v⟩ := entry
    by_cases h : k1 = k
    · subst h
      simp [map_update, map_find, hne.symm]
    · by_cases h2 : k1 = other
      · subst h2
        simp [map_update, map_find, h]
      · simp [map_update, map_find, h, h2, ih]

theorem map_update_keys {K V : Type} [DecidableEq K] (m : List (K × V)) (k : K) (dflt : V)
    (f : V → V) (x : K) :
    x ∈ (map_update m k dflt f).map Prod.fst ↔ x = k ∨ x ∈ m.map Prod.fst := by
  induction m with
  | nil => simp [map_update]
  | cons entry rest ih =>
    obtain ⟨k1, v⟩ := entry
    by_cases h : k1 = k
    · subst h
      simp [map_update]
    · simp only [map_update, if_neg h, List.map_cons, List.mem_cons, ih]
      tauto

theorem map_update_unique {K V : Type} [DecidableEq K] (m : List (K × V)) (k : K) (dflt : V)
    (f : V → V) (h : unique_keys m) : unique_keys (map_update m k dflt f) := by
  induction m with
  | nil => simp [map_update, unique_keys]
  | cons entry rest ih =>
    obtain ⟨k1, v⟩ := entry
    unfold unique_keys at h ih ⊢
    simp only [List.map_cons, List.nodup_cons] at h
    by_cases hk : k1 = k
    · subst hk
      simp only [map_update, if_true, List.map_cons, List.nodup_cons]
      exact h
    · simp only [map_update, if_neg hk, List.map_cons, List.nodup_cons]
      refine ⟨fun hmem => ?_, ih h.2⟩
      rcases (map_update_keys rest k dflt f k1).1 hmem with h1 | h1
      · exact hk h1
      · exact h.1 h1

theorem map_find_none {K V : Type} [DecidableEq K] (m : List (K × V)) (k : K)
    (h : k ∉ m.map Prod.fst) : map_find m k = none := by
  induction m with
  | nil => rfl
  | cons entry rest ih =>
    obtain ⟨k1, v⟩ := entry
    simp only [List.map_cons, List.mem_cons, not_or] at h
    simp [map_find, Ne.symm h.1, ih h.2]

/-! ### Subscriptions and broadcast -/

theorem process_message_queue_session (self : WebSocketSession)
    (m1 m2 : PerformanceMonitor) (now1 now2 : Int) :
    (process_message_queue self m1 now1).1 = (process_message_queue self m2 now2).1 := by
  unfold process_message_queue
  split
  · rfl
  · split <;> rfl

/-- The session left by `send` does not depend on the monitor. -/
theorem send_session (self : WebSocketSession) (m1 m2 : PerformanceMonitor)
    (message uninit : List Byte) (stamp now : Int) :
    (send self m1 message uninit stamp now).1 = (send self m2 message uninit stamp now).1 := by
  by_cases hsize : BUFFER_SIZE < message.length
  · rw [send_too_large _ _ _ _ _ _ hsize, send_too_large _ _ _ _ _ _ hsize]
  by_cases hroom : self.message_queue_.length < MESSAGE_QUEUE_SIZE
  · rw [send_accepted _ _ _ _ _ _ (by omega) hroom, send_accepted _ _ _ _ _ _ (by omega) hroom]
    split
    · rfl
    · exact process_message_queue_session _ _ _ _ _
  · rw [send_queue_full _ _ _ _ _ _ (by omega), send_queue_full _ _ _ _ _ _ (by omega)]

theorem broadcast_loop (symbol : String) (payload uninit : List Byte) (stamp now : Int)
    (entries : List (SessionId × Finset String)) (acc : Gateway) (m0 : PerformanceMonitor)
    (x : SessionId) (hkeys : unique_keys entries) :
    (entries.foldl (broadcast_step symbol payload uninit stamp now) acc).sessions x
      = if symbol ∈ (map_find entries x).getD ∅ then
          (send (acc.sessions x) m0 payload uninit stamp now).1
        else acc.sessions x := by
  induction entries generalizing acc with
  | nil => simp [map_find]
  | cons entry rest ih =>
    obtain ⟨k, v⟩ := entry
    unfold unique_keys at hkeys
    simp only [List.map_cons, List.nodup_cons] at hkeys
    rw [List.foldl_cons, ih _ hkeys.2]
    by_cases hk : k = x
    · subst hk
      rw [map_find_none rest k hkeys.1]
      simp only [Option.getD_none, Finset.not_mem_empty, if_false, map_find, if_true,
        Option.getD_some]
      unfold broadcast_step
      split
      · simp only [Function.update_same]
        exact send_session _ _ _ _ _ _ _
      · rfl
    · have hsame : (broadcast_step symbol payload uninit stamp now acc (k, v)).sessions x
          = acc.sessions x := by
        unfold broadcast_step
        split
        · simp [Function.update_noteq (Ne.symm hk)]
        · rfl
      simp only [map_find, if_neg hk, hsame]

theorem broadcast_session (g : Gateway) (symbol : String) (payload uninit : List Byte)
    (stamp now : Int) (x : SessionId) (hkeys : unique_keys g.subscriptions_) :
    (broadcast g symbol payload uninit stamp now).sessions x
      = if symbol ∈ g.symbols_of x then
          (send (g.sessions x) g.monitor payload uninit stamp now).1
        else g.sessions x :=
  broadcast_loop symbol payload uninit stamp now g.subscriptions_ g g.monitor x hkeys

theorem broadcast_subscriptions (g : Gateway) (symbol : String) (payload uninit : List Byte)
    (stamp now : Int) :
    (broadcast g symbol payload uninit stamp now).subscriptions_ = g.subscriptions_ := by
  unfold broadcast
  have hloop : ∀ (entries : List (SessionId × Finset String)) (acc : Gateway),
      (entries.foldl (broadcast_step symbol payload uninit stamp now) acc).subscriptions_
        = acc.subscriptions_ := by
    intro entries
    induction entries with
    | nil => intro acc; rfl
    | cons entry rest ih =>
      intro acc
      rw [List.foldl_cons, ih]
      unfold broadcast_step
      split <;> rfl
  exact hloop _ g

theorem handle_subscription_control (g : Gateway) (self : SessionId)
    (members : List (String × Json)) (action symbol : String)
    (haction : members.lookup "action" = some (.string action))
    (hsymbol : members.lookup "symbol" = some (.string symbol)) :
    handle_subscription g self (.object members)
      = if action = "subscribe" then
          { g with subscriptions_ := map_update g.subscriptions_ self ∅ (insert symbol) }
        else if action = "unsubscribe" then
          { g with
            subscriptions_ := map_update g.subscriptions_ self ∅ fun set => set.erase symbol }
        else g := by
  unfold handle_subscription handle_subscription_try
  simp only [Json.contains, Json.index, haction, hsymbol, Option.isSome_some, Bool.not_true,
    Bool.or_self, Bool.false_eq_true, if_false, Option.getD_some, Json.get_string]
  by_cases h1 : action = "subscribe"
  · simp only [if_pos h1]
  · by_cases h2 : action = "unsubscribe"
    · simp only [if_neg h1, if_pos h2]
    · simp only [if_neg h1, if_neg h2]

/-- C7: for a control message that is an object with string members `action`
and `symbol`, `subscribe` makes the registry entry of the session its previous
symbol set with the symbol added, `unsubscribe` makes it the previous set
with the symbol removed, and the entry of every other session stays as it
was. -/
theorem c7_subscribe_and_unsubscribe (g : Gateway) (self : SessionId)
    (members : List (String × Json)) (action symbol : String)
    (haction : members.lookup "action" = some (.string action))
    (hsymbol : members.lookup "symbol" = some (.string symbol)) :
    (action = "subscribe" →
        map_find (handle_subscription g self (.object members)).subscriptions_ self
          = some (insert symbol (g.symbols_of self)))
      ∧ (action = "unsubscribe" →
        map_find (handle_subscription g self (.object members)).subscriptions_ self
          = some ((g.symbols_of self).erase symbol))
      ∧ ∀ other, other ≠ self →
        map_find (handle_subscription g self (.object members)).subscriptions_ other
          = map_find g.subscriptions_ other := by
  rw [handle_subscription_control g self members action symbol haction hsymbol]
  refine ⟨fun h => ?_, fun h => ?_, fun other hne => ?_⟩
  · rw [if_pos h]
    exact map_find_update_same _ _ _ _
  · rw [if_neg (by rw [h]; decide), if_pos h]
    exact map_find_update_same _ _ _ _
  · split
    · exact map_find_update_other _ _ _ _ _ hne
    · split
      · exact map_find_update_other _ _ _ _ _ hne
      · rfl

/-- C7 (witness): session 1 subscribes to BTC-PERPETUAL at a gateway without
subscriptions. -/
theorem c7_subscribe_and_unsubscribe_witness :
    map_find (handle_subscription Example.idle_gateway 1
        (subscribe_message "BTC-PERPETUAL")).subscriptions_ 1
      = some (insert "BTC-PERPETUAL" ∅) :=
  (c7_subscribe_and_unsubscribe Example.idle_gateway 1
    [("action", .string "subscribe"), ("symbol", .string "BTC-PERPETUAL")]
    "subscribe" "BTC-PERPETUAL" rfl rfl).1 rfl

theorem handle_subscription_malformed (g : Gateway) (self : SessionId) (msg : Json)
    (h : malformed_control (.ok msg)) : handle_subscription g self msg = g := by
  unfold handle_subscription handle_subscription_try
  unfold malformed_control at h
  dsimp only at h
  by_cases hc : (!msg.contains "action" || !msg.contains "symbol") = true
  · rw [if_pos hc]
  · rw [if_neg hc]
    simp only [Bool.or_eq_true, Bool.not_eq_true', not_or, Bool.not_eq_false] at hc
    rcases h with h | h | h | h
    · rw [hc.1] at h; cases h
    · rw [hc.2] at h; cases h
    · cases ha : msg.index "action" <;> simp only [Json.get_string]
      exact absurd ha (h _)
    · cases ha : msg.index "action" <;> simp only [Json.get_string]

/-- C8: when the received text is not valid JSON, or lacks `action` or
`symbol`, or has one of them that is not a string, a successful read leaves
the registry as it was, lets no exception escape and ends with a new read
outstanding. -/
theorem c8_malformed_message_ignored (g : Gateway) (self : SessionId)
    (payload : Except String Json) (start_time end_time : Int)
    (h : malformed_control payload) :
    (on_read g self false payload start_time end_time).gateway.subscriptions_
        = g.subscriptions_
      ∧ (on_read g self false payload start_time end_time).escaped = none
      ∧ ((on_read g self false payload start_time end_time).gateway.sessions self).read_pending
        = true := by
  unfold on_read
  simp only [Bool.false_eq_true, if_false, do_read, Function.update_same, and_true, true_and]
  cases payload with
  | error what => rfl
  | ok msg =>
    unfold on_read_try
    simp only [handle_subscription_malformed _ self msg h]

/-- C8 (witness): the test message of the performance client, which has
neither `action` nor `symbol`. -/
theorem c8_malformed_message_ignored_witness :
    (on_read Example.idle_gateway 1 false
        (.ok (.object [("type", .string "test"), ("client_id", .number_integer 0),
          ("message_id", .number_integer 0)])) 0 0).gateway.subscriptions_ = []
      ∧ ((on_read Example.idle_gateway 1 false (.error "syntax error") 0 0).gateway.sessions
          1).read_pending = true :=
  ⟨(c8_malformed_message_ignored Example.idle_gateway 1
      (.ok (.object [("type", .string "test"), ("client_id", .number_integer 0),
        ("message_id", .number_integer 0)])) 0 0 (Or.inl rfl)).1,
    (c8_malformed_message_ignored Example.idle_gateway 1 (.error "syntax error") 0 0
      trivial).2.2⟩

theorem subscribe_gateway (g : Gateway) (self : SessionId) (symbol : String) :
    handle_subscription g self (subscribe_message symbol)
      = { g with subscriptions_ := map_update g.subscriptions_ self ∅ (insert symbol) } := by
  have h := handle_subscription_control g self
    [("action", .string "subscribe"), ("symbol", .string symbol)] "subscribe" symbol rfl rfl
  rw [if_pos rfl] at h
  exact h

theorem unsubscribe_gateway (g : Gateway) (self : SessionId) (symbol : String) :
    handle_subscription g self (unsubscribe_message symbol)
      = { g with
          subscriptions_ := map_update g.subscriptions_ self ∅ fun set => set.erase symbol } := by
  have h := handle_subscription_control g self
    [("action", .string "unsubscribe"), ("symbol", .string symbol)] "unsubscribe" symbol rfl rfl
  rw [if_neg (by decide), if_pos rfl] at h
  exact h

/-- C6: let session A subscribe to a symbol that session B is not subscribed
to. A broadcast for the symbol then makes exactly one call of `send` on A,
which pushes the payload when it is within the frame cap and the queue of A
has room, and leaves B untouched; after A has unsubscribed, a further
broadcast for the symbol leaves A untouched. -/
theorem c6_broadcast_scoped_by_subscription (g g1 g2 g3 g4 : Gateway) (a b : SessionId)
    (symbol : String) (payload uninit payload2 uninit2 : List Byte)
    (stamp now stamp2 now2 : Int)
    (hkeys : unique_keys g.subscriptions_) (hab : a ≠ b) (hb : symbol ∉ g.symbols_of b)
    (h1 : g1 = handle_subscription g a (subscribe_message symbol))
    (h2 : g2 = broadcast g1 symbol payload uninit stamp now)
    (h3 : g3 = handle_subscription g2 a (unsubscribe_message symbol))
    (h4 : g4 = broadcast g3 symbol payload2 uninit2 stamp2 now2) :
    g2.sessions a = (send (g.sessions a) g.monitor payload uninit stamp now).1
      ∧ (payload.length ≤ 16384 → (g.sessions a).message_queue_.length < 1024 →
          (g2.sessions a).pushed = (g.sessions a).pushed ++ [payload])
      ∧ g2.sessions b = g.sessions b
      ∧ g4.sessions a = g2.sessions a := by
  rw [subscribe_gateway] at h1
  have hk1 : unique_keys g1.subscriptions_ := by
    rw [h1]; exact map_update_unique _ _ _ _ hkeys
  have ha1 : symbol ∈ g1.symbols_of a := by
    rw [h1]
    simp [Gateway.symbols_of, map_find_update_same]
  have hb1 : symbol ∉ g1.symbols_of b := by
    rw [h1]
    simp only [Gateway.symbols_of, map_find_update_other _ _ _ _ _ (Ne.symm hab)]
    exact hb
  have hsa : g2.sessions a = (send (g.sessions a) g.monitor payload uninit stamp now).1 := by
    rw [h2, broadcast_session _ _ _ _ _ _ _ hk1, if_pos ha1, h1]
  have hsb : g2.sessions b = g.sessions b := by
    rw [h2, broadcast_session _ _ _ _ _ _ _ hk1, if_neg hb1, h1]
  have hsub2 : g2.subscriptions_ = g1.subscriptions_ := by
    rw [h2, broadcast_subscriptions]
  rw [unsubscribe_gateway] at h3
  have hk3 : unique_keys g3.subscriptions_ := by
    rw [h3]; exact map_update_unique _ _ _ _ (by rw [hsub2]; exact hk1)
  have ha3 : symbol ∉ g3.symbols_of a := by
    rw [h3]
    simp [Gateway.symbols_of, map_find_update_same]
  refine ⟨hsa, fun hsize hroom => ?_, hsb, ?_⟩
  · rw [hsa, send_accepted _ _ _ _ _ _ hsize hroom]
    split
    · rfl
    · rw [(process_message_queue_outbound _ _ _).2]
  · rw [h4, broadcast_session _ _ _ _ _ _ _ hk3, if_neg ha3, h3]

/-- C6 (witness): sessions 1 and 2 at a gateway without subscriptions, session
1 subscribing to BTC-PERPETUAL. -/
theorem c6_broadcast_scoped_by_subscription_witness :
    ((broadcast (handle_subscription Example.idle_gateway 1 (subscribe_message "BTC-PERPETUAL"))
        "BTC-PERPETUAL" [1, 2, 3] [] 0 0).sessions 1).pushed = [] ++ [[1, 2, 3]]
      ∧ (broadcast (handle_subscription Example.idle_gateway 1 (subscribe_message "BTC-PERPETUAL"))
        "BTC-PERPETUAL" [1, 2, 3] [] 0 0).sessions 2 = .accepted :=
  ⟨(c6_broadcast_scoped_by_subscription Example.idle_gateway _ _ _ _ 1 2 "BTC-PERPETUAL"
      [1, 2, 3] [] [4] [] 0 0 0 0 List.nodup_nil (by decide) (Finset.not_mem_empty _)
      rfl rfl rfl rfl).2.1 (by decide) (by decide),
    (c6_broadcast_scoped_by_subscription Example.idle_gateway _ _ _ _ 1 2 "BTC-PERPETUAL"
      [1, 2, 3] [] [4] [] 0 0 0 0 List.nodup_nil (by decide) (Finset.not_mem_empty _)
      rfl rfl rfl rfl).2.2.1⟩

/-! ### Percentiles -/

theorem truncate_nonneg (x : Rat) (h : 0 ≤ x) : Json.truncate x = ⌊x⌋ := by
  unfold Json.truncate
  rw [if_pos h]

theorem to_size_t_floor (x : Rat) (h : 0 ≤ x) (hlt : ⌊x⌋ < 18446744073709551616) :
    PerformanceMonitor.to_size_t x = some ⌊x⌋.toNat := by
  unfold PerformanceMonitor.to_size_t
  rw [truncate_nonneg x h, if_pos ⟨Int.floor_nonneg.2 h, hlt⟩]

theorem round_half_even_intCast (z : Int) :
    PerformanceMonitor.round_half_even (z : Rat) = z := by
  unfold PerformanceMonitor.round_half_even
  rw [Int.floor_intCast, sub_self, if_pos (by norm_num)]

/-- A natural number below 2^53 is a `double`: rounding leaves it as it is. -/
theorem round_to_double_natCast (k : Nat) (h : k < 9007199254740992) :
    PerformanceMonitor.round_to_double (k : Rat) = some (k : Rat) := by
  unfold PerformanceMonitor.round_to_double
  by_cases h0 : (k : Rat) = 0
  · rw [if_pos h0, h0]
  · rw [if_neg h0]
    have hk : 0 < k := Nat.pos_of_ne_zero (by intro e; apply h0; rw [e]; rfl)
    have habs : |(k : Rat)| = (k : Rat) := abs_of_nonneg (Nat.cast_nonneg k)
    have hlog : Int.log 2 (k : Rat) = (Nat.log 2 k : Int) := Int.log_natCast 2 k
    have hlt : Nat.log 2 k < 53 :=
      Nat.log_lt_of_lt_pow (Nat.pos_iff_ne_zero.1 hk) (by norm_num; exact h)
    dsimp only
    rw [habs, hlog]
    obtain ⟨d, hd⟩ : ∃ d : Nat, max ((Nat.log 2 k : Int) - 52) (-1074) = -(d : Int) :=
      ⟨52 - Nat.log 2 k, by omega⟩
    rw [hd, zpow_neg, zpow_natCast, div_inv_eq_mul]
    have hcast : (k : Rat) * 2 ^ d = (((k * 2 ^ d : Nat) : Int) : Rat) := by push_cast; ring
    rw [hcast, round_half_even_intCast]
    have hback : ((((k * 2 ^ d : Nat) : Int) : Rat)) * (2 ^ d)⁻¹ = (k : Rat) := by
      push_cast
      field_simp
    rw [hback, habs, if_pos]
    calc (k : Rat) < 9007199254740992 := by exact_mod_cast h
      _ ≤ 2 ^ (1024 : Nat) := by norm_num

theorem get_percentile_latency_nonempty (self : PerformanceMonitor) (name : String)
    (metrics : OperationMetrics) (p : Rat)
    (hfind : map_find self.operation_metrics_ name = some metrics)
    (hn : 1 ≤ metrics.durations.length) :
    self.get_percentile_latency name p
      = match PerformanceMonitor.double_product p metrics.durations.length with
        | none => none
        | some product =>
          match PerformanceMonitor.to_size_t product with
          | none => none
          | some index => (metrics.durations.insertionSort (· ≤ ·))[index]? := by
  unfold PerformanceMonitor.get_percentile_latency
  rw [hfind]
  dsimp only
  have hne : metrics.durations.isEmpty = false := by
    cases hd : metrics.durations with
    | nil => rw [hd] at hn; simp at hn
    | cons x xs => rfl
  rw [hne]
  simp only [Bool.false_eq_true, if_false, List.length_insertionSort]

theorem double_product_rounds (p : Rat) (n : Nat) (h : n < 9007199254740992) :
    PerformanceMonitor.double_product p n = PerformanceMonitor.round_to_double (p * n) := by
  unfold PerformanceMonitor.double_product PerformanceMonitor.size_to_double
  rw [if_pos h]

/-- C9 (as amended): for a window of n samples, 1 ≤ n < 2^53, the percentile
query rounds the product p·n to a `double` and returns the element of the
window sorted ascending at the 0-based index that is the integer part of that
`double`, when it is below n. When p·n is itself an integer k < n the index is
k = floor(p·n); for a window holding 10, 20, ..., 100 in any order and
p = 0.50 the query returns 60. -/
theorem c9_percentile_index_is_truncated_product (self : PerformanceMonitor) (name : String)
    (metrics : OperationMetrics)
    (hfind : map_find self.operation_metrics_ name = some metrics)
    (hn : 1 ≤ metrics.durations.length)
    (hsize : metrics.durations.length < 9007199254740992) :
    (∀ (p product : Rat) (sorted : List Rat),
        PerformanceMonitor.round_to_double (p * metrics.durations.length) = some product →
        0 ≤ product → ⌊product⌋ < metrics.durations.length →
        sorted.Sorted (· ≤ ·) → sorted.Perm metrics.durations →
        self.get_percentile_latency name p = sorted[⌊product⌋.toNat]?
          ∧ (self.get_percentile_latency name p).isSome = true)
      ∧ (∀ (p : Rat) (k : Nat) (sorted : List Rat),
        p * metrics.durations.length = k → k < metrics.durations.length →
        sorted.Sorted (· ≤ ·) → sorted.Perm metrics.durations →
        self.get_percentile_latency name p = sorted[k]?
          ∧ (self.get_percentile_latency name p).isSome = true)
      ∧ (metrics.durations.Perm [10, 20, 30, 40, 50, 60, 70, 80, 90, 100] →
        self.get_percentile_latency name (1 / 2) = some 60) := by
  have hgen : ∀ (p product : Rat) (sorted : List Rat),
      PerformanceMonitor.round_to_double (p * metrics.durations.length) = some product →
      0 ≤ product → ⌊product⌋ < metrics.durations.length →
      sorted.Sorted (· ≤ ·) → sorted.Perm metrics.durations →
      self.get_percentile_latency name p = sorted[⌊product⌋.toNat]?
        ∧ (self.get_percentile_latency name p).isSome = true := by
    intro p product sorted hprod hx hlt hsorted hperm
    have hsort : metrics.durations.insertionSort (· ≤ ·) = sorted :=
      List.eq_of_perm_of_sorted ((List.perm_insertionSort _ _).trans hperm.symm)
        (List.sorted_insertionSort _ _) hsorted
    have hres : self.get_percentile_latency name p = sorted[⌊product⌋.toNat]? := by
      rw [get_percentile_latency_nonempty self name metrics p hfind hn,
        double_product_rounds p _ hsize, hprod]
      dsimp only
      rw [to_size_t_floor _ hx (by omega), hsort]
    refine ⟨hres, ?_⟩
    rw [hres]
    have hidx : ⌊product⌋.toNat < sorted.length := by
      rw [hperm.length_eq]
      have := Int.floor_nonneg.2 hx
      omega
    rw [List.getElem?_eq_getElem hidx]
    rfl
  have hexact : ∀ (p : Rat) (k : Nat) (sorted : List Rat),
      p * metrics.durations.length = k → k < metrics.durations.length →
      sorted.Sorted (· ≤ ·) → sorted.Perm metrics.durations →
      self.get_percentile_latency name p = sorted[k]?
        ∧ (self.get_percentile_latency name p).isSome = true := by
    intro p k sorted hk hlt hsorted hperm
    have h := hgen p (k : Rat) sorted
      (by rw [hk]; exact round_to_double_natCast k (by omega))
      (Nat.cast_nonneg k) (by rw [Int.floor_natCast]; exact_mod_cast hlt) hsorted hperm
    rw [Int.floor_natCast, Int.toNat_natCast] at h
    exact h
  refine ⟨hgen, hexact, fun hten => ?_⟩
  have hlen : metrics.durations.length = 10 := hten.length_eq
  have h := (hexact (1 / 2) 5 [10, 20, 30, 40, 50, 60, 70, 80, 90, 100]
    (by rw [hlen]; norm_num) (by rw [hlen]; norm_num) (by simp [List.Sorted]; norm_num)
    hten.symm).1
  rw [h]
  rfl

/-- C9 (witness): the ten latencies recorded in another order for the symbol
`t` and queried at p = 0.50. -/
theorem c9_percentile_index_is_truncated_product_witness :
    Example.ten_samples.get_percentile_latency "websocket_t" (1 / 2) = some 60 :=
  (c9_percentile_index_is_truncated_product Example.ten_samples "websocket_t"
    ⟨0, [30, 10, 20, 100, 90, 80, 70, 60, 50, 40],
      0 + 30 + 10 + 20 + 100 + 90 + 80 + 70 + 60 + 50 + 40, 10⟩
    rfl (by decide) (by decide)).2.2 (by decide)

/-- C9 (counterexample): the `double` written 0.95 is below 19/20, so
floor(p·20) = 18, but the product p·20 rounds to the `double` 19: on the window
1, 2, ..., 20 the query reads index 19 and returns 20, not the element 19 at
index 18. The `double` written 0.58 times 50 rounds to a `double` below 29: on
the window 1, 2, ..., 50 the query reads index 28 and returns 29, while
floor(0.58·50) = 29 for the decimal fraction. -/
theorem c9_product_is_rounded_before_truncation :
    PerformanceMonitor.round_to_double (19 / 20) = some Example.p95
      ∧ ⌊Example.p95 * 20⌋ = 18
      ∧ PerformanceMonitor.double_product Example.p95 20 = some 19
      ∧ (Example.counting 20).get_percentile_latency "op" Example.p95 = some 20
      ∧ ((Example.counting 20).window "op")[18]? = some 19
      ∧ PerformanceMonitor.round_to_double (29 / 50) = some Example.p58
      ∧ ⌊(29 / 50 : Rat) * 50⌋ = 29
      ∧ PerformanceMonitor.double_product Example.p58 50
        = some (8162774324609023 / 281474976710656)
      ∧ (Example.counting 50).get_percentile_latency "op" Example.p58 = some 29 := by
  refine ⟨?_, ?_, ?_, ?_, ?_, ?_, ?_, ?_, ?_⟩ <;> decide!

/-- C10 (the code at the failing input): for a non-empty window and p = 1.0 no
clamp is applied; the index is the size of the sorted vector and the read is
outside its bounds. -/
theorem c10_percentile_one_reads_past_the_end (self : PerformanceMonitor) (name : String)
    (metrics : OperationMetrics)
    (hfind : map_find self.operation_metrics_ name = some metrics)
    (hn : 1 ≤ metrics.durations.length) :
    self.get_percentile_latency name 1 = none := by
  rw [get_percentile_latency_nonempty self name metrics 1 hfind hn]
  by_cases hsize : metrics.durations.length < 9007199254740992
  · rw [double_product_rounds 1 _ hsize, one_mul, round_to_double_natCast _ hsize]
    dsimp only
    rw [to_size_t_floor _ (Nat.cast_nonneg _) (by rw [Int.floor_natCast]; omega),
      Int.floor_natCast, Int.toNat_natCast]
    simp
  · unfold PerformanceMonitor.double_product PerformanceMonitor.size_to_double
    rw [if_neg hsize]

/-- C10 (witness): a window holding the single sample 10. -/
theorem c10_percentile_one_reads_past_the_end_witness :
    PerformanceMonitor.get_percentile_latency ⟨[("op", ⟨0, [10], 10, 1⟩)]⟩ "op" 1 = none :=
  c10_percentile_one_reads_past_the_end ⟨[("op", ⟨0, [10], 10, 1⟩)]⟩ "op" ⟨0, [10], 10, 1⟩
    rfl (by decide)

/-! ### The metrics store under sequences of calls -/

theorem track_window (monitor : PerformanceMonitor) (symbol : String) (latency_ms : Rat) :
    (monitor.track_websocket_latency symbol latency_ms).window ("websocket_" ++ symbol)
      = monitor.window ("websocket_" ++ symbol) ++ [latency_ms] := by
  unfold PerformanceMonitor.window PerformanceMonitor.track_websocket_latency
  rw [map_find_update_same]
  cases map_find monitor.operation_metrics_ ("websocket_" ++ symbol) <;> rfl

/-- Tracking the same symbol n times appends n samples to its window. -/
theorem track_repeated_window (n : Nat) (monitor : PerformanceMonitor) (symbol : String)
    (latency_ms : Rat) :
    (monitor_run monitor
        (List.replicate n (.track_websocket_latency symbol latency_ms))).window
        ("websocket_" ++ symbol)
      = monitor.window ("websocket_" ++ symbol) ++ List.replicate n latency_ms := by
  induction n generalizing monitor with
  | zero => simp [monitor_run]
  | succ n ih =>
    rw [List.replicate_succ, monitor_run, List.foldl_cons]
    have h := ih (monitor_step monitor (.track_websocket_latency symbol latency_ms))
    rw [monitor_run] at h
    rw [h]
    simp only [monitor_step]
    rw [track_window, List.append_assoc]
    rfl

/-- C11 (the code at the failing input): 1001 calls of
`track_websocket_latency` for one symbol on an empty store leave 1001 samples
in the window of that operation, because only `end_operation` evicts. -/
theorem c11_tracked_window_exceeds_cap :
    ((monitor_run ⟨[]⟩
        (List.replicate 1001 (.track_websocket_latency "x" 1))).window "websocket_x").length
      = 1001 := by
  have h := track_repeated_window 1001 ⟨[]⟩ "x" 1
  have hname : "websocket_" ++ "x" = "websocket_x" := by decide
  rw [hname] at h
  rw [h, List.length_append, List.length_replicate]
  rfl

theorem end_metrics_unstarted (metrics : OperationMetrics) (end_time : Int)
    (h : metrics.start_time = 0) : PerformanceMonitor.end_metrics metrics end_time = metrics := by
  unfold PerformanceMonitor.end_metrics
  rw [if_pos h]

/-- An `end_operation` for a name that was never started changes neither the
window nor the running sum nor the running count of any operation. -/
theorem end_operation_never_started (monitor : PerformanceMonitor)
    (operation_name other : String) (end_time : Int)
    (h : ∀ metrics, map_find monitor.operation_metrics_ operation_name = some metrics →
      metrics.start_time = 0) :
    (monitor.end_operation operation_name end_time).window other = monitor.window other
      ∧ (monitor.end_operation operation_name end_time).running_sum other
        = monitor.running_sum other
      ∧ (monitor.end_operation operation_name end_time).running_count other
        = monitor.running_count other := by
  unfold PerformanceMonitor.window PerformanceMonitor.running_sum
    PerformanceMonitor.running_count PerformanceMonitor.end_operation
  by_cases hn : other = operation_name
  · subst hn
    rw [map_find_update_same]
    cases hfind : map_find monitor.operation_metrics_ other with
    | none => exact ⟨rfl, rfl, rfl⟩
    | some metrics =>
      simp only [Option.getD_some]
      rw [end_metrics_unstarted metrics end_time (h metrics hfind)]
      exact ⟨rfl, rfl, rfl⟩
  · rw [map_find_update_other _ _ _ _ _ hn]
    exact ⟨rfl, rfl, rfl⟩

/-- C12 (the code at the failing input): one start followed by two ends. The
second `end_operation` has no start left to pair with, yet it records a second
sample measured from the old start time, because `start_time` is never reset. -/
theorem c12_second_end_records_again :
    (monitor_run ⟨[]⟩ [.start_operation "op" 1000000,
        .end_operation "op" 3000000]).window "op" = [2]
      ∧ (monitor_run ⟨[]⟩ [.start_operation "op" 1000000, .end_operation "op" 3000000,
        .end_operation "op" 6000000]).window "op" = [2, 5]
      ∧ (monitor_run ⟨[]⟩ [.start_operation "op" 1000000, .end_operation "op" 3000000,
        .end_operation "op" 6000000]).running_sum "op" = 7
      ∧ (monitor_run ⟨[]⟩ [.start_operation "op" 1000000, .end_operation "op" 3000000,
        .end_operation "op" 6000000]).running_count "op" = 2 := by
  have h1 : to_microseconds (3000000 - 1000000) = 2000 := by decide
  have h2 : to_microseconds (6000000 - 1000000) = 5000 := by decide
  have h3 : to_microseconds 2000000 = 2000 := by decide
  have h4 : to_microseconds 5000000 = 5000 := by decide
  simp only [monitor_run, List.foldl_cons, List.foldl_nil, monitor_step,
    PerformanceMonitor.start_operation, PerformanceMonitor.end_operation, map_update,
    PerformanceMonitor.window, PerformanceMonitor.running_sum,
    PerformanceMonitor.running_count, map_find, if_true, PerformanceMonitor.end_metrics,
    OperationMetrics.fresh, h1, h2]
  norm_num [h3, h4]

theorem record_find_same (monitor : PerformanceMonitor) (r : Recording) :
    map_find (record monitor r).operation_metrics_ r.operation_name
      = some (PerformanceMonitor.end_metrics
          { (map_find monitor.operation_metrics_ r.operation_name).getD .fresh with
            start_time := r.start_time } r.end_time) := by
  unfold record PerformanceMonitor.end_operation PerformanceMonitor.start_operation
  rw [map_find_update_same, map_find_update_same]
  rfl

theorem record_find_other (monitor : PerformanceMonitor) (r : Recording) (other : String)
    (h : other ≠ r.operation_name) :
    map_find (record monitor r).operation_metrics_ other
      = map_find monitor.operation_metrics_ other := by
  unfold record PerformanceMonitor.end_operation PerformanceMonitor.start_operation
  rw [map_find_update_other _ _ _ _ _ h, map_find_update_other _ _ _ _ _ h]

theorem getD_fresh_fields (monitor : PerformanceMonitor) (name : String) :
    ((map_find monitor.operation_metrics_ name).getD .fresh).durations = monitor.window name
      ∧ ((map_find monitor.operation_metrics_ name).getD .fresh).total_duration
        = monitor.running_sum name
      ∧ ((map_find monitor.operation_metrics_ name).getD .fresh).count
        = monitor.running_count name := by
  unfold PerformanceMonitor.window PerformanceMonitor.running_sum
    PerformanceMonitor.running_count
  cases map_find monitor.operation_metrics_ name <;> exact ⟨rfl, rfl, rfl⟩

theorem end_metrics_started (metrics : OperationMetrics) (end_time : Int)
    (h : metrics.start_time ≠ 0) :
    (PerformanceMonitor.end_metrics metrics end_time).durations
        = (if 1000 < (metrics.durations
              ++ [(to_microseconds (end_time - metrics.start_time) : Rat) / 1000]).length then
            (metrics.durations
              ++ [(to_microseconds (end_time - metrics.start_time) : Rat) / 1000]).tail
          else metrics.durations
              ++ [(to_microseconds (end_time - metrics.start_time) : Rat) / 1000])
      ∧ (PerformanceMonitor.end_metrics metrics end_time).total_duration
        = (if 1000 < (metrics.durations
              ++ [(to_microseconds (end_time - metrics.start_time) : Rat) / 1000]).length then
            metrics.total_duration + (to_microseconds (end_time - metrics.start_time) : Rat) / 1000
              - (metrics.durations
                ++ [(to_microseconds (end_time - metrics.start_time) : Rat) / 1000]).headD 0
          else metrics.total_duration
            + (to_microseconds (end_time - metrics.start_time) : Rat) / 1000)
      ∧ (PerformanceMonitor.end_metrics metrics end_time).count = metrics.count + 1 := by
  unfold PerformanceMonitor.end_metrics
  rw [if_neg h]
  dsimp only
  split <;> exact ⟨rfl, rfl, rfl⟩

/-- The effect of one completed recording on the window, the running sum and
the running count of its operation. -/
theorem record_same (monitor : PerformanceMonitor) (r : Recording) (h : r.start_time ≠ 0) :
    (record monitor r).window r.operation_name
        = (if 1000 < (monitor.window r.operation_name ++ [r.duration]).length then
            (monitor.window r.operation_name ++ [r.duration]).tail
          else monitor.window r.operation_name ++ [r.duration])
      ∧ (record monitor r).running_sum r.operation_name
        = (if 1000 < (monitor.window r.operation_name ++ [r.duration]).length then
            monitor.running_sum r.operation_name + r.duration
              - (monitor.window r.operation_name ++ [r.duration]).headD 0
          else monitor.running_sum r.operation_name + r.duration)
      ∧ (record monitor r).running_count r.operation_name
        = monitor.running_count r.operation_name + 1 := by
  obtain ⟨hw, hs, hc⟩ := getD_fresh_fields monitor r.operation_name
  have hfind := record_find_same monitor r
  obtain ⟨e1, e2, e3⟩ := end_metrics_started
    { (map_find monitor.operation_metrics_ r.operation_name).getD .fresh with
      start_time := r.start_time } r.end_time h
  refine ⟨?_, ?_, ?_⟩
  · rw [PerformanceMonitor.window, hfind]
    refine e1.trans ?_
    dsimp only
    rw [hw]
    rfl
  · rw [PerformanceMonitor.running_sum, hfind]
    refine e2.trans ?_
    dsimp only
    rw [hw, hs]
    rfl
  · rw [PerformanceMonitor.running_count, hfind]
    refine e3.trans ?_
    dsimp only
    rw [hc]

theorem record_other (monitor : PerformanceMonitor) (r : Recording) (other : String)
    (h : other ≠ r.operation_name) :
    (record monitor r).window other = monitor.window other
      ∧ (record monitor r).running_sum other = monitor.running_sum other
      ∧ (record monitor r).running_count other = monitor.running_count other := by
  unfold PerformanceMonitor.window PerformanceMonitor.running_sum
    PerformanceMonitor.running_count
  rw [record_find_other monitor r other h]
  exact ⟨rfl, rfl, rfl⟩

theorem tail_sum (l : List Rat) (h : l ≠ []) : l.tail.sum = l.sum - l.headD 0 := by
  cases l with
  | nil => exact absurd rfl h
  | cons x xs => simp

theorem capped_window (w : List Rat) (d : Rat) (rest : List Rat) (hcap : w.length ≤ 1000) :
    ((if 1000 < (w ++ [d]).length then (w ++ [d]).tail else w ++ [d]) ++ rest).drop
        (((if 1000 < (w ++ [d]).length then (w ++ [d]).tail else w ++ [d]) ++ rest).length
          - 1000)
      = (w ++ d :: rest).drop ((w ++ d :: rest).length - 1000) := by
  by_cases h : 1000 < (w ++ [d]).length
  · rw [if_pos h]
    have hlen : w.length = 1000 := by
      simp only [List.length_append, List.length_singleton] at h; omega
    have htail : (w ++ [d]).tail ++ rest = (w ++ d :: rest).drop 1 := by
      cases w with
      | nil => simp at hlen
      | cons x xs => simp
    have hL : 1001 ≤ (w ++ d :: rest).length := by
      simp only [List.length_append, List.length_cons]; omega
    have e : 1 + ((w ++ d :: rest).length - 1 - 1000) = (w ++ d :: rest).length - 1000 := by
      omega
    rw [htail, List.drop_drop, List.length_drop, e]
  · rw [if_neg h]
    simp

/-- The window, running sum and running count of an operation after a sequence
of completed recordings on a store whose window is within the cap and whose
running sum is the sum of its window. -/
theorem record_all_state (recordings : List Recording) (name : String)
    (monitor : PerformanceMonitor) (hstart : ∀ r ∈ recordings, r.start_time ≠ 0)
    (hcap : (monitor.window name).length ≤ 1000)
    (hsum : monitor.running_sum name = (monitor.window name).sum) :
    (record_all monitor recordings).window name
        = (monitor.window name ++ durations_of name recordings).drop
            ((monitor.window name ++ durations_of name recordings).length - 1000)
      ∧ (record_all monitor recordings).running_sum name
        = ((record_all monitor recordings).window name).sum
      ∧ (record_all monitor recordings).running_count name
        = monitor.running_count name + (durations_of name recordings).length := by
  induction recordings generalizing monitor with
  | nil =>
    simp only [record_all, List.foldl_nil, durations_of, List.filter_nil, List.map_nil,
      List.append_nil, List.length_nil, Nat.add_zero]
    refine ⟨?_, hsum, trivial⟩
    rw [Nat.sub_eq_zero_of_le hcap, List.drop_zero]
  | cons r rest ih =>
    have hr : r.start_time ≠ 0 := hstart r (List.mem_cons_self _ _)
    have hrest : ∀ x ∈ rest, x.start_time ≠ 0 := fun x hx => hstart x (List.mem_cons_of_mem _ hx)
    have hrun : record_all monitor (r :: rest) = record_all (record monitor r) rest := rfl
    rw [hrun]
    by_cases hname : r.operation_name = name
    · subst hname
      obtain ⟨hw, hs, hc⟩ := record_same monitor r hr
      have hcap1 : ((record monitor r).window r.operation_name).length ≤ 1000 := by
        rw [hw]
        split
        · rename_i h
          simp only [List.length_tail, List.length_append, List.length_singleton] at h ⊢
          omega
        · rename_i h
          omega
      have hsum1 : (record monitor r).running_sum r.operation_name
          = ((record monitor r).window r.operation_name).sum := by
        rw [hw, hs]
        split
        · rw [tail_sum _ (by simp), List.sum_append, hsum]
          simp
        · rw [List.sum_append, hsum]
          simp
      obtain ⟨i1, i2, i3⟩ := ih (record monitor r) hrest hcap1 hsum1
      have hds : durations_of r.operation_name (r :: rest)
          = r.duration :: durations_of r.operation_name rest := by
        simp [durations_of]
      refine ⟨?_, i2, ?_⟩
      · rw [i1, hw, hds]
        exact capped_window _ _ _ hcap
      · rw [i3, hc, hds, List.length_cons]
        omega
    · have hne : name ≠ r.operation_name := fun h => hname h.symm
      obtain ⟨hw, hs, hc⟩ := record_other monitor r name hne
      obtain ⟨i1, i2, i3⟩ := ih (record monitor r) hrest (by rw [hw]; exact hcap)
        (by rw [hw, hs]; exact hsum)
      have hds : durations_of name (r :: rest) = durations_of name rest := by
        simp [durations_of, hname]
      rw [hds]
      refine ⟨?_, i2, ?_⟩
      · rw [i1, hw]
      · rw [i3, hc]

/-- C13: after any sequence of completed recordings on a fresh store, the
window of an operation holds the last min(n, 1000) of its n durations in
recording order and its running sum is the sum of the window; a recording
made on a full window drops exactly the oldest sample and subtracts it from
the running sum. -/
theorem c13_window_holds_last_thousand (recordings : List Recording) (name : String)
    (hstart : ∀ r ∈ recordings, r.start_time ≠ 0) :
    (record_all ⟨[]⟩ recordings).window name
        = (durations_of name recordings).drop
            ((durations_of name recordings).length
              - min (durations_of name recordings).length 1000)
      ∧ (record_all ⟨[]⟩ recordings).running_sum name
        = ((record_all ⟨[]⟩ recordings).window name).sum
      ∧ ∀ (monitor : PerformanceMonitor) (r : Recording), r.start_time ≠ 0 →
          (monitor.window r.operation_name).length = 1000 →
          (record monitor r).window r.operation_name
              = (monitor.window r.operation_name).tail ++ [r.duration]
            ∧ (record monitor r).running_sum r.operation_name
              = monitor.running_sum r.operation_name + r.duration
                - (monitor.window r.operation_name).headD 0 := by
  obtain ⟨h1, h2, _⟩ := record_all_state recordings name ⟨[]⟩ hstart
    (by simp [PerformanceMonitor.window, map_find])
    (by simp [PerformanceMonitor.window, PerformanceMonitor.running_sum, map_find])
  refine ⟨?_, h2, fun monitor r hr hfull => ?_⟩
  · rw [h1]
    have hw : (PerformanceMonitor.mk []).window name = [] := rfl
    rw [hw, List.nil_append]
    have e : (durations_of name recordings).length
        - min (durations_of name recordings).length 1000
        = (durations_of name recordings).length - 1000 := by omega
    rw [e]
  · obtain ⟨hw, hs, _⟩ := record_same monitor r hr
    have hlong : 1000 < (monitor.window r.operation_name ++ [r.duration]).length := by
      rw [List.length_append, hfull]; exact Nat.lt_succ_self 1000
    have hne : monitor.window r.operation_name ≠ [] := by
      intro h; rw [h] at hfull; exact absurd hfull (by decide)
    rw [if_pos hlong] at hw hs
    rw [hw, hs, List.tail_append_of_ne_nil hne]
    refine ⟨rfl, ?_⟩
    cases hwin : monitor.window r.operation_name with
    | nil => exact absurd hwin hne
    | cons x xs => rfl

/-- C13 (witness): two recordings of 2 ms and 5 ms for one operation. -/
theorem c13_window_holds_last_thousand_witness :
    (record_all ⟨[]⟩ [⟨"op", 1000000, 3000000⟩, ⟨"op", 4000000, 9000000⟩]).window "op"
      = [2, 5] :=
  (c13_window_holds_last_thousand [⟨"op", 1000000, 3000000⟩, ⟨"op", 4000000, 9000000⟩] "op"
    (by decide)).1.trans (by
      have h1 : to_microseconds (3000000 - 1000000) = 2000 := by decide
      have h2 : to_microseconds (9000000 - 4000000) = 5000 := by decide
      simp only [durations_of, List.filter, decide_True, List.map, Recording.duration, h1, h2,
        List.length_cons, List.length_nil]
      norm_num)

/-! ### The public operations of the client -/

theorem extended_refl (method : String) (params : Json) (trace : List Event) :
    extended_by_request method params trace trace :=
  ⟨[], (List.append_nil _).symm, fun _ h => absurd h (List.not_mem_nil _)⟩

theorem extended_trans (method : String) (params : Json) (a b c : List Event)
    (h1 : extended_by_request method params a b) (h2 : extended_by_request method params b c) :
    extended_by_request method params a c := by
  obtain ⟨m1, e1, p1⟩ := h1
  obtain ⟨m2, e2, p2⟩ := h2
  refine ⟨m1 ++ m2, by rw [e2, e1, List.append_assoc], fun ev hev => ?_⟩
  rcases List.mem_append.1 hev with h | h
  · exact p1 ev h
  · exact p2 ev h

theorem authenticate_extended (method : String) (params : Json) (self : OrderManager)
    (env : Env) :
    extended_by_request method params env.trace (authenticate self env).env.trace := by
  rw [authenticate_env, curl_trace]
  refine ⟨.authenticate_called :: (match (env.script.headD timed_out).result with
    | .init_failed => []
    | _ => [.auth_perform (auth_request self)]), by simp, fun ev hev => ?_⟩
  rcases List.mem_cons.1 hev with h | h
  · exact Or.inl h
  · split at h
    · exact absurd h (List.not_mem_nil _)
    · rw [List.mem_singleton] at h
      exact Or.inr (Or.inl ⟨self, h⟩)

theorem curl_request_extended (method : String) (params : Json) (self : OrderManager)
    (env : Env) :
    extended_by_request method params env.trace
      (env.curl (.request_perform (api_request self method params))).1.trace := by
  rw [curl_trace]
  refine ⟨_, rfl, fun ev hev => ?_⟩
  split at hev
  · exact absurd hev (List.not_mem_nil _)
  · rw [List.mem_singleton] at hev
    exact Or.inr (Or.inr ⟨self, hev⟩)

theorem ensure_token_extended (method : String) (params : Json) (self : OrderManager)
    (env : Env) :
    extended_by_request method params env.trace (ensure_token self env).env.trace := by
  unfold ensure_token
  split
  · exact authenticate_extended method params self env
  · exact extended_refl method params _

/-- Every event that a call adds to the trace is an entry into `authenticate`,
the transfer of an authentication request or the transfer of the request for
the given method and params. -/
theorem request_events (fuel : Nat) (self : OrderManager) (env : Env) (method : String)
    (params : Json) :
    extended_by_request method params env.trace
      (make_authenticated_request fuel self env method params).env.trace := by
  induction fuel generalizing self env with
  | zero => exact extended_refl method params _
  | succ fuel ih =>
    have hpre := ensure_token_extended method params self env
    have hsent := extended_trans method params _ _ _ hpre
      (curl_request_extended method params (ensure_token self env).self
        (ensure_token self env).env)
    have hre := extended_trans method params _ _ _ hsent
      (authenticate_extended method params (ensure_token self env).self
        ((ensure_token self env).env.curl
          (.request_perform (api_request (ensure_token self env).self method params))).1)
    rw [make_authenticated_request]
    dsimp only
    repeat' split
    all_goals first
      | exact hpre
      | exact hsent
      | exact hre
      | exact extended_trans method params _ _ _ hre (ih _ _)

theorem lookup_eq_map_find (members : List (String × Json)) (key : String) :
    members.lookup key = map_find members key := by
  induction members with
  | nil => rfl
  | cons entry rest ih =>
    obtain ⟨k1, v⟩ := entry
    by_cases h : k1 = key
    · subst h
      simp [List.lookup, map_find]
    · have hb : (key == k1) = false := by
        simp only [beq_eq_false_iff_ne, ne_eq]
        exact fun e => h e.symm
      simp only [List.lookup, hb, map_find, if_neg h, ih]

theorem contains_object (members : List (String × Json)) (key : String) :
    (Json.object members).contains key = (map_find members key).isSome := by
  simp only [Json.contains, lookup_eq_map_find]

theorem isSome_update (members : List (String × Json)) (key other : String) (value : Json) :
    (map_find (map_update members key .null fun _ => value) other).isSome = true
      ↔ other = key ∨ (map_find members other).isSome = true := by
  by_cases h : other = key
  · subst h
    rw [map_find_update_same]
    simp
  · rw [map_find_update_other _ _ _ _ _ h]
    simp [h]

theorem isSome_update_if (members : List (String × Json)) (key other : String) (value : Json)
    (c : Prop) [Decidable c] :
    (map_find (if c then map_update members key .null fun _ => value else members)
        other).isSome = true
      ↔ (other = key ∧ c) ∨ (map_find members other).isSome = true := by
  by_cases hc : c
  · rw [if_pos hc, isSome_update]
    tauto
  · rw [if_neg hc]
    tauto

theorem assign_if (members : List (String × Json)) (key : String) (value : Json)
    (c : Prop) [Decidable c] :
    (if c then (Json.object members).assign key value else Json.object members)
      = .object (if c then map_update members key .null fun _ => value else members) := by
  by_cases hc : c
  · rw [if_pos hc, if_pos hc]; rfl
  · rw [if_neg hc, if_neg hc]

theorem assign_object (members : List (String × Json)) (key : String) (value : Json) :
    (Json.object members).assign key value
      = .object (map_update members key .null fun _ => value) := rfl

theorem or_rotate (a b c d e f g h i : Prop) :
    (a ∨ b ∨ c ∨ d ∨ e ∨ f ∨ g ∨ h ∨ i) ↔ (g ∨ h ∨ i ∨ c ∨ b ∨ a ∨ f ∨ e ∨ d) := by
  tauto

/-- The members of the object that `place_order` builds. -/
theorem place_order_params_contains (instrument_name : String) (amount : Int) (price : Rat)
    (type : String) (trigger_price : Rat) (time_in_force label : String)
    (post_only reduce_only : Bool) (key : String) :
    (OrderManager.place_order_params instrument_name amount price type trigger_price
        time_in_force label post_only reduce_only).contains key = true
      ↔ key = "instrument_name" ∨ key = "amount" ∨ key = "type" ∨ key = "time_in_force"
        ∨ key = "post_only" ∨ key = "reduce_only"
        ∨ (key = "price" ∧ price ≠ 0 ∧ type ≠ "market")
        ∨ (key = "trigger_price" ∧ trigger_price ≠ 0
            ∧ (type = "stop_limit" ∨ type = "stop_market"))
        ∨ (key = "label" ∧ label ≠ "") := by
  have hbase : (map_find [("instrument_name", Json.string instrument_name),
      ("amount", .number_integer amount), ("type", .string type)] key).isSome = true
      ↔ key = "instrument_name" ∨ key = "amount" ∨ key = "type" := by
    simp only [map_find]
    by_cases h1 : "instrument_name" = key
    · simp [h1.symm]
    · by_cases h2 : "amount" = key
      · simp [h2.symm]
      · by_cases h3 : "type" = key
        · simp [h3.symm]
        · simp only [if_neg h1, if_neg h2, if_neg h3]
          have n1 : ¬ key = "instrument_name" := fun e => h1 e.symm
          have n2 : ¬ key = "amount" := fun e => h2 e.symm
          have n3 : ¬ key = "type" := fun e => h3 e.symm
          simp [n1, n2, n3]
  unfold OrderManager.place_order_params
  dsimp only
  generalize [("instrument_name", Json.string instrument_name),
      ("amount", Json.number_integer amount), ("type", Json.string type)] = base at hbase ⊢
  rw [assign_if, assign_if, assign_if, assign_object, assign_object, assign_object,
    contains_object, isSome_update, isSome_update, isSome_update, isSome_update_if,
    isSome_update_if, isSome_update_if, hbase]
  exact or_rotate _ _ _ _ _ _ _ _ _

theorem timed_request_fields (text : String) (fuel : Nat) (self : OrderManager) (env : Env)
    (monitor : PerformanceMonitor) (method : String) (params : Json) :
    (OrderManager.timed_request text fuel self env monitor method params).env
        = (make_authenticated_request fuel self env method params).env
      ∧ (OrderManager.timed_request text fuel self env monitor method params).self
        = (make_authenticated_request fuel self env method params).self
      ∧ (OrderManager.timed_request text fuel self env monitor method params).out
        = (make_authenticated_request fuel self env method params).out
      ∧ (OrderManager.timed_request text fuel self env monitor method params).monitor = monitor
      ∧ (OrderManager.timed_request text fuel self env monitor method params).latency_log.length
        = (if (OrderManager.timed_request text fuel self env monitor method params).out.returned
            then 1
          else 0) := by
  unfold OrderManager.timed_request
  dsimp only
  cases h : (make_authenticated_request fuel self env method params).out <;>
    exact ⟨rfl, rfl, rfl, rfl, rfl⟩

theorem api_request_params (self : OrderManager) (method : String) (params : Json) :
    (api_request self method params).post_data.index "params" = params := by
  rfl

/-- C14: the object `params` that `place_order` builds and sends has a member
`price` only if the type is not market, a member `trigger_price` only if the
type is stop_limit or stop_market, and a member `label` only if the label is
not empty; every request that the call transfers carries this object as its
`params`. -/
theorem c14_optional_order_members (fuel : Nat) (self : OrderManager) (env : Env)
    (monitor : PerformanceMonitor) (instrument_name side : String) (amount : Int) (price : Rat)
    (type : String) (trigger_price : Rat) (time_in_force label : String)
    (post_only reduce_only : Bool) :
    ((OrderManager.place_order_params instrument_name amount price type trigger_price
        time_in_force label post_only reduce_only).contains "price" = true →
        type ≠ "market")
      ∧ ((OrderManager.place_order_params instrument_name amount price type trigger_price
        time_in_force label post_only reduce_only).contains "trigger_price" = true →
        type = "stop_limit" ∨ type = "stop_market")
      ∧ ((OrderManager.place_order_params instrument_name amount price type trigger_price
        time_in_force label post_only reduce_only).contains "label" = true →
        label ≠ "")
      ∧ ∀ req, Event.request_perform req ∈ new_events env
          (self.place_order fuel env monitor instrument_name side amount price type
            trigger_price time_in_force label post_only reduce_only).env →
          req.post_data.index "params"
            = OrderManager.place_order_params instrument_name amount price type trigger_price
                time_in_force label post_only reduce_only := by
  refine ⟨fun h => ?_, fun h => ?_, fun h => ?_, fun req hreq => ?_⟩
  · rcases (place_order_params_contains _ _ _ _ _ _ _ _ _ _).1 h with
      h | h | h | h | h | h | h | h | h
    all_goals first
      | exact absurd h (by decide)
      | exact h.2.2
      | exact absurd h.1 (by decide)
  · rcases (place_order_params_contains _ _ _ _ _ _ _ _ _ _).1 h with
      h | h | h | h | h | h | h | h | h
    all_goals first
      | exact absurd h (by decide)
      | exact h.2.2
      | exact absurd h.1 (by decide)
  · rcases (place_order_params_contains _ _ _ _ _ _ _ _ _ _).1 h with
      h | h | h | h | h | h | h | h | h
    all_goals first
      | exact absurd h (by decide)
      | exact h.2
      | exact absurd h.1 (by decide)
  · unfold OrderManager.place_order at hreq
    rw [(timed_request_fields _ _ _ _ _ _ _).1] at hreq
    obtain ⟨more, hmore, hshape⟩ := request_events fuel self env ("private/" ++ side)
      (OrderManager.place_order_params instrument_name amount price type trigger_price
        time_in_force label post_only reduce_only)
    rw [new_events_append env _ more hmore] at hreq
    rcases hshape _ hreq with h | ⟨s, h⟩ | ⟨s, h⟩
    · cases h
    · cases h
    · injection h with h
      rw [h]
      exact api_request_params _ _ _

/-- C14 (witness): the labelled post-only limit order of main.cpp has a price
and a label and no trigger price; a market order with a price given has no
price member. -/
theorem c14_optional_order_members_witness :
    (OrderManager.place_order_params "BTC-PERPETUAL" 100 40000 "limit" 0
        "good_til_cancelled" "test_order" true false).contains "label" = true
      ∧ "test_order" ≠ ""
      ∧ (OrderManager.place_order_params "BTC-PERPETUAL" 100 40000 "market" 0
        "good_til_cancelled" "" false false).contains "price" = false :=
  ⟨(place_order_params_contains _ _ _ _ _ _ _ _ _ _).2 (by simp),
    (c14_optional_order_members 1 Example.client (Example.one_answer 0) ⟨[]⟩ "BTC-PERPETUAL"
      "buy" 100 40000 "limit" 0 "good_til_cancelled" "test_order" true false).2.2.1
      ((place_order_params_contains _ _ _ _ _ _ _ _ _ _).2 (by simp)),
    by
      cases h : (OrderManager.place_order_params "BTC-PERPETUAL" 100 40000 "market" 0
        "good_til_cancelled" "" false false).contains "price" with
      | false => rfl
      | true =>
        exact absurd rfl ((c14_optional_order_members 1 Example.client (Example.one_answer 0)
          ⟨[]⟩ "BTC-PERPETUAL" "buy" 100 40000 "market" 0 "good_til_cancelled" "" false
          false).1 h)⟩

/-- C16 (as amended): for a response without an `error` member,
`make_authenticated_request` returns the parsed response itself, the whole
envelope, and so does every public operation built on it. -/
theorem c16_returns_the_whole_response (fuel : Nat) (self : OrderManager) (env : Env)
    (monitor : PerformanceMonitor) (text method : String) (params response : Json)
    (hpre : (ensure_token self env).out = .ret ())
    (hresp : ((ensure_token self env).env.script.headD timed_out).result
      = .ok (.ok response))
    (hno : response.contains "error" = false) :
    make_authenticated_request (fuel + 1) self env method params
        = ⟨(ensure_token self env).self, after_request self env method params, .ret response⟩
      ∧ (OrderManager.timed_request text (fuel + 1) self env monitor method params).out
        = .ret response := by
  have h : make_authenticated_request (fuel + 1) self env method params
      = ⟨(ensure_token self env).self, after_request self env method params,
        .ret response⟩ := by
    rw [make_authenticated_request]
    dsimp only
    rw [hpre]
    dsimp only
    rw [curl_result, hresp]
    dsimp only
    rw [if_neg (by rw [hno]; exact Bool.false_ne_true)]
    rfl
  refine ⟨h, ?_⟩
  rw [(timed_request_fields _ _ _ _ _ _ _).2.2.1, h]

/-- C16 (witness): a buy order answered with an envelope whose result holds
the order. -/
theorem c16_returns_the_whole_response_witness :
    (OrderManager.place_order 1 Example.client (Example.one_answer 0) ⟨[]⟩ "BTC-PERPETUAL"
        "buy" 10 25000 "limit" 0 "good_til_cancelled" "" false false).out
      = .ret Example.order_response :=
  (c16_returns_the_whole_response 0 Example.client (Example.one_answer 0) ⟨[]⟩
    "Order placement latency" "private/buy"
    (OrderManager.place_order_params "BTC-PERPETUAL" 10 25000 "limit" 0 "good_til_cancelled" ""
      false false) Example.order_response rfl rfl rfl).2

/-- C16 (counterexample): the value returned for the limit buy order of
system_test.cpp is the envelope: it has no `order` member at its top level,
the order is a member of its `result` member. -/
theorem c16_order_is_below_result :
    (OrderManager.place_order 1 Example.client (Example.one_answer 0) ⟨[]⟩ "BTC-PERPETUAL"
        "buy" 10 25000 "limit" 0 "good_til_cancelled" "" false false).out
        = .ret Example.order_response
      ∧ Example.order_response.contains "order" = false
      ∧ Example.order_response.contains "result" = true
      ∧ (Example.order_response.index "result").contains "order" = true :=
  ⟨rfl, rfl, rfl, rfl⟩

theorem authenticate_new_events (self : OrderManager) (env : Env) :
    new_events env (authenticate self env).env
      = .authenticate_called :: (match (env.script.headD timed_out).result with
          | .init_failed => []
          | _ => [.auth_perform (auth_request self)]) := by
  apply new_events_append
  rw [authenticate_env, curl_trace]
  simp

theorem authenticate_counts (self : OrderManager) (env : Env) :
    requests (new_events env (authenticate self env).env) = 0
      ∧ authentications (new_events env (authenticate self env).env) = 1 := by
  rw [authenticate_new_events]
  cases (env.script.headD timed_out).result <;> exact ⟨rfl, rfl⟩

theorem authenticate_result (self : OrderManager) (env : Env) :
    ((Env.mk env.now env.script (env.trace ++ [.authenticate_called])).curl
        (.auth_perform (auth_request self))).2 = (env.script.headD timed_out).result := by
  rw [curl_result]

/-- C17: when the preemptive authentication throws, the call ends with that
exception in the state the authentication left: the trace gained one entry
into `authenticate` and no request. A failed transfer, an error response and
a response without an access token are such failures. -/
theorem c17_failed_preemptive_authentication (fuel : Nat) (self : OrderManager) (env : Env)
    (method : String) (params : Json) (e : Exn)
    (hneed : needs_authentication self env.now = true)
    (hfail : (authenticate self env).out = .throw e) :
    make_authenticated_request (fuel + 1) self env method params
        = ⟨(authenticate self env).self, (authenticate self env).env, .throw e⟩
      ∧ requests (new_events env
          (make_authenticated_request (fuel + 1) self env method params).env) = 0
      ∧ authentications (new_events env
          (make_authenticated_request (fuel + 1) self env method params).env) = 1
      ∧ (∀ strerror, (env.script.headD timed_out).result = .perform_failed strerror →
          e = .runtime_error ("Authentication failed: " ++ strerror))
      ∧ (∀ response msg code, (env.script.headD timed_out).result = .ok (.ok response) →
          response.contains "error" = true →
          error_message_of (response.index "error") = .ok msg →
          error_code_of (response.index "error") = .ok code →
          e = .runtime_error ("Authentication failed: " ++ msg))
      ∧ (∀ response, (env.script.headD timed_out).result = .ok (.ok response) →
          response.contains "error" = false →
          (response.contains "result" = false
            ∨ (response.index "result").contains "access_token" = false) →
          e = .runtime_error "Invalid authentication response") := by
  have hcall : make_authenticated_request (fuel + 1) self env method params
      = ⟨(authenticate self env).self, (authenticate self env).env, .throw e⟩ := by
    rw [make_authenticated_request]
    dsimp only
    rw [ensure_token_stale self env hneed, hfail]
  have hres := authenticate_result self env
  refine ⟨hcall, ?_, ?_, fun strerror hs => ?_, fun response msg code hs herr hmsg hcode => ?_,
    fun response hs hno hmiss => ?_⟩
  · rw [hcall]; exact (authenticate_counts self env).1
  · rw [hcall]; exact (authenticate_counts self env).2
  · have : (authenticate self env).out
        = .throw (.runtime_error ("Authentication failed: " ++ strerror)) := by
      unfold authenticate
      dsimp only
      rw [hres, hs]
    rw [this] at hfail
    injection hfail with hfail
    exact hfail.symm
  · have : (authenticate self env).out
        = .throw (.runtime_error ("Authentication failed: " ++ msg)) := by
      unfold authenticate
      dsimp only
      rw [hres, hs]
      dsimp only
      rw [if_pos herr, hmsg, hcode]
    rw [this] at hfail
    injection hfail with hfail
    exact hfail.symm
  · have : (authenticate self env).out
        = .throw (.runtime_error "Invalid authentication response") := by
      unfold authenticate
      dsimp only
      rw [hres, hs]
      dsimp only
      rw [if_neg (by rw [hno]; exact Bool.false_ne_true), if_pos]
      rcases hmiss with h | h <;> simp [h]
    rw [this] at hfail
    injection hfail with hfail
    exact hfail.symm

/-- C17 (witness): a client without a token whose authentication cannot reach
the remote side. -/
theorem c17_failed_preemptive_authentication_witness :
    make_authenticated_request 1 { Example.client with access_token_ := "" }
        Example.unreachable "private/buy" .null
      = ⟨(authenticate { Example.client with access_token_ := "" } Example.unreachable).self,
          (authenticate { Example.client with access_token_ := "" } Example.unreachable).env,
          .throw (.runtime_error "Authentication failed: Timeout was reached")⟩ :=
  (c17_failed_preemptive_authentication 0 { Example.client with access_token_ := "" }
    Example.unreachable "private/buy" .null
    (.runtime_error "Authentication failed: Timeout was reached") rfl rfl).1

/-- C18: when the transfer of the request fails, the call throws the
transport error built from the curl message, in the state the prelude left
plus the one request in the trace: no authentication follows, no request is
repeated and the client fields are those the request was sent with, which are
the fields at the start of the call when the token was still valid. -/
theorem c18_failed_transfer_is_not_retried (fuel : Nat) (self : OrderManager) (env : Env)
    (method : String) (params : Json) (strerror : String)
    (hpre : (ensure_token self env).out = .ret ())
    (hfail : ((ensure_token self env).env.script.headD timed_out).result
      = .perform_failed strerror) :
    make_authenticated_request (fuel + 1) self env method params
        = ⟨(ensure_token self env).self, after_request self env method params,
            .throw (.runtime_error ("Request failed: " ++ strerror))⟩
      ∧ (after_request self env method params).trace
        = (ensure_token self env).env.trace
          ++ [.request_perform (api_request (ensure_token self env).self method params)]
      ∧ (needs_authentication self env.now = false →
          (make_authenticated_request (fuel + 1) self env method params).self = self
          ∧ new_events env (make_authenticated_request (fuel + 1) self env method params).env
            = [.request_perform (api_request self method params)]) := by
  have hcall : make_authenticated_request (fuel + 1) self env method params
      = ⟨(ensure_token self env).self, after_request self env method params,
          .throw (.runtime_error ("Request failed: " ++ strerror))⟩ := by
    rw [make_authenticated_request]
    dsimp only
    rw [hpre]
    dsimp only
    rw [curl_result, hfail]
    rfl
  have htrace : (after_request self env method params).trace
      = (ensure_token self env).env.trace
        ++ [.request_perform (api_request (ensure_token self env).self method params)] := by
    rw [after_request, curl_trace, hfail]
  refine ⟨hcall, htrace, fun hvalid => ?_⟩
  rw [hcall]
  dsimp only
  rw [ensure_token_valid self env hvalid] at htrace ⊢
  exact ⟨rfl, new_events_append env _ _ htrace⟩

/-- C18 (witness): a client with a valid token and an unreachable remote side. -/
theorem c18_failed_transfer_is_not_retried_witness :
    make_authenticated_request 1 Example.client Example.unreachable "private/buy" .null
      = ⟨(ensure_token Example.client Example.unreachable).self,
          after_request Example.client Example.unreachable "private/buy" .null,
          .throw (.runtime_error "Request failed: Timeout was reached")⟩ :=
  (c18_failed_transfer_is_not_retried 0 Example.client Example.unreachable "private/buy" .null
    "Timeout was reached" rfl rfl).1

/-- C19: when the response carries an `error` member whose message can be read
and whose code reads as a value other than 13009, the call throws the
application error built from that message, in the state the prelude left plus
the one request in the trace; the message is "Unknown error" when the member
has none, and a member without a code reads as -1. -/
theorem c19_application_error_is_not_retried (fuel : Nat) (self : OrderManager) (env : Env)
    (method : String) (params response : Json) (msg : String) (code : Int)
    (hpre : (ensure_token self env).out = .ret ())
    (hresp : ((ensure_token self env).env.script.headD timed_out).result
      = .ok (.ok response))
    (herr : response.contains "error" = true)
    (hmsg : error_message_of (response.index "error") = .ok msg)
    (hcode : error_code_of (response.index "error") = .ok code)
    (hne : code ≠ 13009) :
    make_authenticated_request (fuel + 1) self env method params
        = ⟨(ensure_token self env).self, after_request self env method params,
            .throw (.runtime_error ("API error: " ++ msg))⟩
      ∧ (after_request self env method params).trace
        = (ensure_token self env).env.trace
          ++ [.request_perform (api_request (ensure_token self env).self method params)]
      ∧ ((response.index "error").contains "message" = false → msg = "Unknown error")
      ∧ (∀ text, (response.index "error").contains "message" = true →
          (response.index "error").index "message" = .string text → msg = text)
      ∧ ((response.index "error").contains "code" = false → code = -1) := by
  refine ⟨?_, ?_, fun h => ?_, fun text h ht => ?_, fun h => ?_⟩
  · rw [make_authenticated_request]
    dsimp only
    rw [hpre]
    dsimp only
    rw [curl_result, hresp]
    dsimp only
    rw [if_pos herr, hmsg, hcode]
    dsimp only
    rw [if_neg hne]
    rfl
  · rw [after_request, curl_trace, hresp]
  · unfold error_message_of at hmsg
    rw [h] at hmsg
    injection hmsg with hmsg
    exact hmsg.symm
  · unfold error_message_of at hmsg
    rw [h, if_pos rfl, ht] at hmsg
    injection hmsg with hmsg
    exact hmsg.symm
  · unfold error_code_of at hcode
    rw [h] at hcode
    injection hcode with hcode
    exact hcode.symm

/-- C19 (witness): a request rejected with code 10009 and the message
not_enough_funds. -/
theorem c19_application_error_is_not_retried_witness :
    make_authenticated_request 1 Example.client Example.rejecting "private/buy" .null
      = ⟨(ensure_token Example.client Example.rejecting).self,
          after_request Example.client Example.rejecting "private/buy" .null,
          .throw (.runtime_error "API error: not_enough_funds")⟩ :=
  (c19_application_error_is_not_retried 0 Example.client Example.rejecting "private/buy" .null
    (.object [("error", .object [("code", .number_integer 10009),
      ("message", .string "not_enough_funds")])]) "not_enough_funds" 10009
    rfl rfl rfl rfl rfl (by decide)).1

/-! ### The polling cycle -/

theorem update_step_cache (remote : String → Fetch)
    (state : MarketDataHandler × PerformanceMonitor) (instrument : String) :
    (MarketDataHandler.update_step remote state instrument).1
      = match MarketDataHandler.fetched remote instrument with
        | some orderbook =>
          { state.1 with
            latest_orderbooks_ :=
              map_update state.1.latest_orderbooks_ instrument .null fun _ => orderbook }
        | none => state.1 := by
  unfold MarketDataHandler.update_step MarketDataHandler.get_orderbook
    MarketDataHandler.fetched MarketDataHandler.make_request
  dsimp only
  cases h : (remote (MarketDataHandler.orderbook_url instrument)).result with
  | init_failed => rfl
  | perform_failed strerror => rfl
  | ok body => cases body <;> rfl

theorem update_loop_cache (remote : String → Fetch) (instruments : List String)
    (state : MarketDataHandler × PerformanceMonitor) (key : String) :
    map_find (instruments.foldl (MarketDataHandler.update_step remote) state).1.latest_orderbooks_
        key
      = match (if key ∈ instruments then MarketDataHandler.fetched remote key else none) with
        | some orderbook => some orderbook
        | none => map_find state.1.latest_orderbooks_ key := by
  induction instruments generalizing state with
  | nil => simp
  | cons instrument rest ih =>
    rw [List.foldl_cons, ih, update_step_cache]
    by_cases hrest : key ∈ rest
    · rw [if_pos hrest, if_pos (List.mem_cons_of_mem _ hrest)]
      cases hf : MarketDataHandler.fetched remote key with
      | some orderbook => rfl
      | none =>
        dsimp only
        by_cases hk : key = instrument
        · subst hk
          rw [hf]
        · cases MarketDataHandler.fetched remote instrument with
          | none => rfl
          | some orderbook =>
            dsimp only
            rw [map_find_update_other _ _ _ _ _ hk]
    · rw [if_neg hrest]
      dsimp only
      by_cases hk : key = instrument
      · subst hk
        rw [if_pos (List.mem_cons_self _ _)]
        cases hf : MarketDataHandler.fetched remote key with
        | none => rfl
        | some orderbook =>
          dsimp only
          rw [map_find_update_same]
      · have hnot : key ∉ instrument :: rest := by
          intro h
          rcases List.mem_cons.1 h with h | h
          · exact hk h
          · exact hrest h
        rw [if_neg hnot]
        cases MarketDataHandler.fetched remote instrument with
        | none => rfl
        | some orderbook =>
          dsimp only
          rw [map_find_update_other _ _ _ _ _ hk]

theorem update_loop_frame (remote : String → Fetch) (instruments : List String)
    (state : MarketDataHandler × PerformanceMonitor) :
    (instruments.foldl (MarketDataHandler.update_step remote) state).1.active_instruments_
        = state.1.active_instruments_
      ∧ (instruments.foldl (MarketDataHandler.update_step remote) state).1.running_
        = state.1.running_ := by
  induction instruments generalizing state with
  | nil => exact ⟨rfl, rfl⟩
  | cons instrument rest ih =>
    rw [List.foldl_cons]
    obtain ⟨h1, h2⟩ := ih (MarketDataHandler.update_step remote state instrument)
    rw [h1, h2, update_step_cache]
    cases MarketDataHandler.fetched remote instrument <;> exact ⟨rfl, rfl⟩

/-- C20: after one polling cycle the cache holds, for every active instrument
whose fetch succeeded, the fetched snapshot, and for every other key what it
held before; the outcome for one instrument does not depend on the outcome
for any other, and the active set is left as it was. -/
theorem c20_polling_cycle (self : MarketDataHandler) (monitor : PerformanceMonitor)
    (remote : String → Fetch) (cycle_start cycle_end : Int) :
    (∀ instrument orderbook, instrument ∈ self.active_instruments_ →
        MarketDataHandler.fetched remote instrument = some orderbook →
        map_find (self.update_cycle monitor remote cycle_start cycle_end).1.latest_orderbooks_
          instrument = some orderbook)
      ∧ (∀ key, (key ∉ self.active_instruments_
            ∨ MarketDataHandler.fetched remote key = none) →
        map_find (self.update_cycle monitor remote cycle_start cycle_end).1.latest_orderbooks_
          key = map_find self.latest_orderbooks_ key)
      ∧ (self.update_cycle monitor remote cycle_start cycle_end).1.active_instruments_
        = self.active_instruments_ := by
  unfold MarketDataHandler.update_cycle
  dsimp only
  refine ⟨fun instrument orderbook hmem hf => ?_, fun key h => ?_, ?_⟩
  · rw [update_loop_cache, if_pos hmem, hf]
  · rw [update_loop_cache]
    rcases h with h | h
    · rw [if_neg h]
    · split
      · rename_i orderbook heq
        by_cases hmem : key ∈ self.active_instruments_
        · rw [if_pos hmem, h] at heq
          cases heq
        · rw [if_neg hmem] at heq
          cases heq
      · rfl
  · exact (update_loop_frame remote _ _).1

/-- C20 (witness): the fetch for BTC-PERPETUAL fails and the one for
ETH-PERPETUAL, which comes after it, succeeds: the first keeps its old
snapshot and the second gets the new one. -/
theorem c20_polling_cycle_witness :
    map_find (Example.poller.update_cycle ⟨[]⟩ Example.only_eth 0 5000000).1.latest_orderbooks_
        "ETH-PERPETUAL" = some (.object [("result", .string "eth book")])
      ∧ map_find
          (Example.poller.update_cycle ⟨[]⟩ Example.only_eth 0 5000000).1.latest_orderbooks_
          "BTC-PERPETUAL" = map_find Example.poller.latest_orderbooks_ "BTC-PERPETUAL" :=
  ⟨(c20_polling_cycle Example.poller ⟨[]⟩ Example.only_eth 0 5000000).1 "ETH-PERPETUAL" _
      (by decide) rfl,
    (c20_polling_cycle Example.poller ⟨[]⟩ Example.only_eth 0 5000000).2.1 "BTC-PERPETUAL"
      (Or.inr rfl)⟩


/-! ### Sessions: closing, accepting, single writer -/

theorem handle_subscription_try_frame (g g1 : Gateway) (self : SessionId) (msg : Json)
    (h : handle_subscription_try g self msg = .ok g1) :
    g1.sessions = g.sessions ∧ g1.monitor = g.monitor
      ∧ (g1.subscriptions_ = g.subscriptions_
        ∨ ∃ f, g1.subscriptions_ = map_update g.subscriptions_ self ∅ f) := by
  unfold handle_subscription_try at h
  by_cases hc : (!msg.contains "action" || !msg.contains "symbol") = true
  · rw [if_pos hc] at h
    injection h with h
    subst h
    exact ⟨rfl, rfl, Or.inl rfl⟩
  · rw [if_neg hc] at h
    cases ha : (msg.index "action").get_string with
    | error e => rw [ha] at h; cases h
    | ok action =>
      cases hs : (msg.index "symbol").get_string with
      | error e => rw [ha, hs] at h; cases h
      | ok symbol =>
        rw [ha, hs] at h
        dsimp only at h
        by_cases h1 : action = "subscribe"
        · rw [if_pos h1] at h
          injection h with h
          subst h
          exact ⟨rfl, rfl, Or.inr ⟨_, rfl⟩⟩
        · rw [if_neg h1] at h
          by_cases h2 : action = "unsubscribe"
          · rw [if_pos h2] at h
            injection h with h
            subst h
            exact ⟨rfl, rfl, Or.inr ⟨_, rfl⟩⟩
          · rw [if_neg h2] at h
            injection h with h
            subst h
            exact ⟨rfl, rfl, Or.inl rfl⟩

theorem handle_subscription_frame (g : Gateway) (self : SessionId) (msg : Json) :
    (handle_subscription g self msg).sessions = g.sessions
      ∧ (handle_subscription g self msg).monitor = g.monitor
      ∧ ((handle_subscription g self msg).subscriptions_ = g.subscriptions_
        ∨ ∃ f, (handle_subscription g self msg).subscriptions_
            = map_update g.subscriptions_ self ∅ f) := by
  unfold handle_subscription
  cases h : handle_subscription_try g self msg with
  | error e => exact ⟨rfl, rfl, Or.inl rfl⟩
  | ok g1 => exact handle_subscription_try_frame g g1 self msg h

theorem registered_update (m : List (SessionId × Finset String)) (k x : SessionId)
    (f : Finset String → Finset String) (h : (map_find m x).isSome = true) :
    (map_find (map_update m k ∅ f) x).isSome = true := by
  by_cases hx : x = k
  · subst hx
    rw [map_find_update_same]
    rfl
  · rw [map_find_update_other _ _ _ _ _ hx]
    exact h

theorem handle_subscription_registered (g : Gateway) (self session : SessionId) (msg : Json)
    (h : g.registered session = true) :
    (handle_subscription g self msg).registered session = true := by
  unfold Gateway.registered at h ⊢
  rcases (handle_subscription_frame g self msg).2.2 with hs | ⟨f, hs⟩
  · rw [hs]; exact h
  · rw [hs]; exact registered_update _ _ _ _ h

theorem on_read_frame (g : Gateway) (self : SessionId) (ec : Bool)
    (payload : Except String Json) (start_time end_time : Int) :
    (on_read g self ec payload start_time end_time).gateway.subscriptions_ = g.subscriptions_
      ∨ ∃ f, (on_read g self ec payload start_time end_time).gateway.subscriptions_
          = map_update g.subscriptions_ self ∅ f := by
  unfold on_read
  dsimp only
  cases ec with
  | true => exact Or.inl rfl
  | false =>
    simp only [Bool.false_eq_true, if_false, do_read]
    cases payload with
    | error what => exact Or.inl rfl
    | ok msg =>
      simp only [on_read_try]
      exact (handle_subscription_frame _ self msg).2.2

/-- The sessions of the gateway after `on_read` differ from those before only
in the flag that says whether a read is outstanding for the reading session. -/
theorem on_read_sessions (g : Gateway) (self session : SessionId) (ec : Bool)
    (payload : Except String Json) (start_time end_time : Int) :
    ((on_read g self ec payload start_time end_time).gateway.sessions session).pushed
        = (g.sessions session).pushed
      ∧ ((on_read g self ec payload start_time end_time).gateway.sessions session).written
        = (g.sessions session).written
      ∧ ((on_read g self ec payload start_time end_time).gateway.sessions
          session).message_queue_ = (g.sessions session).message_queue_
      ∧ ((on_read g self ec payload start_time end_time).gateway.sessions
          session).writes_in_flight = (g.sessions session).writes_in_flight := by
  unfold on_read
  dsimp only
  cases ec with
  | true =>
    simp only [if_true]
    by_cases hs : session = self
    · subst hs; simp only [Function.update_same, and_self]
    · simp only [Function.update_noteq hs, and_self]
  | false =>
    simp only [Bool.false_eq_true, if_false, do_read]
    have hsess : ∀ g1 : Gateway, (match on_read_try g1 self payload with
        | .ok g2 => g2
        | .error _ => g1).sessions = g1.sessions := by
      intro g1
      cases payload with
      | error what => rfl
      | ok msg => exact (handle_subscription_frame g1 self msg).1
    by_cases hs : session = self
    · subst hs
      simp only [Function.update_same, hsess, and_self]
    · simp only [Function.update_noteq hs, hsess, and_self]

/-- C21 (as amended): no handler removes an entry of the registry. A read that
ends with an error or a close ends the session and leaves the registry as it
was, a failed write leaves the registry and the open state as they were, and
after any read every session that had an entry still has one. -/
theorem c21_registry_entries_are_never_removed (g : Gateway) (self : SessionId)
    (payload : Except String Json) (start_time end_time now : Int) :
    (on_read g self true payload start_time end_time).gateway.subscriptions_
        = g.subscriptions_
      ∧ (on_read g self true payload start_time end_time).gateway.is_open self = false
      ∧ (g.write_completed self true now).subscriptions_ = g.subscriptions_
      ∧ (g.write_completed self true now).is_open self = g.is_open self
      ∧ ∀ ec session, g.registered session = true →
          (on_read g self ec payload start_time end_time).gateway.registered session
            = true := by
  refine ⟨rfl, ?_, rfl, ?_, fun ec session h => ?_⟩
  · simp [on_read, Gateway.is_open]
  · simp [Gateway.write_completed, Gateway.is_open, on_write]
  · unfold Gateway.registered at h ⊢
    rcases on_read_frame g self ec payload start_time end_time with hs | ⟨f, hs⟩
    · rw [hs]; exact h
    · rw [hs]; exact registered_update _ _ _ _ h

/-- C21 (counterexample): session 1 has subscribed and its read then fails: it
is no longer open and still has its entry in the registry; session 2 is open
and has never had an entry. -/
theorem c21_ended_session_stays_registered :
    Example.subscribed_gateway.registered 1 = true
      ∧ (on_read Example.subscribed_gateway 1 true (.error "") 0 0).gateway.is_open 1 = false
      ∧ (on_read Example.subscribed_gateway 1 true (.error "") 0 0).gateway.registered 1
        = true
      ∧ Example.idle_gateway.is_open 2 = true
      ∧ Example.idle_gateway.registered 2 = false :=
  ⟨rfl, rfl, rfl, rfl, rfl⟩

theorem acceptor_run_state (completions : List (Bool × SessionId)) (self : Acceptor) :
    (self.run completions).accepts_issued = self.accepts_issued + completions.length
      ∧ (self.run completions).handshakes
        = self.handshakes
          ++ (completions.filter fun completion => !completion.1).map Prod.snd := by
  induction completions generalizing self with
  | nil => simp [Acceptor.run]
  | cons completion rest ih =>
    obtain ⟨ec, socket⟩ := completion
    have hrun : self.run ((ec, socket) :: rest) = (self.on_accept ec socket).run rest := rfl
    obtain ⟨h1, h2⟩ := ih (self.on_accept ec socket)
    rw [hrun, h1, h2]
    cases ec with
    | true =>
      simp only [Acceptor.on_accept, Acceptor.do_accept, if_true, List.length_cons,
        List.filter, Bool.not_true, and_true]
      omega
    | false =>
      simp only [Acceptor.on_accept, Acceptor.do_accept, Bool.false_eq_true, if_false,
        List.length_cons, List.filter, Bool.not_false, List.map_cons, List.append_assoc,
        List.singleton_append, and_true]
      omega

/-- C22: every accept completion, failed or not, issues exactly one new
asynchronous accept; a failed one starts no session and a successful one
starts exactly the session made from the accepted socket. After the start of
the server and any n completions, n + 1 accepts have been issued, so one
accept is always outstanding. -/
theorem c22_accept_loop_continues (self : Acceptor) (ec : Bool) (socket : SessionId)
    (completions : List (Bool × SessionId)) :
    (self.on_accept ec socket).accepts_issued = self.accepts_issued + 1
      ∧ (self.on_accept true socket).handshakes = self.handshakes
      ∧ (self.on_accept false socket).handshakes = self.handshakes ++ [socket]
      ∧ (Acceptor.start.run completions).accepts_issued = completions.length + 1
      ∧ (Acceptor.start.run completions).handshakes
        = (completions.filter fun completion => !completion.1).map Prod.snd := by
  refine ⟨?_, rfl, rfl, ?_, ?_⟩
  · cases ec <;> rfl
  · rw [(acceptor_run_state completions Acceptor.start).1]
    simp only [Acceptor.start, Acceptor.do_accept]
    omega
  · rw [(acceptor_run_state completions Acceptor.start).2]
    rfl

theorem process_message_queue_single_writer (self : WebSocketSession)
    (monitor : PerformanceMonitor) (now : Int) (h : single_writer self) :
    single_writer (process_message_queue self monitor now).1 := by
  unfold process_message_queue
  split
  · exact h
  · rename_i hs
    have hzero : self.writes_in_flight = 0 := by
      obtain ⟨h1, h2⟩ := h
      by_contra hne
      have : self.writes_in_flight = 1 := by omega
      exact hs (h2.2 this)
    split
    · exact ⟨by simp [hzero], by simp [hzero]⟩
    · exact ⟨by simp [hzero], by simp [hzero]⟩

theorem on_write_single_writer (self : WebSocketSession) (monitor : PerformanceMonitor)
    (ec : Bool) (now : Int) (h : single_writer self) :
    single_writer (on_write self monitor ec now).1 := by
  have h1 : single_writer
      { self with is_sending_ := false, writes_in_flight := self.writes_in_flight - 1 } := by
    obtain ⟨hle, _⟩ := h
    constructor
    · show self.writes_in_flight - 1 ≤ 1
      omega
    · show false = true ↔ self.writes_in_flight - 1 = 1
      constructor
      · intro hf; cases hf
      · intro hf; omega
  unfold on_write
  dsimp only
  split
  · exact process_message_queue_single_writer _ _ _ h1
  · exact h1

theorem send_single_writer (self : WebSocketSession) (monitor : PerformanceMonitor)
    (message uninit : List Byte) (stamp now : Int) (h : single_writer self) :
    single_writer (send self monitor message uninit stamp now).1 := by
  by_cases hsize : BUFFER_SIZE < message.length
  · rw [send_too_large _ _ _ _ _ _ hsize]; exact h
  by_cases hroom : self.message_queue_.length < MESSAGE_QUEUE_SIZE
  · rw [send_accepted _ _ _ _ _ _ (by omega) hroom]
    split
    · exact h
    · exact process_message_queue_single_writer _ _ _ h
  · rw [send_queue_full _ _ _ _ _ _ (by omega)]; exact h

theorem session_run_single_writer (calls : List SessionCall)
    (state : WebSocketSession × PerformanceMonitor) (h : single_writer state.1) :
    single_writer (session_run state calls).1 := by
  induction calls generalizing state with
  | nil => exact h
  | cons call calls ih =>
    apply ih
    cases call with
    | send message uninit stamp now => exact send_single_writer _ _ _ _ _ _ h
    | process_message_queue now => exact process_message_queue_single_writer _ _ _ h
    | write_completed ec now => exact on_write_single_writer _ _ _ _ h

/-- C23: after any sequence of `send` calls, `process_message_queue` calls and
write completions on an accepted session at most one write is in flight, and
one is in flight exactly while `is_sending_` is set. While the flag is set
`process_message_queue` does nothing and `send` starts no write and leaves the
flag set; with the flag clear and a message queued `process_message_queue`
sets the flag and starts one write. -/
theorem c23_single_write_in_flight (monitor : PerformanceMonitor) (calls : List SessionCall) :
    (session_run (.accepted, monitor) calls).1.writes_in_flight ≤ 1
      ∧ ((session_run (.accepted, monitor) calls).1.is_sending_ = true
        ↔ (session_run (.accepted, monitor) calls).1.writes_in_flight = 1)
      ∧ (∀ (self : WebSocketSession) (m : PerformanceMonitor) (now : Int),
          self.is_sending_ = true → process_message_queue self m now = (self, m))
      ∧ (∀ (self : WebSocketSession) (m : PerformanceMonitor) (message uninit : List Byte)
          (stamp now : Int), self.is_sending_ = true →
          (send self m message uninit stamp now).1.is_sending_ = true
          ∧ (send self m message uninit stamp now).1.writes_in_flight = self.writes_in_flight
          ∧ (send self m message uninit stamp now).1.written = self.written)
      ∧ (∀ (self : WebSocketSession) (m : PerformanceMonitor) (now : Int)
          (msg : WebSocketMessage) (rest : List WebSocketMessage),
          self.is_sending_ = false → self.message_queue_ = msg :: rest →
          (process_message_queue self m now).1.is_sending_ = true
          ∧ (process_message_queue self m now).1.writes_in_flight = self.writes_in_flight + 1
          ∧ (process_message_queue self m now).1.written = self.written ++ [msg.buffer]) := by
  have hinv : single_writer (session_run (.accepted, monitor) calls).1 :=
    session_run_single_writer calls (.accepted, monitor)
      ⟨Nat.zero_le 1, by simp [WebSocketSession.accepted]⟩
  refine ⟨hinv.1, hinv.2, fun self m now hs => ?_, fun self m message uninit stamp now hs => ?_,
    fun self m now msg rest hs hq => ?_⟩
  · unfold process_message_queue
    rw [if_pos hs]
  · by_cases hsize : BUFFER_SIZE < message.length
    · rw [send_too_large _ _ _ _ _ _ hsize]; exact ⟨hs, rfl, rfl⟩
    by_cases hroom : self.message_queue_.length < MESSAGE_QUEUE_SIZE
    · rw [send_accepted _ _ _ _ _ _ (by omega) hroom, if_pos hs]
      exact ⟨hs, rfl, rfl⟩
    · rw [send_queue_full _ _ _ _ _ _ (by omega)]; exact ⟨hs, rfl, rfl⟩
  · unfold process_message_queue
    rw [if_neg (by rw [hs]; exact Bool.false_ne_true), hq]
    exact ⟨rfl, rfl, rfl⟩

/-- C26 (the code at the failing input): the test message of the performance
client is read on an accepted session of an idle gateway. The read succeeds
and the next read is issued, but nothing is pushed on the outbound queue of
the session and nothing is written to it. -/
theorem c26_test_message_gets_no_answer :
    (on_read Example.idle_gateway 1 false (.ok Example.test_message) 0 0).gateway.is_open 1
        = true
      ∧ ((on_read Example.idle_gateway 1 false (.ok Example.test_message) 0 0).gateway.sessions
          1).pushed = []
      ∧ ((on_read Example.idle_gateway 1 false (.ok Example.test_message) 0 0).gateway.sessions
          1).written = []
      ∧ ((on_read Example.idle_gateway 1 false (.ok Example.test_message) 0 0).gateway.sessions
          1).message_queue_ = [] :=
  ⟨rfl, (on_read_sessions Example.idle_gateway 1 1 false (.ok Example.test_message) 0 0).1,
    (on_read_sessions Example.idle_gateway 1 1 false (.ok Example.test_message) 0 0).2.1,
    (on_read_sessions Example.idle_gateway 1 1 false (.ok Example.test_message) 0 0).2.2.1⟩

/-- C24: the value that `handle_market_data` serializes is an object with
exactly the members `symbol`, `data` and `timestamp`, holding the given
symbol, the given data and an integer. When the serialization succeeds its
text is what `send` is called with, and when it throws the session is left as
it was; in both cases no exception leaves the function and the latency is
tracked under `market_data_` followed by the symbol. -/
theorem c24_market_data_envelope (self : WebSocketSession) (monitor : PerformanceMonitor)
    (dump : Json → Except Exn (List Byte)) (symbol : String) (data : Json)
    (start_time timestamp : Int) (uninit : List Byte) (stamp now end_time : Int) :
    (∀ key, (market_data_message symbol data timestamp).contains key = true
        ↔ key = "symbol" ∨ key = "data" ∨ key = "timestamp")
      ∧ (market_data_message symbol data timestamp).index "symbol" = .string symbol
      ∧ (market_data_message symbol data timestamp).index "data" = data
      ∧ (market_data_message symbol data timestamp).index "timestamp"
        = .number_integer timestamp
      ∧ (∀ text, dump (market_data_message symbol data timestamp) = .ok text →
          (handle_market_data self monitor dump symbol data start_time timestamp uninit stamp
              now end_time).session = (send self monitor text uninit stamp now).1
          ∧ (handle_market_data self monitor dump symbol data start_time timestamp uninit stamp
              now end_time).monitor
            = (send self monitor text uninit stamp now).2.track_websocket_latency
                ("market_data_" ++ symbol)
                ((to_microseconds (end_time - start_time) : Rat) / 1000))
      ∧ (∀ e, dump (market_data_message symbol data timestamp) = .error e →
          (handle_market_data self monitor dump symbol data start_time timestamp uninit stamp
              now end_time).session = self
          ∧ (handle_market_data self monitor dump symbol data start_time timestamp uninit stamp
              now end_time).monitor
            = monitor.track_websocket_latency ("market_data_" ++ symbol)
                ((to_microseconds (end_time - start_time) : Rat) / 1000))
      ∧ (handle_market_data self monitor dump symbol data start_time timestamp uninit stamp
          now end_time).escaped = none := by
  refine ⟨fun key => ?_, rfl, rfl, rfl, fun text h => ?_, fun e h => ?_, rfl⟩
  · unfold market_data_message
    rw [contains_object]
    simp only [map_find]
    by_cases h1 : "symbol" = key
    · simp [h1.symm]
    · by_cases h2 : "data" = key
      · simp [h2.symm]
      · by_cases h3 : "timestamp" = key
        · simp [h3.symm]
        · simp only [if_neg h1, if_neg h2, if_neg h3]
          have n1 : ¬ key = "symbol" := fun e => h1 e.symm
          have n2 : ¬ key = "data" := fun e => h2 e.symm
          have n3 : ¬ key = "timestamp" := fun e => h3 e.symm
          simp [n1, n2, n3]
  · unfold handle_market_data handle_market_data_try
    rw [h]
    exact ⟨rfl, rfl⟩
  · unfold handle_market_data handle_market_data_try
    rw [h]
    exact ⟨rfl, rfl⟩

/-- C24 (witness): a serializer that yields one byte for every value and one
that throws for every value, on an accepted session. -/
theorem c24_market_data_envelope_witness :
    (handle_market_data .accepted ⟨[]⟩ (fun _ => .ok [0]) "BTC-PERPETUAL" .null 0 5 [] 0 0
        0).session.written = [[0]]
      ∧ (handle_market_data .accepted ⟨[]⟩ (fun _ => .error .json_type_error) "BTC-PERPETUAL"
        .null 0 5 [] 0 0 0).session.written = [] :=
  ⟨by
      rw [((c24_market_data_envelope .accepted ⟨[]⟩ (fun _ => .ok [0]) "BTC-PERPETUAL" .null 0 5
        [] 0 0 0).2.2.2.2.1 [0] rfl).1]
      rfl,
    by
      rw [((c24_market_data_envelope .accepted ⟨[]⟩ (fun _ => .error .json_type_error)
        "BTC-PERPETUAL" .null 0 5 [] 0 0 0).2.2.2.2.2.1 .json_type_error rfl).1]
      rfl⟩

/-! ### Requests and the bearer token -/

theorem sent_requests_append (a b : List Event) :
    sent_requests (a ++ b) = sent_requests a ++ sent_requests b := by
  unfold sent_requests
  rw [List.filterMap_append]

theorem authenticate_sends_no_request (self : OrderManager) (env : Env) :
    sent_requests (new_events env (authenticate self env).env) = [] := by
  rw [authenticate_new_events]
  cases (env.script.headD timed_out).result <;> rfl

theorem ensure_token_sends_no_request (self : OrderManager) (env : Env) :
    sent_requests (new_events env (ensure_token self env).env) = [] := by
  unfold ensure_token
  split
  · exact authenticate_sends_no_request self env
  · simp [new_events, sent_requests]

theorem new_events_trans (a b c : Env) (m1 m2 : List Event) (h1 : b.trace = a.trace ++ m1)
    (h2 : c.trace = b.trace ++ m2) : new_events a c = new_events a b ++ new_events b c := by
  rw [new_events_append a b m1 h1, new_events_append b c m2 h2]
  exact new_events_append a c (m1 ++ m2) (by rw [h2, h1, List.append_assoc])

theorem after_request_events (self : OrderManager) (env : Env) (method : String)
    (params : Json)
    (hinit : ((ensure_token self env).env.script.headD timed_out).result ≠ .init_failed) :
    (after_request self env method params).trace
      = (ensure_token self env).env.trace
        ++ [.request_perform (api_request (ensure_token self env).self method params)] := by
  rw [after_request, curl_trace]
  cases hres : ((ensure_token self env).env.script.headD timed_out).result with
  | init_failed => exact absurd hres hinit
  | perform_failed strerror => rfl
  | ok body => rfl

/-- The requests of a call whose prelude returned start with the request built
from the client that the prelude left. -/
theorem request_sent_first (fuel : Nat) (self : OrderManager) (env : Env) (method : String)
    (params : Json) (hpre : (ensure_token self env).out = .ret ())
    (hinit : ((ensure_token self env).env.script.headD timed_out).result ≠ .init_failed) :
    sent_requests (new_events env (make_authenticated_request (fuel + 1) self env method
        params).env)
      = api_request (ensure_token self env).self method params
        :: sent_requests (new_events (after_request self env method params)
            (make_authenticated_request (fuel + 1) self env method params).env) := by
  obtain ⟨more, hmore⟩ := request_trace_after_request fuel self env method params hpre
  obtain ⟨pe, hpe, _⟩ := ensure_token_extended method params self env
  have hafter := after_request_events self env method params hinit
  have h1 : (after_request self env method params).trace
      = env.trace ++ (pe ++ [.request_perform
          (api_request (ensure_token self env).self method params)]) := by
    rw [hafter, hpe, List.append_assoc]
  rw [new_events_trans env (after_request self env method params) _ _ more h1 hmore,
    sent_requests_append, new_events_append env _ _ h1, sent_requests_append]
  have hp : sent_requests pe = [] := by
    have := ensure_token_sends_no_request self env
    rwa [new_events_append env _ pe hpe] at this
  rw [hp]
  rfl

/-- A token-expired response makes the call authenticate and continue as a new
call on the state that the authentication left. -/
theorem retry_unfold (fuel : Nat) (self : OrderManager) (env : Env)
    (method : String) (params : Json) (response : Json)
    (hpre : (ensure_token self env).out = .ret ())
    (hresp : ((ensure_token self env).env.script.headD timed_out).result
      = .ok (.ok response))
    (hexp : carries_token_expired response)
    (hre : (reauthentication self env method params).out = .ret ()) :
    make_authenticated_request (fuel + 1) self env method params
      = make_authenticated_request fuel (reauthentication self env method params).self
          (reauthentication self env method params).env method params := by
  obtain ⟨herr, ⟨msg, hmsg⟩, hcode⟩ := hexp
  rw [make_authenticated_request]
  dsimp only
  rw [hpre]
  dsimp only
  rw [curl_result, hresp]
  dsimp only
  rw [if_pos herr, hmsg, hcode]
  dsimp only
  rw [if_pos rfl]
  unfold reauthentication after_request at hre ⊢
  rw [hre]

theorem api_request_body (self : OrderManager) (method : String) (params : Json)
    (key : String) :
    (api_request self method params).post_data.contains key = true
      ↔ key = "jsonrpc" ∨ key = "id" ∨ key = "method" ∨ key = "params" := by
  unfold api_request
  dsimp only
  rw [contains_object]
  simp only [map_find]
  by_cases h1 : "jsonrpc" = key
  · simp [h1.symm]
  · by_cases h2 : "id" = key
    · simp [h2.symm]
    · by_cases h3 : "method" = key
      · simp [h3.symm]
      · by_cases h4 : "params" = key
        · simp [h4.symm]
        · simp only [if_neg h1, if_neg h2, if_neg h3, if_neg h4]
          have n1 : ¬ key = "jsonrpc" := fun e => h1 e.symm
          have n2 : ¬ key = "id" := fun e => h2 e.symm
          have n3 : ¬ key = "method" := fun e => h3 e.symm
          have n4 : ¬ key = "params" := fun e => h4 e.symm
          simp [n1, n2, n3, n4]

theorem sent_requests_shape (fuel : Nat) (self : OrderManager) (env : Env) (method : String)
    (params : Json) (req : HttpRequest)
    (h : req ∈ sent_requests
      (new_events env (make_authenticated_request fuel self env method params).env)) :
    ∃ s : OrderManager, req = api_request s method params := by
  obtain ⟨more, hmore, hshape⟩ := request_events fuel self env method params
  rw [new_events_append env _ more hmore] at h
  unfold sent_requests at h
  obtain ⟨ev, hev, hreq⟩ := List.mem_filterMap.1 h
  rcases hshape ev hev with e | ⟨s, e⟩ | ⟨s, e⟩
  · subst e; cases hreq
  · subst e; cases hreq
  · subst e
    injection hreq with hreq
    exact ⟨s, hreq.symm⟩

/-- C25: every request that a call transfers has as its body the object with
exactly the members `jsonrpc` = "2.0", `id` = 1, `method` = the given method
and `params` = the given params, and carries a bearer `Authorization` header.
The first request carries the token of the client as the prelude left it; after
a token-expired response and a successful authentication the second request
carries the token of the client as the authentication, and the prelude of the
new call, left it. -/
theorem c25_request_body_and_bearer_token (fuel : Nat) (self : OrderManager) (env : Env)
    (method : String) (params : Json) :
    (∀ req ∈ sent_requests
        (new_events env (make_authenticated_request fuel self env method params).env),
        (∀ key, req.post_data.contains key = true
          ↔ key = "jsonrpc" ∨ key = "id" ∨ key = "method" ∨ key = "params")
        ∧ req.post_data.index "jsonrpc" = .string "2.0"
        ∧ req.post_data.index "id" = .number_integer 1
        ∧ req.post_data.index "method" = .string method
        ∧ req.post_data.index "params" = params
        ∧ ∃ token, req.headers
            = ["Content-Type: application/json", "Authorization: Bearer " ++ token])
      ∧ ((ensure_token self env).out = .ret () →
          ((ensure_token self env).env.script.headD timed_out).result ≠ .init_failed →
          ∃ req, (sent_requests (new_events env
              (make_authenticated_request (fuel + 1) self env method params).env)).head?
              = some req
            ∧ req.headers = ["Content-Type: application/json",
                "Authorization: Bearer " ++ (ensure_token self env).self.access_token_])
      ∧ ∀ response, (ensure_token self env).out = .ret () →
          ((ensure_token self env).env.script.headD timed_out).result = .ok (.ok response) →
          carries_token_expired response →
          (reauthentication self env method params).out = .ret () →
          (ensure_token (reauthentication self env method params).self
            (reauthentication self env method params).env).out = .ret () →
          ((ensure_token (reauthentication self env method params).self
            (reauthentication self env method params).env).env.script.headD timed_out).result
            ≠ .init_failed →
          (sent_requests (new_events env
              (make_authenticated_request (fuel + 2) self env method params).env)).take 2
            = [api_request (ensure_token self env).self method params,
                api_request (ensure_token (reauthentication self env method params).self
                  (reauthentication self env method params).env).self method params] := by
  refine ⟨fun req hreq => ?_, fun hpre hinit => ?_,
    fun response hpre hresp hexp hre hpre2 hinit2 => ?_⟩
  · obtain ⟨s, hs⟩ := sent_requests_shape fuel self env method params req hreq
    subst hs
    exact ⟨api_request_body s method params, rfl, rfl, rfl, rfl, ⟨_, rfl⟩⟩
  · rw [request_sent_first fuel self env method params hpre hinit]
    exact ⟨_, rfl, rfl⟩
  · have hinit : ((ensure_token self env).env.script.headD timed_out).result ≠ .init_failed := by
      rw [hresp]
      exact CurlResult.noConfusion
    rw [request_sent_first (fuel + 1) self env method params hpre hinit,
      retry_unfold (fuel + 1) self env method params response hpre hresp hexp hre]
    obtain ⟨ae, hae⟩ := authenticate_trace (ensure_token self env).self
      (after_request self env method params)
    obtain ⟨more, hmore⟩ := request_trace_grows (fuel + 1)
      (reauthentication self env method params).self
      (reauthentication self env method params).env method params
    have hae2 : (reauthentication self env method params).env.trace
        = (after_request self env method params).trace ++ .authenticate_called :: ae := hae
    rw [new_events_trans _ (reauthentication self env method params).env _ _ more hae2 hmore,
      sent_requests_append]
    have hnone : sent_requests (new_events (after_request self env method params)
        (reauthentication self env method params).env) = [] :=
      authenticate_sends_no_request _ _
    rw [hnone, List.nil_append,
      request_sent_first fuel _ _ method params hpre2 hinit2]
    rfl

/-- C25 (witness): a client holding the token `tok` whose first request is
answered with code 13009 and whose authentication yields the token `fresh`
sends the first request with `tok` and the second with `fresh`. -/
theorem c25_request_body_and_bearer_token_witness :
    ((sent_requests (new_events Example.expired_twice
        (make_authenticated_request 5 Example.client Example.expired_twice "private/buy"
          .null).env)).take 2).map HttpRequest.headers
      = [["Content-Type: application/json", "Authorization: Bearer tok"],
          ["Content-Type: application/json", "Authorization: Bearer fresh"]] :=
  (congrArg (List.map HttpRequest.headers)
    ((c25_request_body_and_bearer_token 3 Example.client Example.expired_twice "private/buy"
      .null).2.2 Example.expired_response rfl rfl ⟨rfl, ⟨_, rfl⟩, rfl⟩ rfl rfl
      CurlResult.noConfusion)).trans (by decide)

/-! ### A failed authentication -/

/-- C27 (the code): a failed authentication leaves the token expiry as it was,
and leaves the access token as it was unless the failure is the conversion of
`expires_in`: then the token of the response has already been stored. -/
theorem c27_failed_authentication_may_store_token (self : OrderManager) (env : Env) (e : Exn)
    (h : (authenticate self env).out = .throw e) :
    (authenticate self env).self.token_expiry_ = self.token_expiry_
      ∧ ((authenticate self env).self.access_token_ = self.access_token_
        ∨ ∃ response token,
            (env.script.headD timed_out).result = .ok (.ok response)
            ∧ ((response.index "result").index "access_token").get_string = .ok token
            ∧ (response.index "result").contains "expires_in" = true
            ∧ ((response.index "result").index "expires_in").get_int = .error e
            ∧ (authenticate self env).self.access_token_ = token) := by
  have hres := authenticate_result self env
  unfold authenticate at h ⊢
  dsimp only at h ⊢
  generalize ((Env.mk env.now env.script (env.trace ++ [.authenticate_called])).curl
    (.auth_perform (auth_request self))).2 = result at h hres ⊢
  generalize ((Env.mk env.now env.script (env.trace ++ [.authenticate_called])).curl
    (.auth_perform (auth_request self))).1 = env1 at h ⊢
  cases result with
  | init_failed => exact ⟨rfl, Or.inl rfl⟩
  | perform_failed strerror => exact ⟨rfl, Or.inl rfl⟩
  | ok body =>
    cases body with
    | error what => exact ⟨rfl, Or.inl rfl⟩
    | ok response =>
      dsimp only at h ⊢
      by_cases herr : response.contains "error" = true
      · rw [if_pos herr] at h ⊢
        cases hm : error_message_of (response.index "error") with
        | error e1 => exact ⟨rfl, Or.inl rfl⟩
        | ok msg =>
          dsimp only
          cases hc : error_code_of (response.index "error") with
          | error e1 => exact ⟨rfl, Or.inl rfl⟩
          | ok code => exact ⟨rfl, Or.inl rfl⟩
      · rw [if_neg herr] at h ⊢
        by_cases hinv : (!response.contains "result"
            || !(response.index "result").contains "access_token") = true
        · rw [if_pos hinv]
          exact ⟨rfl, Or.inl rfl⟩
        · rw [if_neg hinv] at h ⊢
          cases htok : ((response.index "result").index "access_token").get_string with
          | error e1 => exact ⟨rfl, Or.inl rfl⟩
          | ok token =>
            rw [htok] at h
            dsimp only at h ⊢
            by_cases hexp : (response.index "result").contains "expires_in" = true
            · rw [if_pos hexp] at h ⊢
              cases hint : ((response.index "result").index "expires_in").get_int with
              | error e1 =>
                rw [hint] at h
                dsimp only at h ⊢
                injection h with h
                subst h
                exact ⟨rfl, Or.inr ⟨response, token, hres.symm, htok, hexp, hint, rfl⟩⟩
              | ok expires_in =>
                rw [hint] at h
                cases h
            · rw [if_neg hexp] at h
              cases h

/-- C27 (failing input): the authentication is answered with a token and an
`expires_in` that is a string. The call throws a type error, the stored token
is the one of the response and the stored expiry is the old one. -/
theorem c27_failed_authentication_may_store_token_witness :
    (authenticate Example.client Example.bad_expiry).out = .throw .json_type_error
      ∧ Example.client.access_token_ = "tok"
      ∧ (authenticate Example.client Example.bad_expiry).self.access_token_ = "fresh"
      ∧ (authenticate Example.client Example.bad_expiry).self.token_expiry_
        = Example.client.token_expiry_ :=
  ⟨rfl, rfl, rfl,
    (c27_failed_authentication_may_store_token Example.client Example.bad_expiry
      .json_type_error rfl).1⟩

/-! ### The average latency and the detailed report -/

theorem average_of_running (monitor : PerformanceMonitor) (name : String) :
    monitor.get_average_latency name
      = if monitor.running_count name = 0 then 0
        else monitor.running_sum name / monitor.running_count name := by
  unfold PerformanceMonitor.get_average_latency PerformanceMonitor.running_count
    PerformanceMonitor.running_sum
  cases map_find monitor.operation_metrics_ name with
  | none => simp
  | some metrics => rfl

/-- C28: after n completed recordings of an operation on a fresh store,
`get_average_latency` returns the arithmetic mean of the n durations when
1 ≤ n ≤ 1000 and the sum of the last 1000 durations, which is the sum of the
window, divided by n when n > 1000; it returns 0 when nothing was recorded
under the name, when the store has no entry for the name and when the count of
the entry is zero. -/
theorem c28_average_latency (recordings : List Recording) (name : String)
    (hstart : ∀ r ∈ recordings, r.start_time ≠ 0) :
    ((durations_of name recordings).length ≤ 1000 → durations_of name recordings ≠ [] →
        (record_all ⟨[]⟩ recordings).get_average_latency name
          = (durations_of name recordings).sum / (durations_of name recordings).length)
      ∧ (1000 < (durations_of name recordings).length →
        (record_all ⟨[]⟩ recordings).get_average_latency name
            = ((durations_of name recordings).drop
                ((durations_of name recordings).length - 1000)).sum
              / (durations_of name recordings).length
          ∧ (record_all ⟨[]⟩ recordings).window name
            = (durations_of name recordings).drop
                ((durations_of name recordings).length - 1000)
          ∧ ((record_all ⟨[]⟩ recordings).window name).length = 1000)
      ∧ (durations_of name recordings = [] →
        (record_all ⟨[]⟩ recordings).get_average_latency name = 0)
      ∧ (∀ monitor : PerformanceMonitor, map_find monitor.operation_metrics_ name = none →
        monitor.get_average_latency name = 0)
      ∧ (∀ (monitor : PerformanceMonitor) (metrics : OperationMetrics),
        map_find monitor.operation_metrics_ name = some metrics → metrics.count = 0 →
        monitor.get_average_latency name = 0) := by
  obtain ⟨h1, h2, h3⟩ := record_all_state recordings name ⟨[]⟩ hstart
    (by simp [PerformanceMonitor.window, map_find])
    (by simp [PerformanceMonitor.window, PerformanceMonitor.running_sum, map_find])
  have hw : (PerformanceMonitor.mk []).window name = [] := rfl
  have hc : (PerformanceMonitor.mk []).running_count name = 0 := rfl
  rw [hw, List.nil_append] at h1
  rw [hc, Nat.zero_add] at h3
  refine ⟨fun hle hne => ?_, fun hgt => ⟨?_, h1, ?_⟩, fun hnil => ?_, fun monitor hnone => ?_,
    fun monitor metrics hsome hzero => ?_⟩
  · have hpos : (durations_of name recordings).length ≠ 0 := by
      intro h
      exact hne (List.length_eq_zero.1 h)
    rw [average_of_running, h3, if_neg hpos, h2, h1, Nat.sub_eq_zero_of_le hle, List.drop_zero]
  · have hpos : (durations_of name recordings).length ≠ 0 := by omega
    rw [average_of_running, h3, if_neg hpos, h2, h1]
  · rw [h1, List.length_drop]
    omega
  · rw [average_of_running, h3, hnil]
    rfl
  · unfold PerformanceMonitor.get_average_latency
    rw [hnone]
  · unfold PerformanceMonitor.get_average_latency
    rw [hsome]
    exact if_pos hzero

/-- C28 (witness): two recordings of 2 ms and 5 ms for one operation have the
average 7/2 ms. -/
theorem c28_average_latency_witness :
    (record_all ⟨[]⟩ [⟨"op", 1000000, 3000000⟩, ⟨"op", 4000000, 9000000⟩]).get_average_latency
        "op" = 7 / 2 :=
  ((c28_average_latency [⟨"op", 1000000, 3000000⟩, ⟨"op", 4000000, 9000000⟩] "op"
    (by decide)).1 (by decide) (by simp [durations_of])).trans (by
      have h1 : to_microseconds (3000000 - 1000000) = 2000 := by decide
      have h2 : to_microseconds (9000000 - 4000000) = 5000 := by decide
      simp only [durations_of, List.filter, decide_True, List.map, Recording.duration, h1, h2,
        List.length_cons, List.length_nil, List.sum_cons, List.sum_nil]
      norm_num)

theorem print_entries_relocks (self : PerformanceMonitor)
    (entries : List (String × OperationMetrics)) (lines : List MetricsLine)
    (h : ∃ entry ∈ entries, 0 < entry.2.count) :
    ∃ name metrics, (name, metrics) ∈ entries ∧ 0 < metrics.count
      ∧ self.print_entries entries lines = .relocked name := by
  induction entries generalizing lines with
  | nil =>
    obtain ⟨entry, hmem, _⟩ := h
    exact absurd hmem (List.not_mem_nil _)
  | cons entry rest ih =>
    obtain ⟨name, metrics⟩ := entry
    by_cases hpos : metrics.count > 0
    · refine ⟨name, metrics, List.mem_cons_self _ _, hpos, ?_⟩
      unfold PerformanceMonitor.print_entries
      rw [if_pos hpos]
      rfl
    · have hrest : ∃ entry ∈ rest, 0 < entry.2.count := by
        obtain ⟨entry, hmem, hcount⟩ := h
        rcases List.mem_cons.1 hmem with e | hin
        · subst e
          exact absurd hcount hpos
        · exact ⟨entry, hin, hcount⟩
      obtain ⟨n, m, hmem, hcount, hprint⟩ := ih lines hrest
      refine ⟨n, m, List.mem_cons_of_mem _ hmem, hcount, ?_⟩
      unfold PerformanceMonitor.print_entries
      rw [if_neg hpos]
      exact hprint

/-- C29 (the code): whenever some operation of the store has a count above
zero, `print_detailed_metrics` does not complete: working on such an operation
it calls `get_percentile_latency`, which locks the mutex that
`print_detailed_metrics` holds, before it has written any line. -/
theorem c29_detailed_report_locks_twice (self : PerformanceMonitor)
    (h : ∃ entry ∈ self.operation_metrics_, 0 < entry.2.count) :
    ∃ name metrics, (name, metrics) ∈ self.operation_metrics_ ∧ 0 < metrics.count
      ∧ self.print_detailed_metrics = .relocked name :=
  print_entries_relocks self self.operation_metrics_ [] h

/-- C29 (failing input): a store that has tracked one latency of 1 ms for the
symbol `x`. -/
theorem c29_detailed_report_locks_twice_witness :
    ((PerformanceMonitor.mk []).track_websocket_latency "x" 1).print_detailed_metrics
        = .relocked "websocket_x"
      ∧ ∃ name metrics,
          (name, metrics) ∈ ((PerformanceMonitor.mk []).track_websocket_latency "x"
            1).operation_metrics_
          ∧ 0 < metrics.count
          ∧ ((PerformanceMonitor.mk []).track_websocket_latency "x" 1).print_detailed_metrics
            = .relocked name :=
  ⟨rfl, c29_detailed_report_locks_twice ((PerformanceMonitor.mk []).track_websocket_latency "x" 1)
    ⟨("websocket_x", ⟨0, [1], 0 + 1, 1⟩), List.mem_singleton.2 rfl, Nat.one_pos⟩⟩

/-! ### The order that `place_order` sends -/

theorem index_object (members : List (String × Json)) (key : String) :
    (Json.object members).index key = (map_find members key).getD .null := by
  simp only [Json.index, lookup_eq_map_find]

theorem find_update_if (members : List (String × Json)) (key other : String) (value : Json)
    (c : Prop) [Decidable c] (hne : other ≠ key) :
    map_find (if c then map_update members key .null fun _ => value else members) other
      = map_find members other := by
  by_cases hc : c
  · rw [if_pos hc, map_find_update_other _ _ _ _ _ hne]
  · rw [if_neg hc]

/-- The value of a member of the object that `place_order` builds, for the
members that are added before the optional ones and the three added after. -/
theorem place_order_params_index (instrument_name : String) (amount : Int) (price : Rat)
    (type : String) (trigger_price : Rat) (time_in_force label : String)
    (post_only reduce_only : Bool) :
    (OrderManager.place_order_params instrument_name amount price type trigger_price
        time_in_force label post_only reduce_only).index "instrument_name"
        = .string instrument_name
      ∧ (OrderManager.place_order_params instrument_name amount price type trigger_price
        time_in_force label post_only reduce_only).index "amount" = .number_integer amount
      ∧ (OrderManager.place_order_params instrument_name amount price type trigger_price
        time_in_force label post_only reduce_only).index "type" = .string type
      ∧ (OrderManager.place_order_params instrument_name amount price type trigger_price
        time_in_force label post_only reduce_only).index "time_in_force"
        = .string time_in_force
      ∧ (OrderManager.place_order_params instrument_name amount price type trigger_price
        time_in_force label post_only reduce_only).index "post_only" = .boolean post_only
      ∧ (OrderManager.place_order_params instrument_name amount price type trigger_price
        time_in_force label post_only reduce_only).index "reduce_only"
        = .boolean reduce_only := by
  have hbase1 : map_find [("instrument_name", Json.string instrument_name),
      ("amount", .number_integer amount), ("type", .string type)] "instrument_name"
      = some (.string instrument_name) := by simp [map_find]
  have hbase2 : map_find [("instrument_name", Json.string instrument_name),
      ("amount", .number_integer amount), ("type", .string type)] "amount"
      = some (.number_integer amount) := by simp [map_find]
  have hbase3 : map_find [("instrument_name", Json.string instrument_name),
      ("amount", .number_integer amount), ("type", .string type)] "type"
      = some (.string type) := by simp [map_find]
  unfold OrderManager.place_order_params
  dsimp only
  generalize [("instrument_name", Json.string instrument_name),
      ("amount", Json.number_integer amount), ("type", Json.string type)] = base
    at hbase1 hbase2 hbase3 ⊢
  rw [assign_if, assign_if, assign_if, assign_object, assign_object, assign_object]
  simp only [index_object]
  refine ⟨?_, ?_, ?_, ?_, ?_, ?_⟩
  · rw [map_find_update_other _ _ _ _ _ (by decide), map_find_update_other _ _ _ _ _ (by decide),
      map_find_update_other _ _ _ _ _ (by decide), find_update_if _ _ _ _ _ (by decide),
      find_update_if _ _ _ _ _ (by decide), find_update_if _ _ _ _ _ (by decide), hbase1]
    rfl
  · rw [map_find_update_other _ _ _ _ _ (by decide), map_find_update_other _ _ _ _ _ (by decide),
      map_find_update_other _ _ _ _ _ (by decide), find_update_if _ _ _ _ _ (by decide),
      find_update_if _ _ _ _ _ (by decide), find_update_if _ _ _ _ _ (by decide), hbase2]
    rfl
  · rw [map_find_update_other _ _ _ _ _ (by decide), map_find_update_other _ _ _ _ _ (by decide),
      map_find_update_other _ _ _ _ _ (by decide), find_update_if _ _ _ _ _ (by decide),
      find_update_if _ _ _ _ _ (by decide), find_update_if _ _ _ _ _ (by decide), hbase3]
    rfl
  · rw [map_find_update_other _ _ _ _ _ (by decide), map_find_update_other _ _ _ _ _ (by decide),
      map_find_update_same]
    rfl
  · rw [map_find_update_other _ _ _ _ _ (by decide), map_find_update_same]
    rfl
  · rw [map_find_update_same]
    rfl

/-- C30: the object `params` of `place_order` has a member `price` exactly
when the price is not 0 and the type is not market, a member `trigger_price`
exactly when the trigger price is not 0 and the type is stop_limit or
stop_market, and a member `label` exactly when the label is not empty; it
always holds the given instrument name, amount, type, time in force, post-only
and reduce-only values. Every request of the call goes to the method
`private/` followed by the side, whatever the side is, and carries this
object; with a valid token and a curl handle such a request is sent. -/
theorem c30_place_order_request (fuel : Nat) (self : OrderManager) (env : Env)
    (monitor : PerformanceMonitor) (instrument_name side : String) (amount : Int) (price : Rat)
    (type : String) (trigger_price : Rat) (time_in_force label : String)
    (post_only reduce_only : Bool) :
    ((OrderManager.place_order_params instrument_name amount price type trigger_price
        time_in_force label post_only reduce_only).contains "price" = true
        ↔ price ≠ 0 ∧ type ≠ "market")
      ∧ ((OrderManager.place_order_params instrument_name amount price type trigger_price
        time_in_force label post_only reduce_only).contains "trigger_price" = true
        ↔ trigger_price ≠ 0 ∧ (type = "stop_limit" ∨ type = "stop_market"))
      ∧ ((OrderManager.place_order_params instrument_name amount price type trigger_price
        time_in_force label post_only reduce_only).contains "label" = true ↔ label ≠ "")
      ∧ (OrderManager.place_order_params instrument_name amount price type trigger_price
        time_in_force label post_only reduce_only).index "instrument_name"
        = .string instrument_name
      ∧ (OrderManager.place_order_params instrument_name amount price type trigger_price
        time_in_force label post_only reduce_only).index "amount" = .number_integer amount
      ∧ (OrderManager.place_order_params instrument_name amount price type trigger_price
        time_in_force label post_only reduce_only).index "type" = .string type
      ∧ (OrderManager.place_order_params instrument_name amount price type trigger_price
        time_in_force label post_only reduce_only).index "time_in_force"
        = .string time_in_force
      ∧ (OrderManager.place_order_params instrument_name amount price type trigger_price
        time_in_force label post_only reduce_only).index "post_only" = .boolean post_only
      ∧ (OrderManager.place_order_params instrument_name amount price type trigger_price
        time_in_force label post_only reduce_only).index "reduce_only"
        = .boolean reduce_only
      ∧ (∀ req ∈ sent_requests (new_events env
          (self.place_order fuel env monitor instrument_name side amount price type
            trigger_price time_in_force label post_only reduce_only).env),
          req.url = "https://test.deribit.com/api/v2/" ++ ("private/" ++ side)
          ∧ req.post_data.index "method" = .string ("private/" ++ side)
          ∧ req.post_data.index "params"
            = OrderManager.place_order_params instrument_name amount price type trigger_price
                time_in_force label post_only reduce_only)
      ∧ (needs_authentication self env.now = false →
          (env.script.headD timed_out).result ≠ .init_failed →
          (sent_requests (new_events env
            (self.place_order (fuel + 1) env monitor instrument_name side amount price type
              trigger_price time_in_force label post_only reduce_only).env)).head?
            = some (api_request self ("private/" ++ side)
                (OrderManager.place_order_params instrument_name amount price type
                  trigger_price time_in_force label post_only reduce_only))) := by
  obtain ⟨i1, i2, i3, i4, i5, i6⟩ := place_order_params_index instrument_name amount price type
    trigger_price time_in_force label post_only reduce_only
  refine ⟨?_, ?_, ?_, i1, i2, i3, i4, i5, i6, fun req hreq => ?_, fun hvalid hinit => ?_⟩
  · rw [place_order_params_contains]
    constructor
    · intro h
      rcases h with h | h | h | h | h | h | h | h | h
      all_goals first
        | exact absurd h (by decide)
        | exact h.2
        | exact absurd h.1 (by decide)
    · intro h
      exact Or.inr (Or.inr (Or.inr (Or.inr (Or.inr (Or.inr (Or.inl ⟨rfl, h⟩))))))
  · rw [place_order_params_contains]
    constructor
    · intro h
      rcases h with h | h | h | h | h | h | h | h | h
      all_goals first
        | exact absurd h (by decide)
        | exact h.2
        | exact absurd h.1 (by decide)
    · intro h
      exact Or.inr (Or.inr (Or.inr (Or.inr (Or.inr (Or.inr (Or.inr (Or.inl ⟨rfl, h⟩)))))))
  · rw [place_order_params_contains]
    constructor
    · intro h
      rcases h with h | h | h | h | h | h | h | h | h
      all_goals first
        | exact absurd h (by decide)
        | exact h.2
        | exact absurd h.1 (by decide)
    · intro h
      exact Or.inr (Or.inr (Or.inr (Or.inr (Or.inr (Or.inr (Or.inr (Or.inr ⟨rfl, h⟩)))))))
  · unfold OrderManager.place_order at hreq
    rw [(timed_request_fields _ _ _ _ _ _ _).1] at hreq
    obtain ⟨s, hs⟩ := sent_requests_shape fuel self env _ _ req hreq
    subst hs
    exact ⟨rfl, rfl, rfl⟩
  · unfold OrderManager.place_order
    rw [(timed_request_fields _ _ _ _ _ _ _).1]
    have hpre := ensure_token_valid self env hvalid
    rw [request_sent_first fuel self env _ _ (by rw [hpre]) (by rw [hpre]; exact hinit), hpre]
    rfl

/-- C30 (witness): the limit order of main.cpp, with its price set to 0, has no
member `price`, and the request goes to `private/` followed by a side that the
exchange does not know. -/
theorem c30_place_order_request_witness :
    (OrderManager.place_order_params "BTC-PERPETUAL" 100 0 "limit" 0 "good_til_cancelled"
        "test_order" true false).contains "price" = false
      ∧ ((sent_requests (new_events (Example.one_answer 0)
          (Example.client.place_order 1 (Example.one_answer 0) ⟨[]⟩ "BTC-PERPETUAL" "hold" 100 0
            "limit" 0 "good_til_cancelled" "test_order" true false).env)).head?).map
          HttpRequest.url
        = some "https://test.deribit.com/api/v2/private/hold" :=
  ⟨by
      cases h : (OrderManager.place_order_params "BTC-PERPETUAL" 100 0 "limit" 0
        "good_til_cancelled" "test_order" true false).contains "price" with
      | false => rfl
      | true =>
        exact absurd rfl ((c30_place_order_request 0 Example.client (Example.one_answer 0) ⟨[]⟩
          "BTC-PERPETUAL" "hold" 100 0 "limit" 0 "good_til_cancelled" "test_order" true
          false).1.1 h).1,
    (congrArg (Option.map HttpRequest.url)
      ((c30_place_order_request 0 Example.client (Example.one_answer 0) ⟨[]⟩
        "BTC-PERPETUAL" "hold" 100 0 "limit" 0 "good_til_cancelled" "test_order" true
        false).2.2.2.2.2.2.2.2.2.2 (by decide) CurlResult.noConfusion)).trans (by decide)⟩

end MarketMiner
